import Mathlib

/-!
# WiFiManager: a shallow embedding of `src/WiFiManager.cpp`

The C++ object `WiFiManager` becomes the record `Manager` of its member
variables; `World` adds the radio state the manager reads and writes through
the ESP8266 SDK, and every call that leaves the manager (SDK, DNS server, web
server, user callbacks) is appended to a trace of `Event`s.  Values the
hardware supplies (the millisecond clock, the number of associated stations,
the HTTP request served by one `handleClient` cycle, the outcome of a
connection wait) are read from an `Env` of oracles.  Debug output and the
markup of the generated pages are not modelled.

Machine integers: `millis()`, `_configPortalStart`, `_configPortalTimeout`,
`_webPortalAccessed` and `timer` are `unsigned long`, 32 bits wide on the
ESP8266; they are natural numbers here, and every sum or difference the code
computes on them is reduced modulo `2 ^ 32`.
-/

namespace WiFiManager

/-! ## Constants -/

/-- Number of values of a 32-bit `unsigned long`. -/
def U32 : Nat := 4294967296

/-- Link status `WL_IDLE_STATUS` of the ESP8266 core. -/
def WL_IDLE_STATUS : Nat := 0
/-- Link status `WL_NO_SSID_AVAIL`. -/
def WL_NO_SSID_AVAIL : Nat := 1
/-- Link status `WL_CONNECTED`. -/
def WL_CONNECTED : Nat := 3
/-- Link status `WL_CONNECT_FAILED`. -/
def WL_CONNECT_FAILED : Nat := 4

/-- Radio mode `WIFI_OFF`. -/
def WIFI_OFF : Nat := 0
/-- Radio mode bit `WIFI_STA`. -/
def WIFI_STA : Nat := 1
/-- Radio mode bit `WIFI_AP`. -/
def WIFI_AP : Nat := 2
/-- Radio mode `WIFI_AP_STA`. -/
def WIFI_AP_STA : Nat := 3

/-! ## Data model -/

/-- Calls that leave the manager (SDK, servers, user callbacks), in the order
the code makes them; `connectWifi` marks the entry of
`WiFiManager::connectWifi`, and `sendPage` stands for the `Content-Length`
header and the `send` of a generated page, whose markup is not modelled. -/
inductive Event where
  | saveCallback
  | apCallback
  | dnsProcessNextRequest
  | dnsStart
  | handleClient
  | serverBegin
  | serverStop
  | sendHeader (name value : String)
  | send (code : Nat) (contentType body : String)
  | sendPage (code : Nat) (page : String)
  | clientStop
  | softAPConfig
  | softAP (ssid : String) (password : Option String)
  | softAPdisconnect
  | stationDisconnect
  | setOpmode (mode : Nat) (persist : Bool)
  | setPersistent (enabled : Bool)
  | staConfig
  | wifiBegin (ssid pass : String)
  | wifiBeginStored
  | beginWPS
  | waitForConnectResult
  | connectWifi (ssid pass : String)
  | delay (ms : Nat)
  | restart
  deriving DecidableEq, Repr

/-- The member variables of the C++ object that the modelled functions use.
The callback members `_savecallback` and `_apcallback` are `true` when a
callback is registered (the pointer is not `NULL`); `_ap_static_ip` and
`_sta_static_ip` are the 32-bit addresses, zero when unset; `server` and
`dnsServer` are `true` while the `unique_ptr` holds a server. -/
structure Manager where
  _configPortalTimeout : Nat
  _cpClientCheck : Bool
  _webClientCheck : Bool
  _debugLevel : Nat
  _shouldBreakAfterConfig : Bool
  _enableCaptivePortal : Bool
  _configPortalIsBlocking : Bool
  _tryWPS : Bool
  storeSTAmode : Bool
  portalAbortResult : Bool
  portalTimeoutResult : Bool
  _savecallback : Bool
  _apcallback : Bool
  _ap_static_ip : Nat
  _sta_static_ip : Nat
  _usermode : Nat
  _apName : String
  _apPassword : String
  _ssid : String
  _pass : String
  _configPortalStart : Nat
  _webPortalAccessed : Nat
  timer : Nat
  configPortalActive : Bool
  webPortalActive : Bool
  connect : Bool
  abort : Bool
  server : Bool
  dnsServer : Bool
  deriving DecidableEq, Repr

/-! ## Helpers: `isIp`, `toStringIp`, `validApPassword` -/

/-- The loop of `isIp` over the characters still to be read: the first
character that is neither `.` nor a decimal digit ends it with `false`. -/
def isIpLoop : List Char → Bool
  | [] => true
  | c :: rest =>
    if c ≠ '.' ∧ (c.toNat < '0'.toNat ∨ c.toNat > '9'.toNat) then false
    else isIpLoop rest

/-- Source function `WiFiManager::isIp`. -/
def isIp (str : String) : Bool := isIpLoop str.data

/-- Source function `WiFiManager::toStringIp`: the address is the 32-bit value of the
`IPAddress`; `String(n)` is the decimal rendering of `n`. -/
def toStringIp (ip : Nat) : String :=
  let res := (List.range 3).foldl
    (fun res i => res ++ (toString ((ip >>> (8 * i)) &&& 0xFF) ++ ".")) ""
  res ++ toString ((ip >>> (8 * 3)) &&& 0xFF)

/-- An Arduino `String` assigned from a `const char*`: a null pointer leaves
a `String` of length zero. -/
def assignCStr (p : Option String) : String := p.getD ""

/-- Source function `WiFiManager::validApPassword`.  A `String` assigned from `NULL` has
length zero and compares equal to `""`, so the first statement leaves an
empty `String`. -/
def validApPassword (m : Manager) : Bool × Manager :=
  let m := if m._apPassword = "" then { m with _apPassword := "" } else m
  if m._apPassword ≠ "" then
    if m._apPassword.length < 8 ∨ m._apPassword.length > 63 then
      (false, { m with _apPassword := "" })
    else (true, m)
  else (true, m)

/-! ## Portal timeout -/

/-- Source function `WiFiManager::configPortalHasTimeout`, with `now` the value `millis()`
returns during the check and `stations` the value of
`wifi_softap_get_station_num()`.  The chained comparison
`_webPortalAccessed>_configPortalStart>0` parses as
`(_webPortalAccessed > _configPortalStart) > 0`. -/
def configPortalHasTimeout (m : Manager) (now stations : Nat) : Bool × Manager :=
  if m._configPortalTimeout = 0 ∨ (m._cpClientCheck = true ∧ stations > 0) then
    let m := if (now + U32 - m.timer) % U32 > 30000 then { m with timer := now } else m
    (false, { m with _configPortalStart := now })
  else
    let m :=
      if m._webClientCheck = true ∧
          (if m._webPortalAccessed > m._configPortalStart then 1 else 0) > 0 then
        { m with _configPortalStart := m._webPortalAccessed }
      else m
    if now > (m._configPortalStart + m._configPortalTimeout) % U32 then
      (true, m)
    else if m._debugLevel > 0 then
      if (now + U32 - m.timer) % U32 > 1000 then (false, { m with timer := now })
      else (false, m)
    else (false, m)

/-- The results of successive timeout checks, one per `(now, stations)`
reading, each check starting from the state the previous one left. -/
def timeoutChecks : Manager → List (Nat × Nat) → List Bool
  | _, [] => []
  | m, (now, stations) :: rest =>
    (configPortalHasTimeout m now stations).1 ::
      timeoutChecks (configPortalHasTimeout m now stations).2 rest

/-! ## Captive-portal redirect -/

/-- Source function `WiFiManager::captivePortal` for a request with host header `hostHeader`
received on local address `localIP`: the result and the calls made on the
web server. -/
def captivePortal (m : Manager) (hostHeader : String) (localIP : Nat) : Bool × List Event :=
  if m._enableCaptivePortal = false then (false, [])
  else if isIp hostHeader = false then
    (true, [Event.sendHeader "Location" ("http://" ++ toStringIp localIP),
            Event.send 302 "text/plain" "",
            Event.clientStop])
  else (false, [])

/-! ## The portal state machine -/

/-- One HTTP request, by the route of `setupConfigPortal` that serves it.
`wifisave` carries the form arguments `s` and `p` and the address parsed from
the argument `ip` when that argument is present; `erase` carries the result
of the flash erase. -/
inductive Request where
  | root (hostHeader : String) (localIP : Nat)
  | wifi (scan : Bool)
  | wifisave (ssid pass : String) (staticIp : Option Nat)
  | info
  | reset
  | exit
  | erase (erased : Bool)
  | status
  | notFound (hostHeader : String) (localIP : Nat)
  deriving DecidableEq, Repr

/-- What the hardware supplies, indexed by the number of readings taken so
far (`World.tick`). -/
structure Env where
  millis : Nat → Nat
  stations : Nat → Nat
  request : Nat → Option Request
  waitResult : Nat → Nat
  softAPResult : Nat → Bool
  softAPdisconnectResult : Nat → Bool

/-- The manager together with the radio state it reads and writes: the
operating mode (`wifi_get_opmode`), whether the station is connected
(`WiFi.isConnected()`), the ssid of the station configuration (`WiFi.SSID()`),
the number of readings taken from the environment and the trace of calls. -/
structure World where
  m : Manager
  opmode : Nat
  staConnected : Bool
  storedSSID : String
  tick : Nat
  log : List Event

/-- Why a call did not return: a member call on a released (`reset()`)
server pointer, the device restarting, or the blocking loop still running
when the fuel of the model ran out. -/
inductive Halt where
  | nullDeref
  | restart
  | outOfFuel
  deriving DecidableEq, Repr

/-- The outcome of a call: it returns a value, or it does not return. -/
inductive Outcome (α : Type) where
  | ok (val : α) (w : World)
  | halted (why : Halt) (w : World)

/-- Append a call to the trace. -/
def World.emit (w : World) (e : Event) : World := { w with log := w.log ++ [e] }

/-- Source function `WiFiManager::WiFi_Mode(m, persistent)`; the SDK call sets the mode. -/
def WiFi_Mode (w : World) (mode : Nat) (persist : Bool) : Bool × World :=
  if w.opmode = mode ∧ persist = false then (true, w)
  else (true, { (w.emit (Event.setOpmode mode persist)) with opmode := mode })

/-- Source function `WiFiManager::WiFi_Disconnect`. -/
def WiFi_Disconnect (w : World) : World :=
  if w.opmode &&& WIFI_STA ≠ 0 then
    { (w.emit Event.stationDisconnect) with staConnected := false }
  else w

/-- Source function `WiFiManager::WiFi_enableSTA(enable, persistent)`. -/
def WiFi_enableSTA (w : World) (enable persist : Bool) : Bool × World :=
  let currentMode := w.opmode
  let isEnabled := decide (currentMode &&& WIFI_STA ≠ 0)
  if isEnabled ≠ enable ∨ persist = true then
    if enable = true then WiFi_Mode w (currentMode ||| WIFI_STA) persist
    else WiFi_Mode w (currentMode &&& 0xFFFFFFFE) persist
  else (true, w)

/-- Source function `WiFiManager::startAP`.  `WiFi.softAP` switches the AP role on before
it configures the AP; its result comes from the environment. -/
def startAP (env : Env) (w : World) : Bool × World :=
  let w := if w.m._ap_static_ip ≠ 0 then w.emit Event.softAPConfig else w
  let ret := env.softAPResult w.tick
  let w :=
    if w.m._apPassword ≠ "" then
      { (w.emit (Event.softAP w.m._apName (some w.m._apPassword))) with
          opmode := w.opmode ||| WIFI_AP, tick := w.tick + 1 }
    else
      { (w.emit (Event.softAP w.m._apName none)) with
          opmode := w.opmode ||| WIFI_AP, tick := w.tick + 1 }
  let w := w.emit (Event.delay 500)
  let w := if w.m._apcallback = true then w.emit Event.apCallback else w
  (ret, w)

/-- Source function `WiFiManager::setupConfigPortal`: both server pointers are set to fresh
servers, the DNS server and the web server are started. -/
def setupConfigPortal (w : World) : World :=
  let w := { w with m := { w.m with dnsServer := true, server := true } }
  (w.emit Event.dnsStart).emit Event.serverBegin

/-- Source function `WiFiManager::handleRequest`. -/
def handleRequest (env : Env) (w : World) : World :=
  { w with m := { w.m with _webPortalAccessed := env.millis w.tick }, tick := w.tick + 1 }

/-- The call of `captivePortal` inside a page handler: its calls join the trace. -/
def captivePortalW (w : World) (hostHeader : String) (localIP : Nat) : Bool × World :=
  ((captivePortal w.m hostHeader localIP).1,
   { w with log := w.log ++ (captivePortal w.m hostHeader localIP).2 })

/-- The page handlers of the route table, as far as they touch the manager:
`handleRoot`, `handleWifi`, `handleWifiSave`, `handleInfo`, `handleReset`,
`handleExit`, `handleErase`, `handleWiFiStatus`, `handleNotFound`.  Of
`handleWifiSave` the gateway and netmask arguments are left out, and its
custom parameter loop is the separate `handleWifiSaveParams`; `reboot()` does
not return. -/
def dispatch (env : Env) (w : World) : Request → Outcome Unit
  | Request.root host ip =>
    if (captivePortalW w host ip).1 = true then Outcome.ok () (captivePortalW w host ip).2
    else Outcome.ok () ((handleRequest env (captivePortalW w host ip).2).emit
      (Event.sendPage 200 "root"))
  | Request.wifi _ => Outcome.ok () ((handleRequest env w).emit (Event.sendPage 200 "wifi"))
  | Request.wifisave ssid pass staticIp =>
    let w := handleRequest env w
    let w := { w with m := { w.m with _ssid := ssid, _pass := pass } }
    let w := match staticIp with
      | some ip => { w with m := { w.m with _sta_static_ip := ip } }
      | none => w
    let w := w.emit (Event.sendPage 200 "wifisave")
    Outcome.ok () { w with m := { w.m with connect := true } }
  | Request.info => Outcome.ok () ((handleRequest env w).emit (Event.sendPage 200 "info"))
  | Request.reset =>
    Outcome.halted Halt.restart
      ((((handleRequest env w).emit (Event.sendPage 200 "reset")).emit
        (Event.delay 1000)).emit Event.restart)
  | Request.exit =>
    let w := (handleRequest env w).emit (Event.sendPage 200 "exit")
    Outcome.ok () { w with m := { w.m with abort := true } }
  | Request.erase erased =>
    let w := (handleRequest env w).emit (Event.sendPage 200 "erase")
    if erased = true then
      Outcome.halted Halt.restart ((w.emit (Event.delay 2000)).emit Event.restart)
    else Outcome.ok () w
  | Request.status => Outcome.ok () ((handleRequest env w).emit (Event.sendPage 200 "status"))
  | Request.notFound host ip =>
    if (captivePortalW w host ip).1 = true then Outcome.ok () (captivePortalW w host ip).2
    else Outcome.ok () ((handleRequest env (captivePortalW w host ip).2).emit
      (Event.sendPage 404 "notfound"))

/-- The two service calls that open `handleConfigPortal` and
`stopConfigPortal`: `dnsServer->processNextRequest()` and
`server->handleClient()`, the latter serving the request the environment
holds for this cycle, if any. -/
def serviceServers (env : Env) (w : World) : Outcome Unit :=
  if w.m.dnsServer = false then Outcome.halted Halt.nullDeref w
  else
    let w := w.emit Event.dnsProcessNextRequest
    if w.m.server = false then Outcome.halted Halt.nullDeref w
    else
      let w := w.emit Event.handleClient
      match env.request w.tick with
      | none => Outcome.ok () { w with tick := w.tick + 1 }
      | some r => dispatch env { w with tick := w.tick + 1 } r

/-- The statements `server->stop(); server.reset(); dnsServer.reset();` of
`stopConfigPortal`. -/
def releaseServers (w : World) : World :=
  { (w.emit Event.serverStop) with m := { w.m with server := false, dnsServer := false } }

/-- Library call `WiFi.softAPdisconnect(false)`: the AP configuration is cleared, the
radio mode is left as it is, and the result comes from the environment. -/
def WiFi_softAPdisconnect (env : Env) (w : World) : Bool × World :=
  (env.softAPdisconnectResult w.tick,
   { (w.emit Event.softAPdisconnect) with tick := w.tick + 1 })

/-- The assignment `configPortalActive = false`. -/
def setInactive (w : World) : World :=
  { w with m := { w.m with configPortalActive := false } }

/-- Source function `WiFiManager::stopConfigPortal`. -/
def stopConfigPortal (env : Env) (w : World) : Outcome Bool :=
  if w.m.webPortalActive = true then Outcome.ok false w
  else
    let w := if w.m._savecallback = true then w.emit Event.saveCallback else w
    match serviceServers env w with
    | Outcome.halted why w => Outcome.halted why w
    | Outcome.ok _ w =>
      let w := releaseServers w
      if w.m.configPortalActive = false then Outcome.ok false w
      else
        let d := WiFi_softAPdisconnect env w
        Outcome.ok d.1 (setInactive (WiFi_Mode d.2 d.2.m._usermode false).2)

/-- Source function `WiFiManager::waitForConnectResult()`: the wait is entered and ends with
the link status the environment supplies. -/
def waitForConnectResult (env : Env) (w : World) : Nat × World :=
  (env.waitResult w.tick,
   { (w.emit Event.waitForConnectResult) with
       staConnected := decide (env.waitResult w.tick = WL_CONNECTED), tick := w.tick + 1 })

/-- Library call `WiFi.begin(ssid, pass)`: the station role is switched on and `ssid`
becomes the ssid of the station configuration. -/
def WiFi_begin (w : World) (ssid pass : String) : World :=
  { (w.emit (Event.wifiBegin ssid pass)) with opmode := w.opmode ||| WIFI_STA, storedSSID := ssid }

/-- Library call `WiFi.begin()`: the station role is switched on and the stored
configuration is joined. -/
def WiFi_beginStored (w : World) : World :=
  { (w.emit Event.wifiBeginStored) with opmode := w.opmode ||| WIFI_STA }

/-- Source function `WiFiManager::connectWifi`. -/
def connectWifi (env : Env) (w : World) (ssid pass : String) : Nat × World :=
  let w := w.emit (Event.connectWifi ssid pass)
  let w := if w.m._sta_static_ip ≠ 0 then w.emit Event.staConfig else w
  let w := WiFi_Disconnect w
  let r : Nat × World :=
    if ssid ≠ "" then
      let w := (WiFi_enableSTA w true w.m.storeSTAmode).2
      let w := w.emit (Event.setPersistent true)
      let w := WiFi_begin w ssid pass
      let w := w.emit (Event.setPersistent false)
      waitForConnectResult env w
    else if w.storedSSID ≠ "" then
      let w := (WiFi_enableSTA w true w.m.storeSTAmode).2
      let w := WiFi_beginStored w
      waitForConnectResult env w
    else (WL_NO_SSID_AVAIL, w)
  if r.2.m._tryWPS = true ∧ r.1 ≠ WL_CONNECTED ∧ pass = "" then
    waitForConnectResult env (r.2.emit Event.beginWPS)
  else r

/-- Source function `WiFiManager::handleConfigPortal`. -/
def handleConfigPortal (env : Env) (w : World) : Outcome Nat :=
  match serviceServers env w with
  | Outcome.halted why w => Outcome.halted why w
  | Outcome.ok _ w =>
    if w.m.connect = true then
      let w := { w with m := { w.m with connect := false } }
      let w := w.emit (Event.delay 2000)
      let r := connectWifi env w w.m._ssid w.m._pass
      if r.1 = WL_CONNECTED then
        match stopConfigPortal env r.2 with
        | Outcome.halted why w => Outcome.halted why w
        | Outcome.ok _ w => Outcome.ok WL_CONNECTED w
      else if r.2.m._shouldBreakAfterConfig = true then
        match stopConfigPortal env r.2 with
        | Outcome.halted why w => Outcome.halted why w
        | Outcome.ok _ w => Outcome.ok WL_CONNECT_FAILED w
      else
        Outcome.ok WL_IDLE_STATUS (WiFi_enableSTA (WiFi_Disconnect r.2) false false).2
    else Outcome.ok WL_IDLE_STATUS w

/-- The blocking loop of `startConfigPortal`; `fuel` bounds the number of
iterations the model runs. -/
def portalLoop (env : Env) : Nat → World → Outcome Bool
  | 0, w => Outcome.halted Halt.outOfFuel w
  | fuel + 1, w =>
    let c := configPortalHasTimeout w.m (env.millis w.tick) (env.stations w.tick)
    let w := { w with m := c.2, tick := w.tick + 1 }
    if c.1 = true ∨ w.m.abort = true then
      match stopConfigPortal env w with
      | Outcome.halted why w => Outcome.halted why w
      | Outcome.ok _ w =>
        Outcome.ok (if w.m.abort = true then w.m.portalAbortResult
                    else w.m.portalTimeoutResult) w
    else
      match handleConfigPortal env w with
      | Outcome.halted why w => Outcome.halted why w
      | Outcome.ok state w =>
        if state ≠ WL_IDLE_STATUS then Outcome.ok (decide (state = WL_CONNECTED)) w
        else portalLoop env fuel w

/-- Source function `WiFiManager::startConfigPortal(apName, apPassword)`; a null
`apPassword` is `none`. -/
def startConfigPortal (env : Env) (fuel : Nat) (w : World) (apName : String)
    (apPassword : Option String) : Outcome Bool :=
  let w :=
    if w.staConnected = false then (WiFi_enableSTA (WiFi_Disconnect w) false false).2
    else (WiFi_enableSTA w true false).2
  let w := { w with m := { w.m with _apName := apName, _apPassword := assignCStr apPassword } }
  let v := validApPassword w.m
  let w := { w with m := v.2 }
  if v.1 = false then Outcome.ok false w
  else
    let w := { w with m := { w.m with configPortalActive := true, connect := false,
                                      abort := false } }
    let w := { w with m := { w.m with _configPortalStart := env.millis w.tick },
                      tick := w.tick + 1 }
    let w := (startAP env w).2
    let w := setupConfigPortal w
    if w.m._configPortalIsBlocking = false then Outcome.ok false w
    else portalLoop env fuel w

/-- The constructor `WiFiManager::WiFiManager()`: `init` holds the members
as their in-class initialisers leave them; the constructor records the radio
mode in `_usermode` and switches persistence off. -/
def construct (init : Manager) (w : World) : World :=
  ({ w with m := { init with _usermode := w.opmode } }).emit (Event.setPersistent false)

/-! ## Definitions that follow the words of the specification -/

/-- A character `isIp` lets through: a dot or a decimal digit. -/
def dotOrDigit (c : Char) : Prop := c = '.' ∨ (48 ≤ c.toNat ∧ c.toNat ≤ 57)

instance (c : Char) : Decidable (dotOrDigit c) := by unfold dotOrDigit; infer_instance

/-- The effective start of the timeout policy, in the words of the
specification: the time of the last page activity when web-activity checking
is enabled and that time is strictly after the stored start, the stored start
otherwise. -/
def effectiveStart (m : Manager) : Nat :=
  if m._webClientCheck = true ∧ m._webPortalAccessed > m._configPortalStart then
    m._webPortalAccessed
  else m._configPortalStart

/-- The parts of a character list between its dots; `cur` holds, reversed,
the characters read since the last dot. -/
def splitDots (cur : List Char) : List Char → List (List Char)
  | [] => [cur.reverse]
  | c :: rest =>
    if c = '.' then cur.reverse :: splitDots [] rest else splitDots (c :: cur) rest

/-- A decimal octet: one or more decimal digits whose value is at most 255. -/
def isOctet (p : List Char) : Bool :=
  decide (p ≠ []) && p.all (fun c => decide (48 ≤ c.toNat ∧ c.toNat ≤ 57)) &&
    decide (p.foldl (fun acc c => 10 * acc + (c.toNat - 48)) 0 ≤ 255)

/-- A literal dotted-decimal IPv4 address in the words of the specification:
four decimal octets separated by three dots. -/
def isDottedDecimalIPv4 (s : String) : Bool :=
  decide ((splitDots [] s.data).length = 4) && (splitDots [] s.data).all isOctet

/-- A manager with a 30 s portal timeout, client and web activity checks
enabled, captive portal enabled, no session running. -/
def exampleManager : Manager :=
  { _configPortalTimeout := 30000, _cpClientCheck := true, _webClientCheck := true,
    _debugLevel := 1, _shouldBreakAfterConfig := false, _enableCaptivePortal := true,
    _configPortalIsBlocking := false, _tryWPS := false, storeSTAmode := true,
    portalAbortResult := false, portalTimeoutResult := false,
    _savecallback := true, _apcallback := false, _ap_static_ip := 0,
    _sta_static_ip := 0, _usermode := WIFI_OFF, _apName := "", _apPassword := "",
    _ssid := "", _pass := "", _configPortalStart := 0, _webPortalAccessed := 0,
    timer := 0, configPortalActive := false, webPortalActive := false,
    connect := false, abort := false, server := false, dnsServer := false }

/-- A session started 17296 ms before the 32-bit millisecond clock rolls
over (about 49.7 days of uptime), with the 30 s timeout of `exampleManager`. -/
def rolloverManager : Manager := { exampleManager with _configPortalStart := 4294950000 }

/-- A session started at 1000 ms, with the 30 s timeout of `exampleManager`. -/
def startedManager : Manager := { exampleManager with _configPortalStart := 1000 }

/-! ## Observations on outcomes and traces -/

/-- The value a call returned, if it returned. -/
def Outcome.returned {α : Type} : Outcome α → Option α
  | Outcome.ok val _ => some val
  | Outcome.halted _ _ => none

/-- The state a call ended in, whether it returned or not. -/
def Outcome.world {α : Type} : Outcome α → World
  | Outcome.ok _ w => w
  | Outcome.halted _ w => w

/-- Why a call did not return, if it did not. -/
def Outcome.haltedBy {α : Type} : Outcome α → Option Halt
  | Outcome.ok _ _ => none
  | Outcome.halted why _ => some why

/-- Calls made while the DNS and web servers are serviced. -/
def Event.isService : Event → Bool
  | Event.dnsProcessNextRequest => true
  | Event.handleClient => true
  | Event.sendHeader _ _ => true
  | Event.send _ _ _ => true
  | Event.sendPage _ _ => true
  | Event.clientStop => true
  | _ => false

/-- Calls on the station side of the radio. -/
def Event.isRadio : Event → Bool
  | Event.stationDisconnect => true
  | Event.setOpmode _ _ => true
  | Event.setPersistent _ => true
  | Event.staConfig => true
  | Event.wifiBegin _ _ => true
  | Event.wifiBeginStored => true
  | Event.beginWPS => true
  | Event.waitForConnectResult => true
  | _ => false

/-- Entries of `connectWifi`: the connection attempts. -/
def Event.isAttempt : Event → Bool
  | Event.connectWifi _ _ => true
  | _ => false

/-- Calls that bring the access point up. -/
def Event.isSoftAP : Event → Bool
  | Event.softAP _ _ => true
  | _ => false

/-- The environment never delivers a request that restarts the device (the
route `/r`, or `/erase` with a successful erase). -/
def NoRestart (env : Env) : Prop :=
  ∀ k, env.request k ≠ some Request.reset ∧ env.request k ≠ some (Request.erase true)

/-- The members and radio state that servicing a request leaves alone. -/
def Serviced (w w1 : World) : Prop :=
  w1.opmode = w.opmode ∧ w1.staConnected = w.staConnected ∧ w1.storedSSID = w.storedSSID ∧
  w1.m.webPortalActive = w.m.webPortalActive ∧
  w1.m.configPortalActive = w.m.configPortalActive ∧
  w1.m.server = w.m.server ∧ w1.m.dnsServer = w.m.dnsServer ∧
  w1.m._usermode = w.m._usermode ∧ w1.m._savecallback = w.m._savecallback ∧
  w1.m._shouldBreakAfterConfig = w.m._shouldBreakAfterConfig ∧
  ∃ extra, w1.log = w.log ++ extra ∧ ∀ e ∈ extra, e.isService = true

/-- An environment in which nothing happens: the clock stands at zero, no
station associates, no request arrives, a connection wait ends with the
link idle, and the AP calls succeed. -/
def quietEnv : Env :=
  { millis := fun _ => 0, stations := fun _ => 0, request := fun _ => none,
    waitResult := fun _ => WL_IDLE_STATUS, softAPResult := fun _ => true,
    softAPdisconnectResult := fun _ => true }

/-- The device after boot, before the manager is constructed: radio off,
station not connected, no stored ssid. -/
def bootWorld : World :=
  { m := exampleManager, opmode := WIFI_OFF, staConnected := false, storedSSID := "",
    tick := 0, log := [] }

/-- What a radio helper leaves alone: the manager, and the trace up to calls
on the radio. -/
def RadioStep (w w1 : World) : Prop :=
  w1.m = w.m ∧ ∃ extra, w1.log = w.log ++ extra ∧ ∀ e ∈ extra, e.isRadio = true

/-- The portal torn down between `w` and `w2`: the web server was stopped
and `softAPdisconnect` was called since `w`, both server pointers are
released, the portal is no longer active and the radio is in `_usermode`. -/
def TornDown (w w2 : World) : Prop :=
  w2.m.configPortalActive = false ∧ w2.m.server = false ∧ w2.m.dnsServer = false ∧
  w2.opmode = w.m._usermode ∧
  ∃ extra, w2.log = w.log ++ extra ∧ Event.serverStop ∈ extra ∧ Event.softAPdisconnect ∈ extra

/-- The portal still running at `w2`, with the station role off: the portal
is active, both servers are alive and were not stopped since `w`, no form
submission is pending, and the web-portal flag and `_usermode` are as in `w`. -/
def StillActive (w w2 : World) : Prop :=
  w2.m.configPortalActive = true ∧ w2.m.server = true ∧ w2.m.dnsServer = true ∧
  w2.m.connect = false ∧ w2.opmode &&& WIFI_STA = 0 ∧
  w2.m.webPortalActive = w.m.webPortalActive ∧ w2.m._usermode = w.m._usermode ∧
  ∃ extra, w2.log = w.log ++ extra ∧ Event.serverStop ∉ extra ∧ Event.softAPdisconnect ∉ extra

/-- The state in which `handleConfigPortal` calls `connectWifi`: the pending
flag cleared and the 2 s settle delay taken. -/
def armed (w : World) : World :=
  ({ w with m := { w.m with connect := false } }).emit (Event.delay 2000)

/-- A running config portal: portal active, both servers alive, the AP
role on, no form submission pending. -/
def activeWorld : World :=
  { m := { exampleManager with configPortalActive := true, server := true, dnsServer := true },
    opmode := WIFI_AP, staConnected := false, storedSSID := "", tick := 0, log := [] }

/-- An environment in which the first HTTP cycle serves the form submission
`s=home`, `p=secret123` and a connection wait ends connected. -/
def submitEnv : Env :=
  { quietEnv with
    request := fun k => if k = 0 then some (Request.wifisave "home" "secret123" none) else none,
    waitResult := fun _ => WL_CONNECTED }

/-- The invariant of a running config portal: standalone web portal off,
portal active, both servers alive, `_usermode` equal to `u`. -/
def Running (u : Nat) (w : World) : Prop :=
  w.m.webPortalActive = false ∧ w.m.configPortalActive = true ∧ w.m.server = true ∧
  w.m.dnsServer = true ∧ w.m._usermode = u

/-- The manager constructed on the freshly booted device (radio off), after
which the station role is switched on, as `autoConnect` does before it
starts the portal. -/
def staWorld : World := (WiFi_enableSTA (construct exampleManager bootWorld) true false).2

/-- The device after `startConfigPortal("ESP", NULL)` in non-blocking mode,
with a save callback registered. -/
def startedWorld : World := (startConfigPortal quietEnv 0 bootWorld "ESP" none).world

/-- The state in which `connectWifi` decides between a join and no join:
its entry logged, the static station configuration applied if one is set,
the station disconnected. -/
def connectPrepared (w : World) (ssid pass : String) : World :=
  WiFi_Disconnect
    (if (w.emit (Event.connectWifi ssid pass)).m._sta_static_ip ≠ 0 then
      (w.emit (Event.connectWifi ssid pass)).emit Event.staConfig
     else w.emit (Event.connectWifi ssid pass))

/-- The join step of `connectWifi`. -/
def joinStage (env : Env) (w : World) (ssid pass : String) : Nat × World :=
  if ssid ≠ "" then
    let w := (WiFi_enableSTA w true w.m.storeSTAmode).2
    let w := w.emit (Event.setPersistent true)
    let w := WiFi_begin w ssid pass
    let w := w.emit (Event.setPersistent false)
    waitForConnectResult env w
  else if w.storedSSID ≠ "" then
    let w := (WiFi_enableSTA w true w.m.storeSTAmode).2
    let w := WiFi_beginStored w
    waitForConnectResult env w
  else (WL_NO_SSID_AVAIL, w)

/-- The WPS step that closes `connectWifi`. -/
def wpsStage (env : Env) (pass : String) (r : Nat × World) : Nat × World :=
  if r.2.m._tryWPS = true ∧ r.1 ≠ WL_CONNECTED ∧ pass = "" then
    waitForConnectResult env (r.2.emit Event.beginWPS)
  else r

/-- A freshly booted device whose manager has the WPS option on. -/
def wpsWorld : World := { bootWorld with m := { exampleManager with _tryWPS := true } }

/-- The timeout check that opens one iteration of the blocking loop: its
result and the state it leaves. -/
def loopCheck (env : Env) (w : World) : Bool × World :=
  ((configPortalHasTimeout w.m (env.millis w.tick) (env.stations w.tick)).1,
   { w with m := (configPortalHasTimeout w.m (env.millis w.tick) (env.stations w.tick)).2,
            tick := w.tick + 1 })

/-- The status each poll step of the blocking loop reports, in order; the
recursion is that of `portalLoop`. -/
def pollStates (env : Env) : Nat → World → List Nat
  | 0, _ => []
  | fuel + 1, w =>
    if (loopCheck env w).1 = true ∨ (loopCheck env w).2.m.abort = true then []
    else
      match handleConfigPortal env (loopCheck env w).2 with
      | Outcome.halted _ _ => []
      | Outcome.ok state w =>
        if state ≠ WL_IDLE_STATUS then [state] else state :: pollStates env fuel w

/-- The two result constants of the blocking loop, unchanged between two
states. -/
def SameResults (w w1 : World) : Prop :=
  w1.m.portalAbortResult = w.m.portalAbortResult ∧
  w1.m.portalTimeoutResult = w.m.portalTimeoutResult

/-- An environment whose clock stands at 40000 ms. -/
def lateEnv : Env := { quietEnv with millis := fun _ => 40000 }

/-- An environment in which the second reading serves the form submission
`s=home`, `p=secret123` and a connection wait ends connected. -/
def loopSubmitEnv : Env :=
  { quietEnv with
    request := fun k => if k = 1 then some (Request.wifisave "home" "secret123" none) else none,
    waitResult := fun _ => WL_CONNECTED }

/-! ## Signal quality and the scan list -/

/-- Source function `WiFiManager::getRSSIasQuality`. -/
def getRSSIasQuality (RSSI : Int) : Int :=
  if RSSI ≤ -100 then 0
  else if RSSI ≥ -50 then 100
  else 2 * (RSSI + 100)

/-- One result of `WiFi.scanNetworks()`. -/
structure Network where
  ssid : String
  rssi : Int
  deriving DecidableEq, Repr

/-- Library call `WiFi.RSSI(i)` on the scan results: the signal strength of
entry `i`, and 0 for an index outside the scan (the removed-entry marker -1
is such an index). -/
def WiFi_RSSI (nets : List Network) (i : Int) : Int :=
  if 0 ≤ i then ((nets.get? i.toNat).map Network.rssi).getD 0 else 0

/-- Library call `WiFi.SSID(i)` on the scan results: the ssid of entry `i`,
and the empty `String` for an index outside the scan. -/
def WiFi_SSID (nets : List Network) (i : Int) : String :=
  if 0 ≤ i then ((nets.get? i.toNat).map Network.ssid).getD "" else ""

/-- The call `std::swap(indices[i], indices[j])`. -/
def swapAt (a : List Int) (i j : Nat) : List Int :=
  (a.set i (a.getD j 0)).set j (a.getD i 0)

/-- The inner loop of the RSSI sort of `getScanItemOut`, at outer index `i`:
`j` is the loop variable and the third argument the number of iterations
left. -/
def sortInner (nets : List Network) (i : Nat) : Nat → Nat → List Int → List Int
  | _, 0, a => a
  | j, k + 1, a =>
    sortInner nets i (j + 1) k
      (if WiFi_RSSI nets (a.getD j 0) > WiFi_RSSI nets (a.getD i 0) then swapAt a i j else a)

/-- The outer loop of the RSSI sort of `getScanItemOut`: `i` is the loop
variable and the third argument the number of iterations left. -/
def sortOuter (nets : List Network) (n : Nat) : Nat → Nat → List Int → List Int
  | _, 0, a => a
  | i, k + 1, a => sortOuter nets n (i + 1) k (sortInner nets i (i + 1) (n - (i + 1)) a)

/-- The index array of `getScanItemOut` after the RSSI sort: it starts as
`0, 1, ..., n-1`. -/
def rssiSort (nets : List Network) : List Int :=
  sortOuter nets nets.length 0 nets.length ((List.range nets.length).map Int.ofNat)

/-- The inner loop of the duplicate removal: every later entry whose ssid
equals `cssid` is set to -1. -/
def dedupInner (nets : List Network) (cssid : String) : Nat → Nat → List Int → List Int
  | _, 0, a => a
  | j, k + 1, a =>
    dedupInner nets cssid (j + 1) k
      (if cssid = WiFi_SSID nets (a.getD j 0) then a.set j (-1) else a)

/-- The outer loop of the duplicate removal. -/
def dedupOuter (nets : List Network) (n : Nat) : Nat → Nat → List Int → List Int
  | _, 0, a => a
  | i, k + 1, a =>
    if a.getD i 0 = -1 then dedupOuter nets n (i + 1) k a
    else
      dedupOuter nets n (i + 1) k
        (dedupInner nets (WiFi_SSID nets (a.getD i 0)) (i + 1) (n - (i + 1)) a)

/-- The display loop of `getScanItemOut`: the entries, in order, for which an
item is added to the page. -/
def displayLoop (nets : List Network) (_minimumQuality : Int) : List Int → List Int
  | [] => []
  | x :: rest =>
    if x = -1 then displayLoop nets _minimumQuality rest
    else if _minimumQuality = -1 ∨
        _minimumQuality < getRSSIasQuality (WiFi_RSSI nets x) then
      x :: displayLoop nets _minimumQuality rest
    else displayLoop nets _minimumQuality rest

/-- The index array of `getScanItemOut` after the sort and, when
`_removeDuplicateAPs` is set, the duplicate removal. -/
def rankedIndices (nets : List Network) (_removeDuplicateAPs : Bool) : List Int :=
  if _removeDuplicateAPs = true then
    dedupOuter nets nets.length 0 nets.length (rssiSort nets)
  else rssiSort nets

/-- Source function `WiFiManager::getScanItemOut`, as the list of scan
entries for which the page gets an item, in page order; an empty scan gives
the "no networks" text and no item. -/
def getScanItemOut (nets : List Network) (_removeDuplicateAPs : Bool)
    (_minimumQuality : Int) : List Int :=
  if nets.length = 0 then []
  else displayLoop nets _minimumQuality (rankedIndices nets _removeDuplicateAPs)

/-- A scan with two entries of equal signal strength ahead of a stronger
one. -/
def tieScan : List Network := [⟨"a", -50⟩, ⟨"b", -50⟩, ⟨"c", -40⟩]

/-- A scan in which two of the three strongest entries tie. -/
def topTieScan : List Network := [⟨"a", -40⟩, ⟨"b", -50⟩, ⟨"c", -40⟩]

/-- A scan with repeated ssids, among them the hidden (empty) one. -/
def dupScan : List Network :=
  [⟨"a", -50⟩, ⟨"b", -75⟩, ⟨"a", -40⟩, ⟨"", -40⟩, ⟨"", -30⟩, ⟨"b", -90⟩]

/-! ## Functional forms of the scan-list loops -/

/-- One pass of the inner sort loop in list form: `cur` is the entry at the
outer index, the list the entries after it; the result is the entry the pass
leaves at the outer index and the entries it leaves after it. -/
def passMax (key : Int → Int) (cur : Int) : List Int → Int × List Int
  | [] => (cur, [])
  | x :: xs =>
    if key x > key cur then ((passMax key x xs).1, cur :: (passMax key x xs).2)
    else ((passMax key cur xs).1, x :: (passMax key cur xs).2)

/-- The outer sort loop in list form, run for the given number of steps. -/
def exchangeSort (key : Int → Int) : Nat → List Int → List Int
  | 0, l => l
  | _ + 1, [] => []
  | k + 1, x :: xs => (passMax key x xs).1 :: exchangeSort key k (passMax key x xs).2

/-- The effect of the inner duplicate-removal loop on one later entry. -/
def killDup (ssidOf : Int → String) (cssid : String) (y : Int) : Int :=
  if cssid = ssidOf y then -1 else y

/-- The outer duplicate-removal loop in list form, run for the given number
of steps. -/
def dedupList (ssidOf : Int → String) : Nat → List Int → List Int
  | 0, l => l
  | _ + 1, [] => []
  | k + 1, x :: xs =>
    if x = -1 then x :: dedupList ssidOf k xs
    else x :: dedupList ssidOf k (xs.map (killDup ssidOf (ssidOf x)))

/-! ## Custom parameters -/

/-- The character that ends a C string. -/
def nul : Char := Char.ofNat 0

/-- The characters a `const char*` argument denotes: those before the first
terminator. -/
def cstrOf (s : String) : List Char := s.toList.takeWhile (fun c => decide (c ≠ nul))

/-- Reading a buffer as a C string: the characters before the first
terminator, and `none` when the buffer holds no terminator, in which case the
read runs past its end. -/
def cString : List Char → Option (List Char)
  | [] => none
  | c :: cs => if c = nul then some [] else (cString cs).map (fun r => c :: r)

/-- Library call `strncpy(dest, src, n)` on a destination of at least `n`
bytes: the first `n` characters of `src`, filled up with terminators to `n`
bytes when `src` is shorter; no terminator is written when `src` has `n`
characters or more. -/
def strncpy (dest src : List Char) (n : Nat) : List Char :=
  (src.take n ++ List.replicate (n - src.length) nul) ++ dest.drop n

/-- The members of the C++ class `WiFiManagerParameter`; `none` is `NULL`, and
`_value` is the buffer, one `Char` for each byte. -/
structure WiFiManagerParameter where
  _id : Option String
  _placeholder : Option String
  _length : Nat
  _value : Option (List Char)
  _labelPlacement : Int
  _customHTML : Option String
  deriving DecidableEq

/-- Source function `WiFiManagerParameter::init`: the buffer of `length + 1`
bytes is zeroed and then, for a default value other than `NULL`, filled by
`strncpy(_value, defaultValue, length + 1)`. -/
def WiFiManagerParameter.init (id placeholder defaultValue : Option String) (length : Nat)
    (custom : Option String) (labelPlacement : Int) : WiFiManagerParameter :=
  let zeroed := List.replicate (length + 1) nul
  { _id := id
    _placeholder := placeholder
    _length := length
    _labelPlacement := labelPlacement
    _value := some (match defaultValue with
      | none => zeroed
      | some d => strncpy zeroed (cstrOf d) (length + 1))
    _customHTML := custom }

/-- Source constructor `WiFiManagerParameter(id, placeholder, defaultValue,
length)`; `WFM_LABEL_BEFORE` is a constant of the header. -/
def newParameter (WFM_LABEL_BEFORE : Int) (id placeholder defaultValue : Option String)
    (length : Nat) : WiFiManagerParameter :=
  WiFiManagerParameter.init id placeholder defaultValue length (some "") WFM_LABEL_BEFORE

/-- Source constructor `WiFiManagerParameter(custom)`. -/
def newCustomParameter (WFM_LABEL_BEFORE : Int) (custom : Option String) :
    WiFiManagerParameter :=
  { _id := none, _placeholder := none, _length := 0, _value := none,
    _labelPlacement := WFM_LABEL_BEFORE, _customHTML := custom }

/-- Source function `WiFiManagerParameter::getValue`, read as a C string by
the caller: `none` for `NULL` and for a buffer without a terminator. -/
def getValue (p : WiFiManagerParameter) : Option (List Char) :=
  p._value.bind cString

/-! ## The parameter registry -/

/-- A pointer to a parameter object; 0 is `NULL`. -/
abbrev Ptr := Nat

/-- The objects the pointers refer to; `none` at `NULL` and at an address
that holds no parameter. -/
abbrev Heap := Ptr → Option WiFiManagerParameter

/-- Assignment through a pointer. -/
def Heap.store (h : Heap) (p : Ptr) (obj : WiFiManagerParameter) : Heap :=
  fun q => if q = p then some obj else h q

/-- The registry members of the C++ class `WiFiManager`: `_params` is `none`
for `NULL` and otherwise the allocated array, in which a slot is `none` until
it has been assigned. -/
structure Registry where
  _params : Option (List (Option Ptr))
  _paramsCount : Nat
  _max_params : Nat
  deriving DecidableEq

/-- The registry part of the source constructor `WiFiManager::WiFiManager`:
`_max_params` is set to the constant and `_params` to the result of `malloc`;
`_paramsCount` keeps the value of its declaration. -/
def constructRegistry (WIFI_MANAGER_MAX_PARAMS : Nat) (mallocOk : Bool) (r : Registry) : Registry :=
  { r with
    _max_params := WIFI_MANAGER_MAX_PARAMS
    _params := if mallocOk = true then some (List.replicate WIFI_MANAGER_MAX_PARAMS none)
      else none }

/-- Library call `isAlphaNumeric`: a letter of the ASCII alphabet or a decimal
digit. -/
def isAlphaNumeric (c : Char) : Bool := c.isAlphanum

/-- The id check loop of `addParameter`: `false` at the first character that
`isAlphaNumeric` rejects. -/
def idLoop : List Char → Bool
  | [] => true
  | c :: cs => if isAlphaNumeric c = false then false else idLoop cs

/-- Library call `realloc(_params, n * sizeof(...))` when it succeeds: the old
slots are kept and the array has `n` slots. -/
def reallocSlots (arr : List (Option Ptr)) (n : Nat) : List (Option Ptr) :=
  arr.take n ++ List.replicate (n - arr.length) none

/-- The end of `addParameter`: `_params[_paramsCount] = p; _paramsCount++;
return true;`, which is `none` for a null `_params` and for a write outside
the array. -/
def storeParameter (p : Ptr) (r : Registry) : Option (Bool × Registry) :=
  match r._params with
  | none => none
  | some arr =>
    if r._paramsCount < arr.length then
      some (true, { r with _params := some (arr.set r._paramsCount (some p))
                           _paramsCount := r._paramsCount + 1 })
    else none

/-- Source function `WiFiManager::addParameter`. The result is `none` when the
call dereferences `NULL` (a null `p`, a null id, a null `_params`) or writes
outside the array; `reallocOk` tells whether `realloc` succeeds for the
requested number of slots. -/
def addParameter (WIFI_MANAGER_MAX_PARAMS : Nat) (reallocOk : Nat → Bool) (heap : Heap)
    (p : Ptr) (r : Registry) : Option (Bool × Registry) :=
  match heap p with
  | none => none
  | some obj =>
    match obj._id with
    | none => none
    | some id =>
      if idLoop (cstrOf id) = false then some (false, r)
      else if r._paramsCount = r._max_params then
        if reallocOk (r._max_params + WIFI_MANAGER_MAX_PARAMS) = true then
          storeParameter p
            { r with
              _max_params := r._max_params + WIFI_MANAGER_MAX_PARAMS
              _params := some (reallocSlots (r._params.getD [])
                (r._max_params + WIFI_MANAGER_MAX_PARAMS)) }
        else some (false, { r with _max_params := r._max_params + WIFI_MANAGER_MAX_PARAMS })
      else storeParameter p r

/-- A sequence of `addParameter` calls, with the result of each. -/
def addParameters (WIFI_MANAGER_MAX_PARAMS : Nat) (reallocOk : Nat → Bool) (heap : Heap) :
    List Ptr → Registry → Option (List Bool × Registry)
  | [], r => some ([], r)
  | p :: ps, r =>
    match addParameter WIFI_MANAGER_MAX_PARAMS reallocOk heap p r with
    | none => none
    | some (b, r1) =>
      match addParameters WIFI_MANAGER_MAX_PARAMS reallocOk heap ps r1 with
      | none => none
      | some (bs, r2) => some (b :: bs, r2)

/-- Library call `String::toCharArray(buf, bufsize)` on a buffer of at least
`bufsize` bytes: nothing is written for a null buffer or `bufsize` 0; an
empty value writes a terminator at the start; otherwise the first
`min (bufsize - 1) len` characters are copied and a terminator written after
them. -/
def toCharArray (value : List Char) (buf : Option (List Char)) (bufsize : Nat) :
    Option (List Char) :=
  match buf with
  | none => none
  | some b =>
    if bufsize = 0 then some b
    else if value.length = 0 then some (b.set 0 nul)
    else some ((value.take (min (bufsize - 1) value.length) ++ [nul]) ++
      b.drop (min (bufsize - 1) value.length + 1))

/-- The value `handleWifiSave` reads for the parameter at index `i`: the
argument `param_i` when that is not empty, otherwise the argument named by
the id of the parameter. -/
def submitted (arg : String → String) (i : Nat) (obj : WiFiManagerParameter) : List Char :=
  if cstrOf (arg ("param_" ++ toString i)) ≠ [] then cstrOf (arg ("param_" ++ toString i))
  else cstrOf (arg (obj._id.getD ""))

/-- The assignment `value.toCharArray(_params[i]->_value, _params[i]->_length+1)`. -/
def absorb (arg : String → String) (i : Nat) (obj : WiFiManagerParameter) :
    WiFiManagerParameter :=
  { obj with _value := toCharArray (submitted arg i obj) obj._value (obj._length + 1) }

/-- The parameter loop of `handleWifiSave`: `i` is the loop variable and the
third argument the number of iterations left; `none` when a slot outside the
array or an unassigned one is read, or a pointer to no object followed. -/
def saveLoop (arg : String → String) (arr : List (Option Ptr)) : Nat → Nat → Heap → Option Heap
  | _, 0, h => some h
  | i, k + 1, h =>
    match arr.get? i with
    | some (some p) =>
      if p = 0 then some h
      else
        match h p with
        | none => none
        | some obj => saveLoop arg arr (i + 1) k (h.store p (absorb arg i obj))
    | _ => none

/-- The parameter part of the source function `WiFiManager::handleWifiSave`. -/
def handleWifiSaveParams (arg : String → String) (r : Registry) (h : Heap) : Option Heap :=
  if r._paramsCount > 0 then
    match r._params with
    | none => none
    | some arr => saveLoop arg arr 0 r._paramsCount h
  else some h

/-! ## Observations on the registry -/

/-- The registry is usable: the array is allocated with `_max_params` slots
and the count is within it. -/
def Registry.WellFormed (r : Registry) : Prop :=
  ∃ arr, r._params = some arr ∧ arr.length = r._max_params ∧ r._paramsCount ≤ r._max_params

/-- The entries the registry holds: the first `_paramsCount` slots. -/
def Registry.entries (r : Registry) : List (Option Ptr) :=
  (r._params.getD []).take r._paramsCount

/-- The id of the object at `p` passes the check of `addParameter`. -/
def idAccepted (heap : Heap) (p : Ptr) : Bool :=
  match heap p with
  | some obj => idLoop (cstrOf (obj._id.getD ""))
  | none => false

/-- The parameters of a call sequence that `addParameter` accepts, in call
order. -/
def accepted (heap : Heap) (ps : List Ptr) : List Ptr := ps.filter (idAccepted heap)

/-! ## Example parameters -/

/-- Four parameter objects, with the ids "server", "api-key", the empty id and
"port", at the addresses 1 to 4. -/
def paramHeap : Heap := fun p =>
  if p = 1 then some (newParameter 1 (some "server") (some "Server") (some "abc") 5)
  else if p = 2 then some (newParameter 1 (some "api-key") none none 8)
  else if p = 3 then some (newParameter 1 (some "") none none 0)
  else if p = 4 then some (newParameter 1 (some "port") none (some "80") 4)
  else none

/-- The registry of a new manager with blocks of two slots. -/
def freshRegistry : Registry := constructRegistry 2 true ⟨none, 0, 0⟩

/-- A registry that holds the objects at 1 and 4. -/
def savedRegistry : Registry := ⟨some [some 1, some 4], 2, 2⟩

/-- A form submission with "abcdefgh" for `param_0` and "8080" for `port`. -/
def formArgs : String → String := fun name =>
  if name = "param_0" then "abcdefgh" else if name = "port" then "8080" else ""

/-! ## Swaps of the RSSI sort and the ranked scan -/

/-- The number of `std::swap` calls in the inner loop of the RSSI sort of
`getScanItemOut`, with the arguments of `sortInner`. -/
def sortInnerSwaps (nets : List Network) (i : Nat) : Nat → Nat → List Int → Nat
  | _, 0, _ => 0
  | j, k + 1, a =>
    if WiFi_RSSI nets (a.getD j 0) > WiFi_RSSI nets (a.getD i 0) then
      1 + sortInnerSwaps nets i (j + 1) k (swapAt a i j)
    else sortInnerSwaps nets i (j + 1) k a

/-- The number of `std::swap` calls in the outer loop of the RSSI sort, with
the arguments of `sortOuter`. -/
def sortOuterSwaps (nets : List Network) (n : Nat) : Nat → Nat → List Int → Nat
  | _, 0, _ => 0
  | i, k + 1, a =>
    sortInnerSwaps nets i (i + 1) (n - (i + 1)) a +
      sortOuterSwaps nets n (i + 1) k (sortInner nets i (i + 1) (n - (i + 1)) a)

/-- The number of `std::swap` calls of the RSSI sort of `getScanItemOut`. -/
def rssiSortSwaps (nets : List Network) : Nat :=
  sortOuterSwaps nets nets.length 0 nets.length ((List.range nets.length).map Int.ofNat)

/-- The scan results read along the sorted index array: the ranked list. -/
def rankedScan (nets : List Network) : List Network :=
  (rssiSort nets).filterMap (fun i => if 0 ≤ i then nets.get? i.toNat else none)

/-- A scan in non-increasing signal strength, with a tie. -/
def sortedScan : List Network := [⟨"a", -40⟩, ⟨"b", -50⟩, ⟨"c", -50⟩]

/-- A manager with the captive-portal toggle disabled. -/
def portalOffManager : Manager := { exampleManager with _enableCaptivePortal := false }

/-! ## Further observations and examples -/

/-- The request is a form submission, the route `/wifisave`. -/
def Request.isSave : Request → Bool
  | Request.wifisave _ _ _ => true
  | _ => false

/-- The HTTP cycle at reading `k` serves a form submission. -/
def servesSave (env : Env) (k : Nat) : Bool :=
  match env.request k with
  | some r => r.isSave
  | none => false

/-- An environment in which every HTTP cycle serves the route `/r`. -/
def resetEnv : Env := { quietEnv with request := fun _ => some Request.reset }

/-- An environment in which every HTTP cycle serves the form submission
`s=home`, `p=secret123` and a connection wait ends connected. -/
def resubmitEnv : Env :=
  { quietEnv with
    request := fun _ => some (Request.wifisave "home" "secret123" none),
    waitResult := fun _ => WL_CONNECTED }

/-- A running config portal with the standalone web portal flag set, as
after `startWebPortal()` followed by `startConfigPortal`. -/
def webActiveWorld : World :=
  { activeWorld with m := { activeWorld.m with webPortalActive := true } }

/-- The objects of `paramHeap` and, at address 5, a parameter made by the
one-argument constructor, whose id is `NULL`. -/
def customHeap : Heap := fun p =>
  if p = 5 then some (newCustomParameter 1 (some "<p>note</p>")) else paramHeap p

/-! # Theorems -/

/-! ## Character-class lemmas for `isIp` -/

theorem isIpLoop_iff (l : List Char) : isIpLoop l = true ↔ ∀ c ∈ l, dotOrDigit c := by
  induction l with
  | nil => simp [isIpLoop]
  | cons c rest ih =>
    have h0 : ('0' : Char).toNat = 48 := by decide
    have h9 : ('9' : Char).toNat = 57 := by decide
    rw [isIpLoop, h0, h9, List.forall_mem_cons]
    by_cases hc : c ≠ '.' ∧ (c.toNat < 48 ∨ c.toNat > 57)
    · rw [if_pos hc]
      constructor
      · intro h; cases h
      · rintro ⟨h | h, -⟩
        · exact absurd h hc.1
        · omega
    · rw [if_neg hc, ih]
      constructor
      · intro h
        refine ⟨?_, h⟩
        by_cases hd : c = '.'
        · exact Or.inl hd
        · right
          have : ¬ (c.toNat < 48 ∨ c.toNat > 57) := fun h2 => hc ⟨hd, h2⟩
          omega
      · exact fun h => h.2

theorem isIpLoop_append (a b : List Char) :
    isIpLoop (a ++ b) = (isIpLoop a && isIpLoop b) := by
  induction a with
  | nil => simp [isIpLoop]
  | cons c rest ih =>
    simp only [List.cons_append, isIpLoop]
    split <;> simp [ih]

theorem isIp_append (a b : String) : isIp (a ++ b) = (isIp a && isIp b) := by
  simp [isIp, String.data_append, isIpLoop_append]

theorem digitChar_dotOrDigit (d : Nat) (h : d < 10) : dotOrDigit (Nat.digitChar d) := by
  interval_cases d <;> decide

theorem toDigitsCore_dotOrDigit (fuel n : Nat) (ds : List Char)
    (hds : ∀ c ∈ ds, dotOrDigit c) : ∀ c ∈ Nat.toDigitsCore 10 fuel n ds, dotOrDigit c := by
  induction fuel generalizing n ds with
  | zero => simpa [Nat.toDigitsCore] using hds
  | succ fuel ih =>
    have hd : dotOrDigit (Nat.digitChar (n % 10)) :=
      digitChar_dotOrDigit _ (Nat.mod_lt _ (by decide))
    have hcons : ∀ c ∈ Nat.digitChar (n % 10) :: ds, dotOrDigit c := by
      intro c hc
      rcases List.mem_cons.mp hc with h | h
      · exact h ▸ hd
      · exact hds c h
    simp only [Nat.toDigitsCore]
    split
    · exact hcons
    · exact ih _ _ hcons

/-- The decimal rendering of a number passes `isIp`. -/
theorem isIp_toString (n : Nat) : isIp (toString n) = true := by
  have h : (toString n).data = Nat.toDigits 10 n := rfl
  rw [isIp, h, isIpLoop_iff]
  exact toDigitsCore_dotOrDigit _ _ _ (by simp)

/-! ## Portal timeout policy -/

theorem configPortalHasTimeout_cpClientCheck (m : Manager) (now stations : Nat) :
    (configPortalHasTimeout m now stations).2._cpClientCheck = m._cpClientCheck := by
  unfold configPortalHasTimeout
  dsimp only
  split_ifs <;> rfl

/-- C1: a guarded check (timeout zero, or AP-client check enabled with at
least one associated peer) returns false and sets `_configPortalStart` to
`now`; and over any sequence of checks with the AP-client check enabled and a
peer associated at every check, every check returns false, whatever the
clock readings. -/
theorem guarded_check_never_times_out (m : Manager) (now stations : Nat)
    (readings : List (Nat × Nat)) :
    ((m._configPortalTimeout = 0 ∨ (m._cpClientCheck = true ∧ 0 < stations)) →
      (configPortalHasTimeout m now stations).1 = false ∧
      (configPortalHasTimeout m now stations).2._configPortalStart = now) ∧
    (m._cpClientCheck = true → (∀ r ∈ readings, 0 < r.2) →
      timeoutChecks m readings = List.replicate readings.length false) := by
  have single : ∀ (m : Manager) (now stations : Nat),
      (m._configPortalTimeout = 0 ∨ (m._cpClientCheck = true ∧ 0 < stations)) →
      (configPortalHasTimeout m now stations).1 = false ∧
      (configPortalHasTimeout m now stations).2._configPortalStart = now := by
    intro m now stations h
    have h2 : m._configPortalTimeout = 0 ∨ (m._cpClientCheck = true ∧ stations > 0) := h
    unfold configPortalHasTimeout
    rw [if_pos h2]
    exact ⟨rfl, rfl⟩
  refine ⟨single m now stations, ?_⟩
  intro hcp hall
  induction readings generalizing m with
  | nil => rfl
  | cons r rest ih =>
    obtain ⟨t, n⟩ := r
    have hn : 0 < n := hall (t, n) (List.mem_cons_self _ _)
    have hrest := ih (configPortalHasTimeout m t n).2
      (by rw [configPortalHasTimeout_cpClientCheck]; exact hcp)
      (fun r hr => hall r (List.mem_cons_of_mem _ hr))
    simp only [timeoutChecks, List.length_cons, List.replicate_succ]
    rw [(single m t n (Or.inr ⟨hcp, hn⟩)).1, hrest]

/-- Witness for C1: timeout 30000 ms, a peer associated at every check, the
clock running from 1000 ms to 90000 ms. -/
theorem guarded_check_never_times_out_witness :
    ((configPortalHasTimeout exampleManager 60000 1).1 = false ∧
      (configPortalHasTimeout exampleManager 60000 1).2._configPortalStart = 60000) ∧
    timeoutChecks exampleManager [(1000, 1), (30000, 1), (60001, 2), (90000, 1)] =
      [false, false, false, false] :=
  ⟨(guarded_check_never_times_out exampleManager 60000 1 []).1 (Or.inr ⟨rfl, by decide⟩),
   (guarded_check_never_times_out exampleManager 0 0
      [(1000, 1), (30000, 1), (60001, 2), (90000, 1)]).2 rfl (by decide)⟩

theorem configPortalHasTimeout_unguarded (m : Manager) (now stations : Nat)
    (hT : m._configPortalTimeout ≠ 0) (hG : m._cpClientCheck = false ∨ stations = 0) :
    configPortalHasTimeout m now stations =
      (decide (now > (effectiveStart m + m._configPortalTimeout) % U32),
       (configPortalHasTimeout m now stations).2) ∧
    (configPortalHasTimeout m now stations).2._configPortalStart = effectiveStart m := by
  have hg : ¬ (m._configPortalTimeout = 0 ∨ (m._cpClientCheck = true ∧ stations > 0)) := by
    rintro (h | ⟨h1, h2⟩)
    · exact hT h
    · rcases hG with h | h
      · rw [h] at h1; cases h1
      · omega
  unfold configPortalHasTimeout effectiveStart
  rw [if_neg hg]
  by_cases hw : m._webClientCheck = true ∧ m._webPortalAccessed > m._configPortalStart
  · have hw2 : m._webClientCheck = true ∧
        (if m._webPortalAccessed > m._configPortalStart then 1 else 0) > 0 := by
      rw [if_pos hw.2]; exact ⟨hw.1, Nat.one_pos⟩
    rw [if_pos hw2, if_pos hw]
    dsimp only
    split_ifs <;> simp_all
  · have hw2 : ¬ (m._webClientCheck = true ∧
        (if m._webPortalAccessed > m._configPortalStart then 1 else 0) > 0) := by
      rintro ⟨h1, h2⟩
      by_cases h3 : m._webPortalAccessed > m._configPortalStart
      · exact hw ⟨h1, h3⟩
      · rw [if_neg h3] at h2; omega
    rw [if_neg hw2, if_neg hw]
    dsimp only
    split_ifs <;> simp_all

/-- C2, counterexample: with the stored start 4294950000 ms and a 30000 ms
timeout the 32-bit sum wraps to 12704, so the check one millisecond after the
start reports a timeout although `now` is not after start + timeout. -/
theorem timeout_iff_counterexample :
    rolloverManager._configPortalTimeout ≠ 0 ∧
    rolloverManager._configPortalStart < U32 ∧ 4294950001 < U32 ∧
    ¬ ((configPortalHasTimeout rolloverManager 4294950001 0).1 = true ↔
        4294950001 > effectiveStart rolloverManager + rolloverManager._configPortalTimeout) := by
  decide

/-- C2, amended: for an unguarded check whose sum effectiveStart + timeout
stays below 2^32, the check returns true iff `now > effectiveStart + timeout`,
and it leaves the stored start equal to the effective start (advanced to the
last activity when web-activity checking is on and the activity is strictly
later, unchanged otherwise). -/
theorem timeout_iff_without_rollover (m : Manager) (now stations : Nat)
    (hT : m._configPortalTimeout ≠ 0) (hG : m._cpClientCheck = false ∨ stations = 0)
    (hov : effectiveStart m + m._configPortalTimeout < U32) :
    ((configPortalHasTimeout m now stations).1 = true ↔
      now > effectiveStart m + m._configPortalTimeout) ∧
    (configPortalHasTimeout m now stations).2._configPortalStart = effectiveStart m ∧
    (m._webClientCheck = true ∧ m._webPortalAccessed > m._configPortalStart →
      (configPortalHasTimeout m now stations).2._configPortalStart = m._webPortalAccessed) ∧
    (¬ (m._webClientCheck = true ∧ m._webPortalAccessed > m._configPortalStart) →
      (configPortalHasTimeout m now stations).2._configPortalStart = m._configPortalStart) := by
  obtain ⟨h1, h2⟩ := configPortalHasTimeout_unguarded m now stations hT hG
  refine ⟨?_, h2, ?_, ?_⟩
  · rw [h1, Nat.mod_eq_of_lt hov]
    simp
  · intro h; rw [h2, effectiveStart, if_pos h]
  · intro h; rw [h2, effectiveStart, if_neg h]

/-- Witness for C2 amended: start 1000 ms, page activity at 5000 ms, 30 s
timeout, no peer: timed out at 35001 ms. -/
theorem timeout_iff_without_rollover_witness :
    ((configPortalHasTimeout { startedManager with _webPortalAccessed := 5000 } 35001 0).1 = true ↔
      35001 > effectiveStart { startedManager with _webPortalAccessed := 5000 } + 30000) ∧
    (configPortalHasTimeout { startedManager with _webPortalAccessed := 5000 } 35001 0).2._configPortalStart = 5000 :=
  have h := timeout_iff_without_rollover { startedManager with _webPortalAccessed := 5000 }
    35001 0 (by decide) (Or.inr rfl) (by decide)
  ⟨h.1, h.2.2.1 (by decide)⟩

/-- C3, counterexample: start 1000 ms, timeout 30000 ms, no activity, no
peers; at `now = 31000` the elapsed time equals the timeout and the check
still returns false. -/
theorem timeout_boundary_counterexample :
    startedManager._configPortalTimeout ≠ 0 ∧
    startedManager._webPortalAccessed ≤ startedManager._configPortalStart ∧
    31000 - startedManager._configPortalStart ≥ startedManager._configPortalTimeout ∧
    (configPortalHasTimeout startedManager 31000 0).1 = false := by
  decide

/-- C3, amended: with a non-zero timeout, no page activity after the start,
no associated peers, the start not after `now` and start + timeout below
2^32, the check is false while `now - start ≤ timeout` and true once
`now - start > timeout`. -/
theorem timeout_strictly_after (m : Manager) (now : Nat)
    (hT : m._configPortalTimeout ≠ 0)
    (hAct : m._webClientCheck = false ∨ m._webPortalAccessed ≤ m._configPortalStart)
    (hle : m._configPortalStart ≤ now)
    (hov : m._configPortalStart + m._configPortalTimeout < U32) :
    (now - m._configPortalStart ≤ m._configPortalTimeout →
      (configPortalHasTimeout m now 0).1 = false) ∧
    (now - m._configPortalStart > m._configPortalTimeout →
      (configPortalHasTimeout m now 0).1 = true) := by
  have he : effectiveStart m = m._configPortalStart := by
    unfold effectiveStart
    rw [if_neg]
    rintro ⟨h1, h2⟩
    rcases hAct with h | h
    · rw [h] at h1; cases h1
    · omega
  obtain ⟨h1, -⟩ := configPortalHasTimeout_unguarded m now 0 hT (Or.inr rfl)
  rw [h1, he, Nat.mod_eq_of_lt hov]
  constructor
  · intro h; simp; omega
  · intro h; simp; omega

/-- Witness for C3 amended: start 1000 ms, timeout 30000 ms; false at
31000 ms, true at 31001 ms. -/
theorem timeout_strictly_after_witness :
    (configPortalHasTimeout startedManager 31000 0).1 = false ∧
    (configPortalHasTimeout startedManager 31001 0).1 = true :=
  ⟨(timeout_strictly_after startedManager 31000 (by decide) (Or.inr (by decide))
      (by decide) (by decide)).1 (by decide),
   (timeout_strictly_after startedManager 31001 (by decide) (Or.inr (by decide))
      (by decide) (by decide)).2 (by decide)⟩


/-! ## AP password validation -/

/-- C6: `validApPassword` returns true iff the stored password is empty
(which an absent password is) or its length is between 8 and 63 inclusive;
when it returns true the stored password is unchanged and when it returns
false the stored password is reset to the empty string. -/
theorem validApPassword_iff (m : Manager) :
    ((validApPassword m).1 = true ↔
      (m._apPassword = "" ∨ (8 ≤ m._apPassword.length ∧ m._apPassword.length ≤ 63))) ∧
    (validApPassword m).2 =
      (if (validApPassword m).1 = true then m else { m with _apPassword := "" }) ∧
    (validApPassword { m with _apPassword := assignCStr none }).1 = true := by
  refine ⟨?_, ?_, ?_⟩
  · unfold validApPassword
    by_cases he : m._apPassword = ""
    · simp [he]
    · by_cases hl : m._apPassword.length < 8 ∨ m._apPassword.length > 63
      · simp only [he, if_false, hl, if_true, ne_eq, not_false_eq_true, false_or]
        constructor
        · intro h; cases h
        · intro h; omega
      · simp only [he, if_false, hl, ne_eq, not_false_eq_true, if_true, false_or, true_iff]
        omega
  · unfold validApPassword
    by_cases he : m._apPassword = ""
    · have : ({ m with _apPassword := "" } : Manager) = m := by rw [← he]
      simp [he, this]
    · by_cases hl : m._apPassword.length < 8 ∨ m._apPassword.length > 63
      · simp [he, hl]
      · simp [he, hl]
  · simp [validApPassword, assignCStr]

/-! ## Captive-portal redirect -/

theorem splitDots_head (cur l : List Char) :
    ∃ p ∈ splitDots cur l, ∀ x ∈ cur, x ∈ p := by
  induction l generalizing cur with
  | nil => exact ⟨cur.reverse, by simp [splitDots], fun x hx => by simpa using hx⟩
  | cons c rest ih =>
    unfold splitDots
    split
    · exact ⟨cur.reverse, by simp, fun x hx => by simpa using hx⟩
    · obtain ⟨p, hp, hall⟩ := ih (c :: cur)
      exact ⟨p, hp, fun x hx => hall x (List.mem_cons_of_mem _ hx)⟩

theorem splitDots_chars (cur l : List Char)
    (h : ∀ p ∈ splitDots cur l, ∀ c ∈ p, 48 ≤ c.toNat ∧ c.toNat ≤ 57) :
    ∀ c ∈ l, dotOrDigit c := by
  induction l generalizing cur with
  | nil => intro c hc; cases hc
  | cons c rest ih =>
    unfold splitDots at h
    by_cases hd : c = '.'
    · rw [if_pos hd] at h
      intro x hx
      rcases List.mem_cons.mp hx with hx | hx
      · exact Or.inl (hx.trans hd)
      · exact ih [] (fun p hp => h p (List.mem_cons_of_mem _ hp)) x hx
    · rw [if_neg hd] at h
      intro x hx
      rcases List.mem_cons.mp hx with hx | hx
      · obtain ⟨p, hp, hall⟩ := splitDots_head (c :: cur) rest
        exact Or.inr (hx ▸ h p hp c (hall c (List.mem_cons_self _ _)))
      · exact ih (c :: cur) h x hx

theorem isOctet_digits (p : List Char) (h : isOctet p = true) :
    ∀ c ∈ p, 48 ≤ c.toNat ∧ c.toNat ≤ 57 := by
  unfold isOctet at h
  simp only [Bool.and_eq_true, List.all_eq_true, decide_eq_true_eq] at h
  exact h.1.2

/-- A literal dotted-decimal IPv4 address passes the character check of `isIp`. -/
theorem isIp_of_isDottedDecimalIPv4 (s : String) (h : isDottedDecimalIPv4 s = true) :
    isIp s = true := by
  unfold isDottedDecimalIPv4 at h
  simp only [Bool.and_eq_true, List.all_eq_true, decide_eq_true_eq] at h
  rw [isIp, isIpLoop_iff]
  exact splitDots_chars [] s.data (fun p hp => isOctet_digits p (h.2 p hp))

theorem captivePortal_fst (m : Manager) (host : String) (ip : Nat) :
    (captivePortal m host ip).1 = (m._enableCaptivePortal && !isIp host) := by
  unfold captivePortal
  cases m._enableCaptivePortal <;> cases isIp host <;> rfl

/-- C7, counterexample: with the captive portal enabled, the hosts
`1.2.3.4.5`, `...` and the empty host are not dotted-decimal IPv4 addresses,
and none of them is redirected. -/
theorem captivePortal_nonaddress_counterexample :
    exampleManager._enableCaptivePortal = true ∧
    (isDottedDecimalIPv4 "1.2.3.4.5" = false ∧
      (captivePortal exampleManager "1.2.3.4.5" 0).1 = false) ∧
    (isDottedDecimalIPv4 "..." = false ∧ (captivePortal exampleManager "..." 0).1 = false) ∧
    (isDottedDecimalIPv4 "" = false ∧ (captivePortal exampleManager "" 0).1 = false) := by
  decide

/-- C7, amended: `captivePortal` redirects iff the toggle is enabled and the
host header contains a character that is neither a decimal digit nor a dot;
so a literal dotted-decimal IPv4 host is never redirected, and every
redirected host is not such an address. -/
theorem captivePortal_redirect_iff_foreign_char (m : Manager) (host : String) (ip : Nat) :
    ((captivePortal m host ip).1 = true ↔
      (m._enableCaptivePortal = true ∧ ∃ c ∈ host.data, ¬ dotOrDigit c)) ∧
    (isDottedDecimalIPv4 host = true → (captivePortal m host ip).1 = false) ∧
    ((captivePortal m host ip).1 = true → isDottedDecimalIPv4 host = false) := by
  have hiff : isIp host = true ↔ ∀ c ∈ host.data, dotOrDigit c := isIpLoop_iff _
  refine ⟨?_, ?_, ?_⟩
  · rw [captivePortal_fst]
    simp only [Bool.and_eq_true, Bool.not_eq_true', ← Bool.not_eq_true, hiff]
    simp
  · intro h
    rw [captivePortal_fst, isIp_of_isDottedDecimalIPv4 host h]
    simp
  · intro h
    rw [captivePortal_fst] at h
    simp only [Bool.and_eq_true, Bool.not_eq_true'] at h
    cases hd : isDottedDecimalIPv4 host
    · rfl
    · rw [isIp_of_isDottedDecimalIPv4 host hd] at h
      cases h.2

/-- Witness for C7 amended: `192.168.4.1` is a dotted-decimal address and is
not redirected; `anything.example` is redirected and is not an address. -/
theorem captivePortal_redirect_iff_foreign_char_witness :
    (isDottedDecimalIPv4 "192.168.4.1" = true ∧
      (captivePortal exampleManager "192.168.4.1" 0).1 = false) ∧
    ((captivePortal exampleManager "anything.example" 0).1 = true ∧
      isDottedDecimalIPv4 "anything.example" = false) :=
  ⟨⟨by decide, (captivePortal_redirect_iff_foreign_char exampleManager "192.168.4.1" 0).2.1
      (by decide)⟩,
   ⟨by decide, (captivePortal_redirect_iff_foreign_char exampleManager "anything.example" 0).2.2
      (by decide)⟩⟩

theorem toStringIp_eq (ip : Nat) :
    toStringIp ip =
      toString (ip % 256) ++ "." ++ toString (ip / 256 % 256) ++ "." ++
        toString (ip / 65536 % 256) ++ "." ++ toString (ip / 16777216 % 256) := by
  have hand : ∀ n : Nat, n &&& 0xFF = n % 256 := fun n =>
    Nat.and_pow_two_sub_one_eq_mod n 8
  have hr : List.range 3 = [0, 1, 2] := by decide
  unfold toStringIp
  simp only [hr, List.foldl, hand, Nat.shiftRight_eq_div_pow]
  simp [String.append_assoc]

/-- C8: when `captivePortal` redirects, the response is status 302 with an
empty body and `Location: http://` followed by `toStringIp` of the local
address; `toStringIp` is the four octets in decimal, least-significant byte
first, joined by dots; that string passes `isIp`, so a request whose host is
the device address is not redirected and writes no response. -/
theorem redirect_points_to_own_address (m : Manager) (host : String) (ip : Nat) :
    ((captivePortal m host ip).1 = true →
      (captivePortal m host ip).2 =
        [Event.sendHeader "Location" ("http://" ++ toStringIp ip),
         Event.send 302 "text/plain" "", Event.clientStop]) ∧
    toStringIp ip =
      toString (ip % 256) ++ "." ++ toString (ip / 256 % 256) ++ "." ++
        toString (ip / 65536 % 256) ++ "." ++ toString (ip / 16777216 % 256) ∧
    isIp (toStringIp ip) = true ∧
    captivePortal m (toStringIp ip) ip = (false, []) := by
  have hdot : isIp "." = true := by decide
  have hip : isIp (toStringIp ip) = true := by
    rw [toStringIp_eq]
    simp only [isIp_append, isIp_toString, hdot, Bool.and_self]
  refine ⟨?_, toStringIp_eq ip, hip, ?_⟩
  · unfold captivePortal
    cases m._enableCaptivePortal <;> cases isIp host <;> simp
  · unfold captivePortal
    rw [hip]
    cases m._enableCaptivePortal <;> simp

/-- Witness for C8: a probe for `connectivitycheck.example` received on
192.168.4.1 (0x0104A8C0) is redirected to `http://192.168.4.1`. -/
theorem redirect_points_to_own_address_witness :
    toStringIp 0x0104A8C0 = "192.168.4.1" ∧
    (captivePortal exampleManager "connectivitycheck.example" 0x0104A8C0).2 =
      [Event.sendHeader "Location" ("http://" ++ toStringIp 0x0104A8C0),
       Event.send 302 "text/plain" "", Event.clientStop] :=
  ⟨by decide,
   (redirect_points_to_own_address exampleManager "connectivitycheck.example" 0x0104A8C0).1
    (by decide)⟩


/-! ## Servicing the servers -/

theorem handleRequest_serviced (env : Env) (w : World) (e : Event) (he : e.isService = true) :
    Serviced w ((handleRequest env w).emit e) := by
  refine ⟨rfl, rfl, rfl, rfl, rfl, rfl, rfl, rfl, rfl, rfl, [e], rfl, ?_⟩
  intro x hx
  rw [List.mem_singleton.mp hx]; exact he

theorem captivePortal_events (m : Manager) (host : String) (ip : Nat) :
    ∀ e ∈ (captivePortal m host ip).2, e.isService = true := by
  unfold captivePortal
  split_ifs <;> simp [Event.isService]

theorem Serviced.svcRefl (w : World) : Serviced w w :=
  ⟨rfl, rfl, rfl, rfl, rfl, rfl, rfl, rfl, rfl, rfl, [], by simp, by simp⟩

theorem Serviced.svcTrans {a b c : World} (h1 : Serviced a b) (h2 : Serviced b c) :
    Serviced a c := by
  obtain ⟨a1, a2, a3, a4, a5, a6, a7, a8, a9, a10, x, hx, hxs⟩ := h1
  obtain ⟨b1, b2, b3, b4, b5, b6, b7, b8, b9, b10, y, hy, hys⟩ := h2
  refine ⟨b1.trans a1, b2.trans a2, b3.trans a3, b4.trans a4, b5.trans a5, b6.trans a6,
    b7.trans a7, b8.trans a8, b9.trans a9, b10.trans a10, x ++ y, ?_, ?_⟩
  · rw [hy, hx, List.append_assoc]
  · intro e he
    rcases List.mem_append.mp he with h | h
    · exact hxs e h
    · exact hys e h

theorem captivePortalW_serviced (w : World) (host : String) (ip : Nat) :
    Serviced w (captivePortalW w host ip).2 :=
  ⟨rfl, rfl, rfl, rfl, rfl, rfl, rfl, rfl, rfl, rfl, _, rfl, captivePortal_events _ _ _⟩

theorem dispatch_ok (env : Env) (w : World) (r : Request)
    (hr : r ≠ Request.reset) (he : r ≠ Request.erase true) :
    ∃ w1, dispatch env w r = Outcome.ok () w1 ∧ Serviced w w1 := by
  cases r with
  | root host ip =>
    by_cases hc : (captivePortalW w host ip).1 = true
    · exact ⟨_, if_pos hc, captivePortalW_serviced w host ip⟩
    · exact ⟨_, if_neg hc, (captivePortalW_serviced w host ip).svcTrans
        (handleRequest_serviced env _ (Event.sendPage 200 "root") rfl)⟩
  | wifi scan => exact ⟨_, rfl, handleRequest_serviced env w _ rfl⟩
  | wifisave ssid pass staticIp =>
    cases staticIp with
    | none =>
      exact ⟨_, rfl, rfl, rfl, rfl, rfl, rfl, rfl, rfl, rfl, rfl, rfl,
        [Event.sendPage 200 "wifisave"], rfl, by simp [Event.isService]⟩
    | some ip =>
      exact ⟨_, rfl, rfl, rfl, rfl, rfl, rfl, rfl, rfl, rfl, rfl, rfl,
        [Event.sendPage 200 "wifisave"], rfl, by simp [Event.isService]⟩
  | info => exact ⟨_, rfl, handleRequest_serviced env w _ rfl⟩
  | reset => exact absurd rfl hr
  | exit =>
    exact ⟨_, rfl, rfl, rfl, rfl, rfl, rfl, rfl, rfl, rfl, rfl, rfl,
      [Event.sendPage 200 "exit"], rfl, by simp [Event.isService]⟩
  | erase erased =>
    cases erased with
    | true => exact absurd rfl he
    | false => exact ⟨_, rfl, handleRequest_serviced env w _ rfl⟩
  | status => exact ⟨_, rfl, handleRequest_serviced env w _ rfl⟩
  | notFound host ip =>
    by_cases hc : (captivePortalW w host ip).1 = true
    · exact ⟨_, if_pos hc, captivePortalW_serviced w host ip⟩
    · exact ⟨_, if_neg hc, (captivePortalW_serviced w host ip).svcTrans
        (handleRequest_serviced env _ (Event.sendPage 404 "notfound") rfl)⟩

theorem serviceServers_ok (env : Env) (w : World) (hno : NoRestart env)
    (hsrv : w.m.server = true) (hdns : w.m.dnsServer = true) :
    ∃ w1, serviceServers env w = Outcome.ok () w1 ∧ Serviced w w1 := by
  have hbase : Serviced w
      { ((w.emit Event.dnsProcessNextRequest).emit Event.handleClient) with tick := w.tick + 1 } :=
    ⟨rfl, rfl, rfl, rfl, rfl, rfl, rfl, rfl, rfl, rfl,
      [Event.dnsProcessNextRequest, Event.handleClient],
      by simp [World.emit], by simp [Event.isService]⟩
  unfold serviceServers
  have h1 : ¬ (w.m.dnsServer = false) := by rw [hdns]; simp
  have h2 : ¬ ((w.emit Event.dnsProcessNextRequest).m.server = false) := by
    show ¬ (w.m.server = false); rw [hsrv]; simp
  rw [if_neg h1]
  dsimp only
  rw [if_neg h2]
  cases hreq : env.request (w.emit Event.dnsProcessNextRequest |>.emit Event.handleClient).tick with
  | none => exact ⟨_, rfl, hbase⟩
  | some r =>
    have hk := hno (w.emit Event.dnsProcessNextRequest |>.emit Event.handleClient).tick
    rw [hreq] at hk
    obtain ⟨w1, hw1, hs⟩ := dispatch_ok env
      { ((w.emit Event.dnsProcessNextRequest).emit Event.handleClient) with tick := w.tick + 1 } r
      (fun h => hk.1 (by rw [h])) (fun h => hk.2 (by rw [h]))
    exact ⟨w1, hw1, hbase.svcTrans hs⟩


/-! ## Radio helpers -/

theorem RadioStep.radioRefl (w : World) : RadioStep w w := ⟨rfl, [], by simp, by simp⟩

theorem RadioStep.radioTrans {a b c : World} (h1 : RadioStep a b) (h2 : RadioStep b c) :
    RadioStep a c := by
  obtain ⟨a1, x, hx, hxs⟩ := h1
  obtain ⟨b1, y, hy, hys⟩ := h2
  refine ⟨b1.trans a1, x ++ y, by rw [hy, hx, List.append_assoc], ?_⟩
  intro e he
  rcases List.mem_append.mp he with h | h
  · exact hxs e h
  · exact hys e h

theorem radioStep_emit (w : World) (e : Event) (he : e.isRadio = true) :
    RadioStep w (w.emit e) :=
  ⟨rfl, [e], rfl, fun x hx => by rw [List.mem_singleton.mp hx]; exact he⟩

theorem WiFi_Mode_step (w : World) (mode : Nat) (persist : Bool) :
    RadioStep w (WiFi_Mode w mode persist).2 ∧ (WiFi_Mode w mode persist).2.opmode = mode := by
  unfold WiFi_Mode
  split
  · rename_i h; exact ⟨RadioStep.radioRefl w, h.1⟩
  · exact ⟨⟨rfl, [Event.setOpmode mode persist], rfl, by simp [Event.isRadio]⟩, rfl⟩

theorem WiFi_Disconnect_step (w : World) :
    RadioStep w (WiFi_Disconnect w) ∧ (WiFi_Disconnect w).opmode = w.opmode := by
  unfold WiFi_Disconnect
  split
  · exact ⟨⟨rfl, [Event.stationDisconnect], rfl, by simp [Event.isRadio]⟩, rfl⟩
  · exact ⟨RadioStep.radioRefl w, rfl⟩

theorem WiFi_enableSTA_step (w : World) (enable persist : Bool) :
    RadioStep w (WiFi_enableSTA w enable persist).2 := by
  unfold WiFi_enableSTA
  dsimp only
  split_ifs
  · exact (WiFi_Mode_step w _ _).1
  · exact (WiFi_Mode_step w _ _).1
  · exact RadioStep.radioRefl w

theorem WiFi_enableSTA_off (w : World) :
    (WiFi_enableSTA w false false).2.opmode &&& WIFI_STA = 0 := by
  have hmask : ∀ x : Nat, (x &&& 0xFFFFFFFE) &&& WIFI_STA = 0 := by
    intro x
    rw [Nat.and_assoc]
    have : (0xFFFFFFFE : Nat) &&& WIFI_STA = 0 := by decide
    rw [this, Nat.and_zero]
  by_cases hb : w.opmode &&& WIFI_STA ≠ 0
  · have : WiFi_enableSTA w false false = WiFi_Mode w (w.opmode &&& 0xFFFFFFFE) false := by
      simp [WiFi_enableSTA, hb]
    rw [this, (WiFi_Mode_step w _ _).2]
    exact hmask _
  · have : WiFi_enableSTA w false false = (true, w) := by
      simp [WiFi_enableSTA, hb]
    rw [this]
    simpa using hb

theorem waitForConnectResult_step (env : Env) (w : World) :
    RadioStep w (waitForConnectResult env w).2 :=
  ⟨rfl, [Event.waitForConnectResult], rfl, by simp [Event.isRadio]⟩

theorem WiFi_begin_step (w : World) (ssid pass : String) :
    RadioStep w (WiFi_begin w ssid pass) :=
  ⟨rfl, [Event.wifiBegin ssid pass], rfl, by simp [Event.isRadio]⟩

theorem WiFi_beginStored_step (w : World) : RadioStep w (WiFi_beginStored w) :=
  ⟨rfl, [Event.wifiBeginStored], rfl, by simp [Event.isRadio]⟩

/-- The call `connectWifi` leaves the manager alone and adds to the trace its own
entry followed by calls on the radio. -/
theorem connectWifi_step (env : Env) (w : World) (ssid pass : String) :
    (connectWifi env w ssid pass).2.m = w.m ∧
    ∃ extra, (connectWifi env w ssid pass).2.log =
        w.log ++ Event.connectWifi ssid pass :: extra ∧
      ∀ e ∈ extra, e.isRadio = true := by
  have hprep : ∀ w0 : World, RadioStep w0
      (WiFi_Disconnect (if w0.m._sta_static_ip ≠ 0 then w0.emit Event.staConfig else w0)) := by
    intro w0
    split_ifs
    · exact (radioStep_emit w0 Event.staConfig rfl).radioTrans (WiFi_Disconnect_step _).1
    · exact (WiFi_Disconnect_step _).1
  have hjoin : ∀ w1 : World, RadioStep w1
      (if ssid ≠ "" then
        waitForConnectResult env
          ((WiFi_begin (((WiFi_enableSTA w1 true w1.m.storeSTAmode).2).emit
            (Event.setPersistent true)) ssid pass).emit (Event.setPersistent false))
       else if w1.storedSSID ≠ "" then
        waitForConnectResult env (WiFi_beginStored (WiFi_enableSTA w1 true w1.m.storeSTAmode).2)
       else (WL_NO_SSID_AVAIL, w1)).2 := by
    intro w1
    split_ifs
    · exact (WiFi_enableSTA_step w1 true w1.m.storeSTAmode).radioTrans
        ((radioStep_emit _ (Event.setPersistent true) rfl).radioTrans
          ((WiFi_begin_step _ ssid pass).radioTrans
            ((radioStep_emit _ (Event.setPersistent false) rfl).radioTrans
              (waitForConnectResult_step env _))))
    · exact (WiFi_enableSTA_step w1 true w1.m.storeSTAmode).radioTrans
        ((WiFi_beginStored_step _).radioTrans (waitForConnectResult_step env _))
    · exact RadioStep.radioRefl w1
  have hwps : ∀ r : Nat × World, RadioStep r.2
      (if r.2.m._tryWPS = true ∧ r.1 ≠ WL_CONNECTED ∧ pass = "" then
        waitForConnectResult env (r.2.emit Event.beginWPS)
       else r).2 := by
    intro r
    split_ifs
    · exact (radioStep_emit r.2 Event.beginWPS rfl).radioTrans (waitForConnectResult_step env _)
    · exact RadioStep.radioRefl r.2
  have key : RadioStep (w.emit (Event.connectWifi ssid pass)) (connectWifi env w ssid pass).2 :=
    (hprep (w.emit (Event.connectWifi ssid pass))).radioTrans ((hjoin _).radioTrans (hwps _))
  obtain ⟨hm, extra, hlog, hall⟩ := key
  exact ⟨hm, extra, by rw [hlog]; simp [World.emit], hall⟩


/-! ## Teardown -/

theorem isService_class (e : Event) (h : e.isService = true) :
    e.isAttempt = false ∧ e.isSoftAP = false ∧ e ≠ Event.serverStop ∧
      e ≠ Event.softAPdisconnect ∧ e ≠ Event.saveCallback := by
  cases e <;> simp_all [Event.isService, Event.isAttempt, Event.isSoftAP]

theorem isRadio_class (e : Event) (h : e.isRadio = true) :
    e.isAttempt = false ∧ e.isSoftAP = false ∧ e ≠ Event.serverStop ∧
      e ≠ Event.softAPdisconnect ∧ e ≠ Event.saveCallback := by
  cases e <;> simp_all [Event.isRadio, Event.isAttempt, Event.isSoftAP]

theorem filter_attempt_nil (l : List Event) (h : ∀ e ∈ l, e.isAttempt = false) :
    l.filter Event.isAttempt = [] := by
  induction l with
  | nil => rfl
  | cons a rest ih =>
    rw [List.filter_cons, h a (List.mem_cons_self _ _)]
    exact ih (fun e he => h e (List.mem_cons_of_mem _ he))

/-- A full teardown: with the standalone web portal off, the config portal
active and both servers alive, `stopConfigPortal` returns, having fired the
save callback if one is registered, stopped the servers, disconnected the
AP and put the radio in `_usermode`; it makes no connection attempt. -/
theorem stopConfigPortal_teardown (env : Env) (w : World) (hno : NoRestart env)
    (hweb : w.m.webPortalActive = false) (hact : w.m.configPortalActive = true)
    (hsrv : w.m.server = true) (hdns : w.m.dnsServer = true) :
    ∃ r w2, stopConfigPortal env w = Outcome.ok r w2 ∧ TornDown w w2 ∧
      w2.m._usermode = w.m._usermode ∧ w2.m.webPortalActive = false ∧
      w2.log.filter Event.isAttempt = w.log.filter Event.isAttempt ∧
      (w.m._savecallback = true → Event.saveCallback ∈ w2.log) := by
  have hsrv0 : (if w.m._savecallback = true then w.emit Event.saveCallback else w).m = w.m := by
    split_ifs <;> rfl
  obtain ⟨w1, hw1, h1, h2, h3, h4, h5, h6, h7, h8, h9, h10, extra, hlog, hall⟩ :=
    serviceServers_ok env (if w.m._savecallback = true then w.emit Event.saveCallback else w)
      hno (by rw [hsrv0]; exact hsrv) (by rw [hsrv0]; exact hdns)
  rw [hsrv0] at h4 h5 h6 h7 h8 h9 h10
  have hw : ¬ (w.m.webPortalActive = true) := by rw [hweb]; simp
  have hact1 : ¬ (w1.m.configPortalActive = false) := by rw [h5, hact]; simp
  obtain ⟨⟨hm, mextra, hmlog, hmall⟩, hmode⟩ := WiFi_Mode_step
    (WiFi_softAPdisconnect env (releaseServers w1)).2 w1.m._usermode false
  have heq : stopConfigPortal env w =
      Outcome.ok (WiFi_softAPdisconnect env (releaseServers w1)).1
        (setInactive (WiFi_Mode (WiFi_softAPdisconnect env (releaseServers w1)).2
          w1.m._usermode false).2) := by
    unfold stopConfigPortal
    rw [if_neg hw]
    dsimp only
    rw [hw1]
    dsimp only
    have hact2 : ¬ ((releaseServers w1).m.configPortalActive = false) := hact1
    rw [if_neg hact2]
    rfl
  have hlog2 : (setInactive (WiFi_Mode (WiFi_softAPdisconnect env (releaseServers w1)).2
      w1.m._usermode false).2).log =
      w.log ++ ((if w.m._savecallback = true then [Event.saveCallback] else []) ++ extra ++
        [Event.serverStop, Event.softAPdisconnect] ++ mextra) := by
    show (WiFi_Mode _ _ _).2.log = _
    rw [hmlog]
    show ((w1.log ++ [Event.serverStop]) ++ [Event.softAPdisconnect]) ++ mextra = _
    rw [hlog]
    split_ifs <;> simp [World.emit]
  refine ⟨_, _, heq, ⟨rfl, ?_, ?_, ?_, _, hlog2, by simp, by simp⟩, ?_, ?_, ?_, ?_⟩
  · show (WiFi_Mode _ _ _).2.m.server = false
    rw [hm]; rfl
  · show (WiFi_Mode _ _ _).2.m.dnsServer = false
    rw [hm]; rfl
  · show (WiFi_Mode _ _ _).2.opmode = w.m._usermode
    rw [hmode]; exact h8
  · show (WiFi_Mode _ _ _).2.m._usermode = w.m._usermode
    rw [hm]; exact h8
  · show (WiFi_Mode _ _ _).2.m.webPortalActive = false
    rw [hm]; exact h4.trans hweb
  · rw [hlog2]
    have e1 : extra.filter Event.isAttempt = [] :=
      filter_attempt_nil _ (fun e he => (isService_class e (hall e he)).1)
    have e2 : mextra.filter Event.isAttempt = [] :=
      filter_attempt_nil _ (fun e he => (isRadio_class e (hmall e he)).1)
    split_ifs <;> simp [List.filter_append, e1, e2, Event.isAttempt, List.filter]
  · intro hsave
    rw [hlog2, if_pos hsave]
    simp


theorem tornDown_of_later {w w1 w2 : World} (hu : w1.m._usermode = w.m._usermode)
    (hl : ∃ pre, w1.log = w.log ++ pre) (h : TornDown w1 w2) : TornDown w w2 := by
  obtain ⟨a, b, c, d, extra, hlog, h1, h2⟩ := h
  obtain ⟨pre, hpre⟩ := hl
  refine ⟨a, b, c, d.trans hu, pre ++ extra, by rw [hlog, hpre, List.append_assoc], ?_, ?_⟩
  · exact List.mem_append_right _ h1
  · exact List.mem_append_right _ h2

/-! ## The pending flag across servicing -/

theorem dispatch_connect (env : Env) (w w1 : World) (r : Request)
    (h : dispatch env w r = Outcome.ok () w1) :
    w1.m.connect = (r.isSave || w.m.connect) := by
  cases r with
  | wifisave ssid pass staticIp =>
    cases staticIp <;>
    · injection h with _ hw
      rw [← hw]; rfl
  | reset => cases h
  | erase erased =>
    cases erased
    · injection h with _ hw
      rw [← hw]; rfl
    · cases h
  | root host ip =>
    change (if (captivePortalW w host ip).1 = true then _ else _) = _ at h
    split_ifs at h <;>
    · injection h with _ hw
      rw [← hw]; rfl
  | notFound host ip =>
    change (if (captivePortalW w host ip).1 = true then _ else _) = _ at h
    split_ifs at h <;>
    · injection h with _ hw
      rw [← hw]; rfl
  | _ =>
    injection h with _ hw
    rw [← hw]; rfl

theorem serviceServers_connect (env : Env) (w w1 : World)
    (h : serviceServers env w = Outcome.ok () w1) :
    w1.m.connect = (servesSave env w.tick || w.m.connect) := by
  unfold serviceServers at h
  by_cases h1 : w.m.dnsServer = false
  · rw [if_pos h1] at h; cases h
  · rw [if_neg h1] at h
    dsimp only at h
    by_cases h2 : (w.emit Event.dnsProcessNextRequest).m.server = false
    · rw [if_pos h2] at h; cases h
    · rw [if_neg h2] at h
      have htick : ((w.emit Event.dnsProcessNextRequest).emit Event.handleClient).tick = w.tick :=
        rfl
      rw [htick] at h
      unfold servesSave
      cases hreq : env.request w.tick with
      | none =>
        rw [hreq] at h
        injection h with _ hw
        rw [← hw]; rfl
      | some r =>
        rw [hreq] at h
        have hd := dispatch_connect env _ w1 r h
        exact hd

/-- After `stopConfigPortal` on a manager whose standalone web portal is off
the pending flag is set iff it was set before or the servicing inside the
call served a form submission. -/
theorem stopConfigPortal_connect (env : Env) (w w1 : World) (b : Bool)
    (h : stopConfigPortal env w = Outcome.ok b w1) :
    w1.m.connect = ((servesSave env w.tick && !w.m.webPortalActive) || w.m.connect) := by
  unfold stopConfigPortal at h
  by_cases hweb : w.m.webPortalActive = true
  · rw [if_pos hweb] at h
    injection h with _ hw
    rw [← hw, hweb]; simp
  · rw [if_neg hweb] at h
    have hweb2 : w.m.webPortalActive = false := by simpa using hweb
    dsimp only at h
    split at h
    · cases h
    · rename_i u w2 hsvc
      have s1 := serviceServers_connect env _ w2 hsvc
      have s1' : w2.m.connect = (servesSave env w.tick || w.m.connect) := by
        rw [s1]; split_ifs <;> rfl
      rw [hweb2, Bool.not_false, Bool.and_true]
      split_ifs at h
      · injection h with _ hw1
        rw [← hw1]; exact s1'
      · injection h with _ hw1
        rw [← hw1]
        obtain ⟨⟨hm, -⟩, -⟩ := WiFi_Mode_step (WiFi_softAPdisconnect env (releaseServers w2)).2
          (WiFi_softAPdisconnect env (releaseServers w2)).2.m._usermode false
        show (WiFi_Mode _ _ _).2.m.connect = _
        rw [hm]; exact s1'

/-! ## One poll of the config portal -/

theorem handleConfigPortal_idle (env : Env) (w w1 : World)
    (hw1 : serviceServers env w = Outcome.ok () w1) (hc : w1.m.connect = false) :
    handleConfigPortal env w = Outcome.ok WL_IDLE_STATUS w1 := by
  have hc2 : ¬ (w1.m.connect = true) := by rw [hc]; simp
  unfold handleConfigPortal
  rw [hw1]
  dsimp only
  rw [if_neg hc2]

theorem handleConfigPortal_pending (env : Env) (w w1 : World)
    (hw1 : serviceServers env w = Outcome.ok () w1) (hc : w1.m.connect = true) :
    handleConfigPortal env w =
      if (connectWifi env (armed w1) w1.m._ssid w1.m._pass).1 = WL_CONNECTED then
        match stopConfigPortal env (connectWifi env (armed w1) w1.m._ssid w1.m._pass).2 with
        | Outcome.halted why w => Outcome.halted why w
        | Outcome.ok _ w => Outcome.ok WL_CONNECTED w
      else if (connectWifi env (armed w1) w1.m._ssid w1.m._pass).2.m._shouldBreakAfterConfig
          = true then
        match stopConfigPortal env (connectWifi env (armed w1) w1.m._ssid w1.m._pass).2 with
        | Outcome.halted why w => Outcome.halted why w
        | Outcome.ok _ w => Outcome.ok WL_CONNECT_FAILED w
      else
        Outcome.ok WL_IDLE_STATUS
          (WiFi_enableSTA (WiFi_Disconnect
            (connectWifi env (armed w1) w1.m._ssid w1.m._pass).2) false false).2 := by
  unfold handleConfigPortal
  rw [hw1]
  dsimp only
  rw [if_pos hc]
  rfl

/-- C4, counterexample: on a running config portal (standalone web portal
off) a poll step whose HTTP cycle serves the route `/r` does not return: the
device restarts inside the handler.  And a poll step that connects while the
teardown serves a further form submission returns `WL_CONNECTED` with the
pending flag set again. -/
theorem handleConfigPortal_restart_counterexample :
    activeWorld.m.webPortalActive = false ∧ activeWorld.m.configPortalActive = true ∧
    (handleConfigPortal resetEnv activeWorld).returned = none ∧
    (handleConfigPortal resetEnv activeWorld).haltedBy = some Halt.restart ∧
    (handleConfigPortal resubmitEnv activeWorld).returned = some WL_CONNECTED ∧
    (handleConfigPortal resubmitEnv activeWorld).world.m.connect = true := by
  decide

/-- C4, amended: one `handleConfigPortal` step of a config-portal session
(standalone web portal off, portal active, servers alive) in which no
restarting request is served.  After the DNS and HTTP servicing: with no form
submission pending it returns `WL_IDLE_STATUS` without a connection attempt;
otherwise it clears the pending flag, which stays cleared through the
attempt, makes exactly one connection attempt, with the submitted ssid and
passphrase, and returns `WL_CONNECTED` with the portal torn down if the
attempt connected, `WL_CONNECT_FAILED` with the portal torn down if it failed
and break-after-config is set, and `WL_IDLE_STATUS` with the station role
off and the portal still active, servers not stopped, if it failed and
break-after-config is not set; when the step returns, the pending flag is
set iff the portal was torn down and the teardown served a further form
submission. -/
theorem handleConfigPortal_poll (env : Env) (w : World) (hno : NoRestart env)
    (hweb : w.m.webPortalActive = false) (hact : w.m.configPortalActive = true)
    (hsrv : w.m.server = true) (hdns : w.m.dnsServer = true) :
    ∃ w1, serviceServers env w = Outcome.ok () w1 ∧
      (w1.m.connect = false →
        handleConfigPortal env w = Outcome.ok WL_IDLE_STATUS w1 ∧
        w1.log.filter Event.isAttempt = w.log.filter Event.isAttempt) ∧
      (w1.m.connect = true →
        ∃ st w2, handleConfigPortal env w = Outcome.ok st w2 ∧
          (connectWifi env (armed w1) w1.m._ssid w1.m._pass).2.m.connect = false ∧
          (w2.m.connect = true ↔ (st ≠ WL_IDLE_STATUS ∧
            servesSave env (connectWifi env (armed w1) w1.m._ssid w1.m._pass).2.tick = true)) ∧
          w2.log.filter Event.isAttempt =
            w.log.filter Event.isAttempt ++ [Event.connectWifi w1.m._ssid w1.m._pass] ∧
          ((connectWifi env (armed w1) w1.m._ssid w1.m._pass).1 = WL_CONNECTED →
            st = WL_CONNECTED ∧ TornDown w w2) ∧
          ((connectWifi env (armed w1) w1.m._ssid w1.m._pass).1 ≠ WL_CONNECTED →
            w.m._shouldBreakAfterConfig = true →
            st = WL_CONNECT_FAILED ∧ TornDown w w2) ∧
          ((connectWifi env (armed w1) w1.m._ssid w1.m._pass).1 ≠ WL_CONNECTED →
            w.m._shouldBreakAfterConfig = false →
            st = WL_IDLE_STATUS ∧ StillActive w w2)) := by
  obtain ⟨w1, hw1, h1, h2, h3, h4, h5, h6, h7, h8, h9, h10, extra, hlog, hall⟩ :=
    serviceServers_ok env w hno hsrv hdns
  have e1 : extra.filter Event.isAttempt = [] :=
    filter_attempt_nil _ (fun e he => (isService_class e (hall e he)).1)
  refine ⟨w1, hw1, ?_, ?_⟩
  · intro hc
    exact ⟨handleConfigPortal_idle env w w1 hw1 hc,
      by rw [hlog, List.filter_append, e1, List.append_nil]⟩
  · intro hc
    have hdef := handleConfigPortal_pending env w w1 hw1 hc
    obtain ⟨hm, rextra, hrlog, hrall⟩ := connectWifi_step env (armed w1) w1.m._ssid w1.m._pass
    have e2 : rextra.filter Event.isAttempt = [] :=
      filter_attempt_nil _ (fun e he => (isRadio_class e (hrall e he)).1)
    generalize connectWifi env (armed w1) w1.m._ssid w1.m._pass = r at hdef hm hrlog ⊢
    have hrlog2 : r.2.log = w.log ++ (extra ++ [Event.delay 2000] ++
        Event.connectWifi w1.m._ssid w1.m._pass :: rextra) := by
      rw [hrlog]
      show (w1.log ++ [Event.delay 2000]) ++ _ = _
      rw [hlog]
      simp
    have hratt : r.2.log.filter Event.isAttempt =
        w.log.filter Event.isAttempt ++ [Event.connectWifi w1.m._ssid w1.m._pass] := by
      rw [hrlog2]
      simp [List.filter_append, e1, e2, Event.isAttempt, List.filter]
    have hbreak : r.2.m._shouldBreakAfterConfig = w.m._shouldBreakAfterConfig := by
      rw [hm]; exact h10
    have hflag : r.2.m.connect = false := by rw [hm]; rfl
    have hstop := stopConfigPortal_teardown env r.2 hno
      (by rw [hm]; exact h4.trans hweb) (by rw [hm]; exact h5.trans hact)
      (by rw [hm]; exact h6.trans hsrv) (by rw [hm]; exact h7.trans hdns)
    obtain ⟨b, w2, hs, hT, -, -, hatt, -⟩ := hstop
    have hconn : w2.m.connect = servesSave env r.2.tick := by
      have hwebr : r.2.m.webPortalActive = false := by rw [hm]; exact h4.trans hweb
      rw [stopConfigPortal_connect env r.2 w2 b hs, hflag, hwebr]
      simp
    have hT2 : TornDown w w2 :=
      tornDown_of_later (by rw [hm]; exact h8) ⟨_, hrlog2⟩ hT
    by_cases hr : r.1 = WL_CONNECTED
    · refine ⟨WL_CONNECTED, w2, ?_, hflag,
        ⟨fun h => ⟨by decide, by rw [← hconn]; exact h⟩, fun h => by rw [hconn]; exact h.2⟩,
        hatt.trans hratt, fun _ => ⟨rfl, hT2⟩,
        fun h => absurd hr h, fun h => absurd hr h⟩
      rw [hdef, if_pos hr, hs]
    · by_cases hb : r.2.m._shouldBreakAfterConfig = true
      · refine ⟨WL_CONNECT_FAILED, w2, ?_, hflag,
          ⟨fun h => ⟨by decide, by rw [← hconn]; exact h⟩, fun h => by rw [hconn]; exact h.2⟩,
          hatt.trans hratt, fun h => absurd h hr,
          fun _ _ => ⟨rfl, hT2⟩, fun _ h => ?_⟩
        · rw [hdef, if_neg hr, if_pos hb, hs]
        · rw [hbreak, h] at hb; cases hb
      · obtain ⟨hdm, dextra, hdlog, hdall⟩ :=
          (WiFi_Disconnect_step r.2).1.radioTrans (WiFi_enableSTA_step (WiFi_Disconnect r.2) false false)
        have e3 : dextra.filter Event.isAttempt = [] :=
          filter_attempt_nil _ (fun e he => (isRadio_class e (hdall e he)).1)
        have hne : ∀ e ∈ (extra ++ [Event.delay 2000] ++
            Event.connectWifi w1.m._ssid w1.m._pass :: rextra) ++ dextra,
            e ≠ Event.serverStop ∧ e ≠ Event.softAPdisconnect := by
          intro e he
          rcases List.mem_append.mp he with he | he
          · rcases List.mem_append.mp he with he | he
            · rcases List.mem_append.mp he with he | he
              · exact ⟨(isService_class e (hall e he)).2.2.1, (isService_class e (hall e he)).2.2.2.1⟩
              · rw [List.mem_singleton.mp he]; exact ⟨by simp, by simp⟩
            · rcases List.mem_cons.mp he with he | he
              · rw [he]; exact ⟨by simp, by simp⟩
              · exact ⟨(isRadio_class e (hrall e he)).2.2.1, (isRadio_class e (hrall e he)).2.2.2.1⟩
          · exact ⟨(isRadio_class e (hdall e he)).2.2.1, (isRadio_class e (hdall e he)).2.2.2.1⟩
        have hidle : (WiFi_enableSTA (WiFi_Disconnect r.2) false false).2.m.connect = false := by
          rw [hdm]; exact hflag
        refine ⟨WL_IDLE_STATUS, (WiFi_enableSTA (WiFi_Disconnect r.2) false false).2, ?_, hflag,
          ⟨fun h => absurd (hidle.symm.trans h) (by decide), fun h => absurd rfl h.1⟩,
          ?_, fun h => absurd h hr, fun _ h => ?_, fun _ _ => ⟨rfl, ?_⟩⟩
        · rw [hdef, if_neg hr, if_neg hb]
        · rw [hdlog, List.filter_append, e3, List.append_nil, hratt]
        · rw [hbreak, h] at hb; exact absurd rfl hb
        · refine ⟨?_, ?_, ?_, ?_, WiFi_enableSTA_off _, by rw [hdm, hm]; exact h4,
            by rw [hdm, hm]; exact h8,
            (extra ++ [Event.delay 2000] ++
              Event.connectWifi w1.m._ssid w1.m._pass :: rextra) ++ dextra, ?_, ?_, ?_⟩
          · rw [hdm, hm]; exact h5.trans hact
          · rw [hdm, hm]; exact h6.trans hsrv
          · rw [hdm, hm]; exact h7.trans hdns
          · rw [hdm, hm]; rfl
          · rw [hdlog, hrlog2, List.append_assoc]
          · exact fun h => (hne _ h).1 rfl
          · exact fun h => (hne _ h).2 rfl

theorem noRestart_quietEnv : NoRestart quietEnv := by
  intro k
  exact ⟨by simp [quietEnv], by simp [quietEnv]⟩

theorem noRestart_submitEnv : NoRestart submitEnv := by
  intro k
  by_cases hk : k = 0
  · simp [submitEnv, hk]
  · simp [submitEnv, hk]

/-- Witness for C4: on a running portal, a poll that serves a form
submission and whose attempt connects returns `WL_CONNECTED`; a poll with
nothing pending returns `WL_IDLE_STATUS`. -/
theorem handleConfigPortal_poll_witness :
    (handleConfigPortal submitEnv activeWorld).returned = some WL_CONNECTED ∧
    (handleConfigPortal quietEnv activeWorld).returned = some WL_IDLE_STATUS ∧
    ∃ w1, serviceServers submitEnv activeWorld = Outcome.ok () w1 :=
  ⟨by decide, by decide,
   (handleConfigPortal_poll submitEnv activeWorld noRestart_submitEnv rfl rfl rfl rfl).imp
     (fun _ h => h.1)⟩


/-! ## Starting the portal -/

theorem validApPassword_invalid (m : Manager) (hne : m._apPassword ≠ "")
    (hlen : m._apPassword.length < 8 ∨ m._apPassword.length > 63) :
    validApPassword m = (false, { m with _apPassword := "" }) := by
  unfold validApPassword
  simp [hne, hlen]

theorem validApPassword_valid (m : Manager)
    (h : m._apPassword = "" ∨ (8 ≤ m._apPassword.length ∧ m._apPassword.length ≤ 63)) :
    validApPassword m = (true, m) := by
  unfold validApPassword
  by_cases he : m._apPassword = ""
  · have : ({ m with _apPassword := "" } : Manager) = m := by rw [← he]
    simp [he, this]
  · have hl : ¬ (m._apPassword.length < 8 ∨ m._apPassword.length > 63) := by
      rcases h with h | h
      · exact absurd h he
      · omega
    simp [he, hl]

/-- The station handling that opens `startConfigPortal`. -/
theorem startConfigPortal_sta (w : World) :
    RadioStep w
      (if w.staConnected = false then (WiFi_enableSTA (WiFi_Disconnect w) false false).2
       else (WiFi_enableSTA w true false).2) := by
  split_ifs
  · exact (WiFi_Disconnect_step w).1.radioTrans (WiFi_enableSTA_step _ false false)
  · exact WiFi_enableSTA_step w true false

theorem isRadio_filter_softAP (l : List Event) (h : ∀ e ∈ l, e.isRadio = true) :
    l.filter Event.isSoftAP = [] := by
  induction l with
  | nil => rfl
  | cons a rest ih =>
    rw [List.filter_cons, (isRadio_class a (h a (List.mem_cons_self _ _))).2.1]
    exact ih (fun e he => h e (List.mem_cons_of_mem _ he))

/-- C5, counterexample: `startConfigPortal("ESP", "short")` on a freshly
booted device returns false without a single `softAP` call; the AP role
stays off and the portal is not active. -/
theorem startConfigPortal_short_password_counterexample :
    (startConfigPortal quietEnv 5 bootWorld "ESP" (some "short")).returned = some false ∧
    (startConfigPortal quietEnv 5 bootWorld "ESP" (some "short")).world.log.filter
      Event.isSoftAP = [] ∧
    (startConfigPortal quietEnv 5 bootWorld "ESP" (some "short")).world.opmode &&& WIFI_AP = 0 ∧
    (startConfigPortal quietEnv 5 bootWorld "ESP" (some "short")).world.m.configPortalActive
      = false := by
  decide

/-- C5, amended: for a non-empty AP password shorter than 8 or longer than
63, `startConfigPortal` returns false, resets the stored AP password to the
empty string and does not start the portal: it makes no `softAP` call (the
only calls are on the station side of the radio), and `configPortalActive`
and both server pointers are as before the call. -/
theorem startConfigPortal_invalid_password (env : Env) (fuel : Nat) (w : World)
    (apName pw : String) (hne : pw ≠ "") (hlen : pw.length < 8 ∨ pw.length > 63) :
    ∃ w1, startConfigPortal env fuel w apName (some pw) = Outcome.ok false w1 ∧
      w1.m._apPassword = "" ∧
      w1.m.configPortalActive = w.m.configPortalActive ∧
      w1.m.server = w.m.server ∧ w1.m.dnsServer = w.m.dnsServer ∧
      w1.log.filter Event.isSoftAP = w.log.filter Event.isSoftAP ∧
      ∃ extra, w1.log = w.log ++ extra ∧ ∀ e ∈ extra, e.isRadio = true := by
  obtain ⟨hm, extra, hlog, hall⟩ := startConfigPortal_sta w
  generalize hW : (if w.staConnected = false then
      (WiFi_enableSTA (WiFi_Disconnect w) false false).2
    else (WiFi_enableSTA w true false).2) = W0 at hm hlog
  have hv := validApPassword_invalid
    { W0.m with _apName := apName, _apPassword := assignCStr (some pw) } hne hlen
  refine ⟨{ W0 with m := { W0.m with _apName := apName, _apPassword := "" } }, ?_, rfl, ?_, ?_,
    ?_, ?_, extra, hlog, hall⟩
  · unfold startConfigPortal
    rw [hW]
    dsimp only
    rw [hv]
    rfl
  · show W0.m.configPortalActive = _
    rw [hm]
  · show W0.m.server = _
    rw [hm]
  · show W0.m.dnsServer = _
    rw [hm]
  · show W0.log.filter _ = _
    rw [hlog, List.filter_append, isRadio_filter_softAP extra hall, List.append_nil]

/-- Witness for C5 amended: the password `short`. -/
theorem startConfigPortal_invalid_password_witness :
    ∃ w1, startConfigPortal quietEnv 5 bootWorld "ESP" (some "short") = Outcome.ok false w1 ∧
      w1.m._apPassword = "" ∧ w1.m.configPortalActive = false :=
  (startConfigPortal_invalid_password quietEnv 5 bootWorld "ESP" "short" (by decide)
    (Or.inl (by decide))).imp (fun _ h => ⟨h.1, h.2.1, h.2.2.1⟩)


theorem startAP_m (env : Env) (w : World) : (startAP env w).2.m = w.m := by
  unfold startAP
  dsimp only
  split_ifs <;> rfl

/-- With a valid AP password `startConfigPortal` brings the portal up and
then either returns (non-blocking) or enters the blocking loop. -/
theorem startConfigPortal_setup (env : Env) (fuel : Nat) (w : World) (apName : String)
    (apPassword : Option String)
    (hvalid : assignCStr apPassword = "" ∨
      (8 ≤ (assignCStr apPassword).length ∧ (assignCStr apPassword).length ≤ 63)) :
    ∃ w1, Running w.m._usermode { w1 with m := { w1.m with webPortalActive := false } } ∧
      w1.m.webPortalActive = w.m.webPortalActive ∧
      startConfigPortal env fuel w apName apPassword =
        if w.m._configPortalIsBlocking = false then Outcome.ok false w1
        else portalLoop env fuel w1 := by
  obtain ⟨hm, extra, hlog, hall⟩ := startConfigPortal_sta w
  generalize hW : (if w.staConnected = false then
      (WiFi_enableSTA (WiFi_Disconnect w) false false).2
    else (WiFi_enableSTA w true false).2) = W0 at hm hlog
  have hv := validApPassword_valid
    { W0.m with _apName := apName, _apPassword := assignCStr apPassword } hvalid
  have key : ∀ X A : World, A.m = X.m → X.m.configPortalActive = true →
      X.m._usermode = W0.m._usermode → X.m.webPortalActive = W0.m.webPortalActive →
      X.m._configPortalIsBlocking = W0.m._configPortalIsBlocking →
      Running w.m._usermode
        { (setupConfigPortal A) with
            m := { (setupConfigPortal A).m with webPortalActive := false } } ∧
      (setupConfigPortal A).m.webPortalActive = w.m.webPortalActive ∧
      (setupConfigPortal A).m._configPortalIsBlocking = w.m._configPortalIsBlocking := by
    intro X A hA h1 h2 h3 h4
    refine ⟨⟨rfl, ?_, rfl, rfl, ?_⟩, ?_, ?_⟩
    · show A.m.configPortalActive = true
      rw [hA]; exact h1
    · show A.m._usermode = _
      rw [hA, h2, hm]
    · show A.m.webPortalActive = _
      rw [hA, h3, hm]
    · show A.m._configPortalIsBlocking = _
      rw [hA, h4, hm]
  obtain ⟨k1, k2, k3⟩ := key
    { W0 with
      m := { W0.m with _apName := apName, _apPassword := assignCStr apPassword,
                       configPortalActive := true, connect := false, abort := false,
                       _configPortalStart := env.millis W0.tick },
      tick := W0.tick + 1 }
    (startAP env
      { W0 with
        m := { W0.m with _apName := apName, _apPassword := assignCStr apPassword,
                         configPortalActive := true, connect := false, abort := false,
                         _configPortalStart := env.millis W0.tick },
        tick := W0.tick + 1 }).2
    (startAP_m env _) rfl rfl rfl rfl
  refine ⟨_, k1, k2, ?_⟩
  rw [← k3]
  unfold startConfigPortal
  rw [hW]
  dsimp only
  rw [hv]
  rfl

theorem configPortalHasTimeout_frame (m : Manager) (now stations : Nat) :
    (configPortalHasTimeout m now stations).2.webPortalActive = m.webPortalActive ∧
    (configPortalHasTimeout m now stations).2.configPortalActive = m.configPortalActive ∧
    (configPortalHasTimeout m now stations).2.server = m.server ∧
    (configPortalHasTimeout m now stations).2.dnsServer = m.dnsServer ∧
    (configPortalHasTimeout m now stations).2._usermode = m._usermode := by
  unfold configPortalHasTimeout
  dsimp only
  split_ifs <;> exact ⟨rfl, rfl, rfl, rfl, rfl⟩

/-- One poll of a running portal either ends the session with the portal
torn down, or returns `WL_IDLE_STATUS` with the portal still running. -/
theorem handleConfigPortal_running (env : Env) (hno : NoRestart env) (u : Nat) (w : World)
    (hrun : Running u w) :
    ∃ st w2, handleConfigPortal env w = Outcome.ok st w2 ∧
      ((st ≠ WL_IDLE_STATUS ∧ w2.opmode = u ∧ w2.m.configPortalActive = false) ∨
       (st = WL_IDLE_STATUS ∧ Running u w2)) := by
  obtain ⟨q1, q2, q3, q4, q5⟩ := hrun
  obtain ⟨w1, hw1, -, -, -, s4, s5, s6, s7, s8, -⟩ := serviceServers_ok env w hno q3 q4
  have hrun1 : Running u w1 :=
    ⟨s4.trans q1, s5.trans q2, s6.trans q3, s7.trans q4, s8.trans q5⟩
  cases hcon : w1.m.connect
  · exact ⟨_, _, handleConfigPortal_idle env w w1 hw1 hcon, Or.inr ⟨rfl, hrun1⟩⟩
  · have hdef := handleConfigPortal_pending env w w1 hw1 hcon
    obtain ⟨hm, -⟩ := connectWifi_step env (armed w1) w1.m._ssid w1.m._pass
    generalize connectWifi env (armed w1) w1.m._ssid w1.m._pass = r at hdef hm
    have hrunr : Running u r.2 := by
      obtain ⟨a1, a2, a3, a4, a5⟩ := hrun1
      exact ⟨by rw [hm]; exact a1, by rw [hm]; exact a2, by rw [hm]; exact a3,
        by rw [hm]; exact a4, by rw [hm]; exact a5⟩
    obtain ⟨b, w2, hs, hT, -⟩ :=
      stopConfigPortal_teardown env r.2 hno hrunr.1 hrunr.2.1 hrunr.2.2.1 hrunr.2.2.2.1
    have htorn : w2.opmode = u ∧ w2.m.configPortalActive = false :=
      ⟨hT.2.2.2.1.trans hrunr.2.2.2.2, hT.1⟩
    by_cases hr : r.1 = WL_CONNECTED
    · refine ⟨WL_CONNECTED, w2, ?_, Or.inl ⟨by decide, htorn⟩⟩
      rw [hdef, if_pos hr, hs]
    · by_cases hb : r.2.m._shouldBreakAfterConfig = true
      · refine ⟨WL_CONNECT_FAILED, w2, ?_, Or.inl ⟨by decide, htorn⟩⟩
        rw [hdef, if_neg hr, if_pos hb, hs]
      · obtain ⟨hdm, -⟩ := (WiFi_Disconnect_step r.2).1.radioTrans
          (WiFi_enableSTA_step (WiFi_Disconnect r.2) false false)
        refine ⟨WL_IDLE_STATUS, (WiFi_enableSTA (WiFi_Disconnect r.2) false false).2, ?_,
          Or.inr ⟨rfl, ?_⟩⟩
        · rw [hdef, if_neg hr, if_neg hb]
        · obtain ⟨a1, a2, a3, a4, a5⟩ := hrunr
          exact ⟨by rw [hdm]; exact a1, by rw [hdm]; exact a2, by rw [hdm]; exact a3,
            by rw [hdm]; exact a4, by rw [hdm]; exact a5⟩

/-- Whenever the blocking loop of a running portal returns, the portal has
been torn down: the radio is in `_usermode` and the portal is not active. -/
theorem portalLoop_torn (env : Env) (hno : NoRestart env) (u : Nat) :
    ∀ (fuel : Nat) (w : World), Running u w →
      ∀ (r : Bool) (w2 : World), portalLoop env fuel w = Outcome.ok r w2 →
        w2.opmode = u ∧ w2.m.configPortalActive = false := by
  intro fuel
  induction fuel with
  | zero =>
    intro w _ r w2 h
    cases h
  | succ fuel ih =>
    intro w hrun r w2 h
    obtain ⟨f1, f2, f3, f4, f5⟩ :=
      configPortalHasTimeout_frame w.m (env.millis w.tick) (env.stations w.tick)
    obtain ⟨r1, r2, r3, r4, r5⟩ := hrun
    have hrun1 : Running u
        { w with m := (configPortalHasTimeout w.m (env.millis w.tick) (env.stations w.tick)).2,
                 tick := w.tick + 1 } :=
      ⟨f1.trans r1, f2.trans r2, f3.trans r3, f4.trans r4, f5.trans r5⟩
    generalize hW : ({ w with
        m := (configPortalHasTimeout w.m (env.millis w.tick) (env.stations w.tick)).2,
        tick := w.tick + 1 } : World) = W at hrun1
    unfold portalLoop at h
    dsimp only at h
    rw [hW] at h
    split_ifs at h with hc
    · obtain ⟨q1, q2, q3, q4, q5⟩ := hrun1
      obtain ⟨b, w3, hs, hT, -⟩ := stopConfigPortal_teardown env W hno q1 q2 q3 q4
      rw [hs] at h
      injection h with _ hw
      rw [← hw]
      exact ⟨hT.2.2.2.1.trans q5, hT.1⟩
    · obtain ⟨st, w3, hh, hcase⟩ := handleConfigPortal_running env hno u W hrun1
      rw [hh] at h
      dsimp only at h
      rcases hcase with ⟨hst, htorn⟩ | ⟨hst, hrun3⟩
      · rw [if_pos hst] at h
        injection h with _ hw
        rw [← hw]
        exact htorn
      · rw [if_neg (by rw [hst]; simp)] at h
        exact ih w3 hrun3 r w2 h

/-! ## Stopping the portal -/

/-- A request handler that returns leaves the same members and radio state
alone as in `dispatch_ok`, whatever the request. -/
theorem dispatch_frame (env : Env) (w w1 : World) (r : Request)
    (h : dispatch env w r = Outcome.ok () w1) : Serviced w w1 := by
  by_cases hr : r = Request.reset
  · rw [hr] at h; cases h
  · by_cases he : r = Request.erase true
    · rw [he] at h; cases h
    · obtain ⟨w2, hw2, hs⟩ := dispatch_ok env w r hr he
      rw [hw2] at h
      injection h with _ hw
      rw [← hw]; exact hs

theorem serviceServers_frame (env : Env) (w w1 : World)
    (h : serviceServers env w = Outcome.ok () w1) : Serviced w w1 := by
  have hbase : Serviced w
      { ((w.emit Event.dnsProcessNextRequest).emit Event.handleClient) with tick := w.tick + 1 } :=
    ⟨rfl, rfl, rfl, rfl, rfl, rfl, rfl, rfl, rfl, rfl,
      [Event.dnsProcessNextRequest, Event.handleClient],
      by simp [World.emit], by simp [Event.isService]⟩
  unfold serviceServers at h
  by_cases h1 : w.m.dnsServer = false
  · rw [if_pos h1] at h; cases h
  · rw [if_neg h1] at h
    dsimp only at h
    by_cases h2 : (w.emit Event.dnsProcessNextRequest).m.server = false
    · rw [if_pos h2] at h; cases h
    · rw [if_neg h2] at h
      split at h
      · injection h with _ hw
        rw [← hw]; exact hbase
      · exact hbase.svcTrans (dispatch_frame env _ w1 _ h)

/-- After any `stopConfigPortal` that got past the web-portal guard and
returned, a second `stopConfigPortal` does not return: it fires the save
callback, if one is registered, and halts on the released DNS server
pointer. -/
theorem stopConfigPortal_second_call_halts (env : Env) (w w1 : World) (r : Bool)
    (hweb : w.m.webPortalActive = false)
    (h : stopConfigPortal env w = Outcome.ok r w1) :
    stopConfigPortal env w1 = Outcome.halted Halt.nullDeref
      (if w1.m._savecallback = true then w1.emit Event.saveCallback else w1) := by
  have hw : ¬ (w.m.webPortalActive = true) := by rw [hweb]; simp
  have hfacts : w1.m.webPortalActive = false ∧ w1.m.dnsServer = false := by
    unfold stopConfigPortal at h
    rw [if_neg hw] at h
    dsimp only at h
    split at h
    · cases h
    · rename_i u w2 hsvc
      obtain ⟨-, -, -, s4, -⟩ := serviceServers_frame env _ w2 hsvc
      have s4' : w2.m.webPortalActive = false := by
        rw [s4]
        split_ifs <;> exact hweb
      split_ifs at h
      · injection h with _ hw1
        rw [← hw1]; exact ⟨s4', rfl⟩
      · injection h with _ hw1
        rw [← hw1]
        obtain ⟨⟨hm, -⟩, -⟩ := WiFi_Mode_step (WiFi_softAPdisconnect env (releaseServers w2)).2
          (WiFi_softAPdisconnect env (releaseServers w2)).2.m._usermode false
        constructor
        · show (WiFi_Mode _ _ _).2.m.webPortalActive = false
          rw [hm]; exact s4'
        · show (WiFi_Mode _ _ _).2.m.dnsServer = false
          rw [hm]; rfl
  have hw1 : ¬ (w1.m.webPortalActive = true) := by rw [hfacts.1]; simp
  have hd : (if w1.m._savecallback = true then w1.emit Event.saveCallback else w1).m.dnsServer
      = false := by
    split_ifs <;> exact hfacts.2
  unfold stopConfigPortal
  rw [if_neg hw1]
  dsimp only
  unfold serviceServers
  rw [if_pos hd]

/-- C9, at the failing input: after a non-blocking start with a save callback
registered, the first `stopConfigPortal` returns true having fired the save
callback once; the second call fires the save callback again and then calls
`processNextRequest` on the released DNS server pointer, so it never
returns. -/
theorem stopConfigPortal_twice :
    startedWorld.m.configPortalActive = true ∧ startedWorld.m._savecallback = true ∧
    (stopConfigPortal quietEnv startedWorld).returned = some true ∧
    ((stopConfigPortal quietEnv startedWorld).world.log.filter
      (fun e => decide (e = Event.saveCallback))).length = 1 ∧
    (stopConfigPortal quietEnv (stopConfigPortal quietEnv startedWorld).world).haltedBy
      = some Halt.nullDeref ∧
    ((stopConfigPortal quietEnv (stopConfigPortal quietEnv startedWorld).world).world.log.filter
      (fun e => decide (e = Event.saveCallback))).length = 2 := by
  decide

/-- C10, counterexample: the manager is constructed while the radio is off,
the station role is then switched on, so the mode immediately before
`startConfigPortal` is `WIFI_STA`; after start and stop the mode is
`WIFI_OFF`. -/
theorem mode_before_start_counterexample :
    staWorld.opmode = WIFI_STA ∧
    (startConfigPortal quietEnv 0 staWorld "ESP" none).returned = some false ∧
    (startConfigPortal quietEnv 0 staWorld "ESP" none).world.m.configPortalActive = true ∧
    (stopConfigPortal quietEnv
      (startConfigPortal quietEnv 0 staWorld "ESP" none).world).returned = some true ∧
    (stopConfigPortal quietEnv
      (startConfigPortal quietEnv 0 staWorld "ESP" none).world).world.opmode = WIFI_OFF := by
  decide

/-- C10, amended: the constructor records the radio mode in `_usermode`;
with the standalone web portal off, a valid AP password and no restarting
request, a non-blocking `startConfigPortal` returns with the portal active
and a following `stopConfigPortal` returns with the radio in `_usermode`;
and whenever a blocking `startConfigPortal` returns, the radio is in
`_usermode`.  The mode active immediately before the start plays no part. -/
theorem stop_restores_usermode (env : Env) (fuel : Nat) (w : World) (apName : String)
    (apPassword : Option String) (hno : NoRestart env)
    (hweb : w.m.webPortalActive = false)
    (hvalid : assignCStr apPassword = "" ∨
      (8 ≤ (assignCStr apPassword).length ∧ (assignCStr apPassword).length ≤ 63)) :
    (∀ (init : Manager) (w0 : World), (construct init w0).m._usermode = w0.opmode) ∧
    (w.m._configPortalIsBlocking = false →
      ∃ w1 r w2, startConfigPortal env fuel w apName apPassword = Outcome.ok false w1 ∧
        w1.m.configPortalActive = true ∧
        stopConfigPortal env w1 = Outcome.ok r w2 ∧
        w2.opmode = w.m._usermode ∧ w2.m.configPortalActive = false) ∧
    (w.m._configPortalIsBlocking = true →
      ∀ r w2, startConfigPortal env fuel w apName apPassword = Outcome.ok r w2 →
        w2.opmode = w.m._usermode ∧ w2.m.configPortalActive = false) := by
  obtain ⟨w1, ⟨-, a2, a3, a4, a5⟩, hw, heq⟩ :=
    startConfigPortal_setup env fuel w apName apPassword hvalid
  have hrun : Running w.m._usermode w1 := ⟨hw.trans hweb, a2, a3, a4, a5⟩
  refine ⟨fun _ _ => rfl, ?_, ?_⟩
  · intro hnb
    obtain ⟨r, w2, hs, hT, -⟩ := stopConfigPortal_teardown env w1 hno hrun.1 a2 a3 a4
    refine ⟨w1, r, w2, ?_, a2, hs, hT.2.2.2.1.trans a5, hT.1⟩
    rw [heq, if_pos hnb]
  · intro hb r w2 h
    have hnb : ¬ (w.m._configPortalIsBlocking = false) := by rw [hb]; simp
    rw [heq, if_neg hnb] at h
    exact portalLoop_torn env hno w.m._usermode fuel w1 hrun r w2 h

/-- Witness for C10 amended: constructed with the radio off, started with
the station role on, stopped: the radio is off again. -/
theorem stop_restores_usermode_witness :
    ∃ w1 r w2, startConfigPortal quietEnv 0 staWorld "ESP" none = Outcome.ok false w1 ∧
      w1.m.configPortalActive = true ∧
      stopConfigPortal quietEnv w1 = Outcome.ok r w2 ∧
      w2.opmode = staWorld.m._usermode ∧ w2.m.configPortalActive = false :=
  (stop_restores_usermode quietEnv 0 staWorld "ESP" none noRestart_quietEnv (by decide)
    (Or.inl (by decide))).2.1 (by decide)

/-! ## Connecting without credentials -/

theorem connectPrepared_frame (w : World) (ssid pass : String) :
    (connectPrepared w ssid pass).m = w.m ∧
    (connectPrepared w ssid pass).storedSSID = w.storedSSID ∧
    (connectPrepared w ssid pass).tick = w.tick ∧
    ∃ extra, (connectPrepared w ssid pass).log = w.log ++ Event.connectWifi ssid pass :: extra ∧
      ∀ e ∈ extra, e = Event.staConfig ∨ e = Event.stationDisconnect := by
  unfold connectPrepared WiFi_Disconnect
  split_ifs
  · exact ⟨rfl, rfl, rfl, [Event.staConfig, Event.stationDisconnect], by simp [World.emit], by simp⟩
  · exact ⟨rfl, rfl, rfl, [Event.staConfig], by simp [World.emit], by simp⟩
  · exact ⟨rfl, rfl, rfl, [Event.stationDisconnect], by simp [World.emit], by simp⟩
  · exact ⟨rfl, rfl, rfl, [], by simp [World.emit], by simp⟩

theorem connectWifi_stages (env : Env) (w : World) (ssid pass : String) :
    connectWifi env w ssid pass =
      wpsStage env pass (joinStage env (connectPrepared w ssid pass) ssid pass) := rfl

theorem connectWifi_empty (env : Env) (w : World) (pass : String) (hs : w.storedSSID = "") :
    connectWifi env w "" pass =
      if w.m._tryWPS = true ∧ pass = "" then
        waitForConnectResult env ((connectPrepared w "" pass).emit Event.beginWPS)
      else (WL_NO_SSID_AVAIL, connectPrepared w "" pass) := by
  obtain ⟨hm, hst, -, -⟩ := connectPrepared_frame w "" pass
  have h1 : ¬ (("" : String) ≠ "") := by simp
  have h2 : ¬ ((connectPrepared w "" pass).storedSSID ≠ "") := by rw [hst, hs]; simp
  have hne : WL_NO_SSID_AVAIL ≠ WL_CONNECTED := by decide
  have hj : joinStage env (connectPrepared w "" pass) "" pass =
      (WL_NO_SSID_AVAIL, connectPrepared w "" pass) := by
    unfold joinStage
    rw [if_neg h1, if_neg h2]
  rw [connectWifi_stages, hj]
  unfold wpsStage
  dsimp only
  rw [hm]
  by_cases hw : w.m._tryWPS = true ∧ pass = ""
  · rw [if_pos hw, if_pos ⟨hw.1, hne, hw.2⟩]
  · rw [if_neg hw, if_neg (fun h => hw ⟨h.1, h.2.2⟩)]

/-- C12, counterexample: with the WPS option on, `connectWifi("", "")` on a
radio without a stored ssid starts WPS, enters a connection wait and returns
that wait's result (`WL_IDLE_STATUS` here), not `WL_NO_SSID_AVAIL`. -/
theorem connectWifi_wps_counterexample :
    wpsWorld.storedSSID = "" ∧
    (connectWifi quietEnv wpsWorld "" "").1 = WL_IDLE_STATUS ∧
    (connectWifi quietEnv wpsWorld "" "").2.log =
      [Event.connectWifi "" "", Event.beginWPS, Event.waitForConnectResult] := by
  decide

/-- C12, amended: called with an empty ssid while the radio holds no stored
ssid, `connectWifi` issues no join; when the WPS option is off or a
passphrase is given it returns `WL_NO_SSID_AVAIL` without entering a wait,
having at most applied the static configuration and disconnected the station;
when the WPS option is on and the passphrase is empty it starts WPS, enters
one wait and returns the result of that wait. -/
theorem connectWifi_no_credentials (env : Env) (w : World) (pass : String)
    (hs : w.storedSSID = "") :
    ((w.m._tryWPS = false ∨ pass ≠ "") →
      (connectWifi env w "" pass).1 = WL_NO_SSID_AVAIL ∧
      ∃ extra, (connectWifi env w "" pass).2.log = w.log ++ Event.connectWifi "" pass :: extra ∧
        ∀ e ∈ extra, e = Event.staConfig ∨ e = Event.stationDisconnect) ∧
    ((w.m._tryWPS = true ∧ pass = "") →
      (connectWifi env w "" pass).1 = env.waitResult w.tick ∧
      ∃ extra, (connectWifi env w "" pass).2.log =
          w.log ++ Event.connectWifi "" pass :: extra ++
            [Event.beginWPS, Event.waitForConnectResult] ∧
        ∀ e ∈ extra, e = Event.staConfig ∨ e = Event.stationDisconnect) := by
  obtain ⟨-, -, htick, extra, hlog, hall⟩ := connectPrepared_frame w "" pass
  constructor
  · intro hw
    have hn : ¬ (w.m._tryWPS = true ∧ pass = "") := by
      rintro ⟨h1, h2⟩
      rcases hw with h | h
      · rw [h] at h1; cases h1
      · exact h h2
    rw [connectWifi_empty env w pass hs, if_neg hn]
    exact ⟨rfl, extra, hlog, hall⟩
  · intro hw
    rw [connectWifi_empty env w pass hs, if_pos hw]
    refine ⟨?_, extra, ?_, hall⟩
    · show env.waitResult (connectPrepared w "" pass).tick = _
      rw [htick]
    · show ((connectPrepared w "" pass).log ++ [Event.beginWPS]) ++ [Event.waitForConnectResult] = _
      rw [hlog]
      simp

/-- Witness for C12 amended: no stored ssid, WPS off. -/
theorem connectWifi_no_credentials_witness :
    (connectWifi quietEnv bootWorld "" "").1 = WL_NO_SSID_AVAIL ∧
    ∃ extra, (connectWifi quietEnv bootWorld "" "").2.log =
        bootWorld.log ++ Event.connectWifi "" "" :: extra ∧
      ∀ e ∈ extra, e = Event.staConfig ∨ e = Event.stationDisconnect :=
  (connectWifi_no_credentials quietEnv bootWorld "" rfl).1 (Or.inl rfl)

/-! ## The blocking loop -/

theorem dispatch_results (env : Env) (w w1 : World) (r : Request)
    (h : dispatch env w r = Outcome.ok () w1) : SameResults w w1 := by
  cases r with
  | wifisave ssid pass staticIp =>
    cases staticIp <;>
    · injection h with _ hw
      rw [← hw]; exact ⟨rfl, rfl⟩
  | reset => cases h
  | erase erased =>
    cases erased
    · injection h with _ hw
      rw [← hw]; exact ⟨rfl, rfl⟩
    · cases h
  | root host ip =>
    change (if (captivePortalW w host ip).1 = true then _ else _) = _ at h
    split_ifs at h <;>
    · injection h with _ hw
      rw [← hw]; exact ⟨rfl, rfl⟩
  | notFound host ip =>
    change (if (captivePortalW w host ip).1 = true then _ else _) = _ at h
    split_ifs at h <;>
    · injection h with _ hw
      rw [← hw]; exact ⟨rfl, rfl⟩
  | _ =>
    injection h with _ hw
    rw [← hw]; exact ⟨rfl, rfl⟩

theorem serviceServers_results (env : Env) (w w1 : World)
    (h : serviceServers env w = Outcome.ok () w1) : SameResults w w1 := by
  unfold serviceServers at h
  by_cases h1 : w.m.dnsServer = false
  · rw [if_pos h1] at h; cases h
  · rw [if_neg h1] at h
    dsimp only at h
    by_cases h2 : (w.emit Event.dnsProcessNextRequest).m.server = false
    · rw [if_pos h2] at h; cases h
    · rw [if_neg h2] at h
      split at h
      · injection h with _ hw
        rw [← hw]; exact ⟨rfl, rfl⟩
      · have hd := dispatch_results env _ w1 _ h
        exact hd

theorem stopConfigPortal_results (env : Env) (w w1 : World) (b : Bool)
    (h : stopConfigPortal env w = Outcome.ok b w1) : SameResults w w1 := by
  unfold stopConfigPortal at h
  by_cases hweb : w.m.webPortalActive = true
  · rw [if_pos hweb] at h
    injection h with _ hw
    rw [← hw]; exact ⟨rfl, rfl⟩
  · rw [if_neg hweb] at h
    dsimp only at h
    split at h
    · cases h
    · rename_i u w2 hsvc
      obtain ⟨s1, s2⟩ := serviceServers_results env _ w2 hsvc
      have s1' : w2.m.portalAbortResult = w.m.portalAbortResult := by
        rw [s1]; split_ifs <;> rfl
      have s2' : w2.m.portalTimeoutResult = w.m.portalTimeoutResult := by
        rw [s2]; split_ifs <;> rfl
      split_ifs at h
      · injection h with _ hw1
        rw [← hw1]; exact ⟨s1', s2'⟩
      · injection h with _ hw1
        rw [← hw1]
        obtain ⟨⟨hm, -⟩, -⟩ := WiFi_Mode_step (WiFi_softAPdisconnect env (releaseServers w2)).2
          (WiFi_softAPdisconnect env (releaseServers w2)).2.m._usermode false
        constructor
        · show (WiFi_Mode _ _ _).2.m.portalAbortResult = _
          rw [hm]; exact s1'
        · show (WiFi_Mode _ _ _).2.m.portalTimeoutResult = _
          rw [hm]; exact s2'

/-- The status a poll step returns is one of the three the code names. -/
theorem handleConfigPortal_status (env : Env) (w w2 : World) (st : Nat)
    (h : handleConfigPortal env w = Outcome.ok st w2) :
    (st = WL_CONNECTED ∨ st = WL_CONNECT_FAILED ∨ st = WL_IDLE_STATUS) ∧ SameResults w w2 := by
  cases hsvc : serviceServers env w with
  | halted why w1 =>
    unfold handleConfigPortal at h
    rw [hsvc] at h
    cases h
  | ok u w1 =>
    obtain ⟨s1, s2⟩ := serviceServers_results env w w1 hsvc
    by_cases hc : w1.m.connect = true
    · rw [handleConfigPortal_pending env w w1 hsvc hc] at h
      obtain ⟨hm, -⟩ := connectWifi_step env (armed w1) w1.m._ssid w1.m._pass
      have hr1 : (connectWifi env (armed w1) w1.m._ssid w1.m._pass).2.m.portalAbortResult
          = w.m.portalAbortResult := by rw [hm]; exact s1
      have hr2 : (connectWifi env (armed w1) w1.m._ssid w1.m._pass).2.m.portalTimeoutResult
          = w.m.portalTimeoutResult := by rw [hm]; exact s2
      generalize connectWifi env (armed w1) w1.m._ssid w1.m._pass = r at h hr1 hr2
      split_ifs at h
      · split at h
        · cases h
        · rename_i b w3 hstop
          obtain ⟨t1, t2⟩ := stopConfigPortal_results env _ w3 _ hstop
          injection h with hst hw
          rw [← hw, ← hst]
          exact ⟨Or.inl rfl, t1.trans hr1, t2.trans hr2⟩
      · split at h
        · cases h
        · rename_i b w3 hstop
          obtain ⟨t1, t2⟩ := stopConfigPortal_results env _ w3 _ hstop
          injection h with hst hw
          rw [← hw, ← hst]
          exact ⟨Or.inr (Or.inl rfl), t1.trans hr1, t2.trans hr2⟩
      · injection h with hst hw
        obtain ⟨hdm, -⟩ := (WiFi_Disconnect_step r.2).1.radioTrans
          (WiFi_enableSTA_step (WiFi_Disconnect r.2) false false)
        rw [← hw, ← hst]
        refine ⟨Or.inr (Or.inr rfl), ?_, ?_⟩
        · show (WiFi_enableSTA _ _ _).2.m.portalAbortResult = _
          rw [hdm]; exact hr1
        · show (WiFi_enableSTA _ _ _).2.m.portalTimeoutResult = _
          rw [hdm]; exact hr2
    · have hc0 : w1.m.connect = false := by
        cases hx : w1.m.connect
        · rfl
        · exact absurd hx hc
      rw [handleConfigPortal_idle env w w1 hsvc hc0] at h
      injection h with hst hw
      rw [← hw, ← hst]
      exact ⟨Or.inr (Or.inr rfl), s1, s2⟩

theorem loopCheck_results (env : Env) (w : World) : SameResults w (loopCheck env w).2 := by
  unfold loopCheck SameResults configPortalHasTimeout
  dsimp only
  split_ifs <;> exact ⟨rfl, rfl⟩

theorem portalLoop_succ (env : Env) (fuel : Nat) (w : World) :
    portalLoop env (fuel + 1) w =
      if (loopCheck env w).1 = true ∨ (loopCheck env w).2.m.abort = true then
        match stopConfigPortal env (loopCheck env w).2 with
        | Outcome.halted why w => Outcome.halted why w
        | Outcome.ok _ w =>
          Outcome.ok (if w.m.abort = true then w.m.portalAbortResult
                      else w.m.portalTimeoutResult) w
      else
        match handleConfigPortal env (loopCheck env w).2 with
        | Outcome.halted why w => Outcome.halted why w
        | Outcome.ok state w =>
          if state ≠ WL_IDLE_STATUS then Outcome.ok (decide (state = WL_CONNECTED)) w
          else portalLoop env fuel w := rfl

theorem pollStates_succ (env : Env) (fuel : Nat) (w : World) :
    pollStates env (fuel + 1) w =
      if (loopCheck env w).1 = true ∨ (loopCheck env w).2.m.abort = true then []
      else
        match handleConfigPortal env (loopCheck env w).2 with
        | Outcome.halted _ _ => []
        | Outcome.ok state w =>
          if state ≠ WL_IDLE_STATUS then [state] else state :: pollStates env fuel w := rfl

theorem loopCheck_running (env : Env) (u : Nat) (w : World) (h : Running u w) :
    Running u (loopCheck env w).2 := by
  obtain ⟨f1, f2, f3, f4, f5⟩ :=
    configPortalHasTimeout_frame w.m (env.millis w.tick) (env.stations w.tick)
  obtain ⟨r1, r2, r3, r4, r5⟩ := h
  exact ⟨f1.trans r1, f2.trans r2, f3.trans r3, f4.trans r4, f5.trans r5⟩

/-- The loop returns true exactly when one of its poll steps reported
`WL_CONNECTED`, given that the two result constants are false. -/
theorem portalLoop_true_iff (env : Env) :
    ∀ (fuel : Nat) (w : World), w.m.portalAbortResult = false →
      w.m.portalTimeoutResult = false →
      ∀ (r : Bool) (w2 : World), portalLoop env fuel w = Outcome.ok r w2 →
        ((r = true ↔ WL_CONNECTED ∈ pollStates env fuel w) ∧
         (WL_CONNECT_FAILED ∈ pollStates env fuel w → r = false)) := by
  intro fuel
  induction fuel with
  | zero => intro w _ _ r w2 h; cases h
  | succ fuel ih =>
    intro w hA hT r w2 h
    obtain ⟨c1, c2⟩ := loopCheck_results env w
    rw [portalLoop_succ] at h
    rw [pollStates_succ]
    generalize loopCheck env w = lc at h c1 c2 ⊢
    by_cases hc : lc.1 = true ∨ lc.2.m.abort = true
    · rw [if_pos hc] at h
      rw [if_pos hc]
      split at h
      · cases h
      · rename_i b w3 hstop
        obtain ⟨t1, t2⟩ := stopConfigPortal_results env _ w3 _ hstop
        injection h with hr hw
        have hfalse : r = false := by
          rw [← hr]
          split_ifs
          · rw [t1, c1, hA]
          · rw [t2, c2, hT]
        rw [hfalse]
        simp
    · rw [if_neg hc] at h
      rw [if_neg hc]
      split at h
      · cases h
      · rename_i st w3 hpoll3
        obtain ⟨hst, t1, t2⟩ := handleConfigPortal_status env _ w3 st hpoll3
        by_cases hidle : st ≠ WL_IDLE_STATUS
        · rw [if_pos hidle] at h
          rw [if_pos hidle]
          injection h with hr hw
          rw [← hr]
          have hcf : WL_CONNECT_FAILED ≠ WL_CONNECTED := by decide
          constructor
          · simp [eq_comm]
          · intro hm
            have : st = WL_CONNECT_FAILED := (List.mem_singleton.mp hm).symm
            rw [this]
            simp [hcf]
        · rw [if_neg hidle] at h
          rw [if_neg hidle]
          have hst0 : st = WL_IDLE_STATUS := by
            by_cases hx : st = WL_IDLE_STATUS
            · exact hx
            · exact absurd hx hidle
          obtain ⟨i1, i2⟩ := ih w3 (by rw [t1, c1, hA]) (by rw [t2, c2, hT]) r w2 h
          have hne1 : WL_CONNECTED ≠ st := by rw [hst0]; decide
          have hne2 : WL_CONNECT_FAILED ≠ st := by rw [hst0]; decide
          constructor
          · rw [i1, List.mem_cons]
            constructor
            · exact fun hm => Or.inr hm
            · rintro (hm | hm)
              · exact absurd hm hne1
              · exact hm
          · intro hm
            rcases List.mem_cons.mp hm with hm | hm
            · exact absurd hm hne2
            · exact i2 hm

theorem noRestart_lateEnv : NoRestart lateEnv := by
  intro k
  exact ⟨by simp [lateEnv, quietEnv], by simp [lateEnv, quietEnv]⟩

/-- C11, counterexample: with the route `/r` served in a poll step the
blocking loop does not return, the device restarts; and with the standalone
web portal flag set, a loop whose timeout check fires returns false without
a poll step while the portal stays active, the servers are not stopped and
`softAPdisconnect` is not called. -/
theorem blocking_loop_counterexample :
    (portalLoop resetEnv 3 activeWorld).returned = none ∧
    (portalLoop resetEnv 3 activeWorld).haltedBy = some Halt.restart ∧
    (loopCheck lateEnv webActiveWorld).1 = true ∧
    (portalLoop lateEnv 3 webActiveWorld).returned = some false ∧
    pollStates lateEnv 3 webActiveWorld = [] ∧
    (portalLoop lateEnv 3 webActiveWorld).world.m.configPortalActive = true ∧
    (portalLoop lateEnv 3 webActiveWorld).world.m.server = true ∧
    Event.serverStop ∉ (portalLoop lateEnv 3 webActiveWorld).world.log ∧
    Event.softAPdisconnect ∉ (portalLoop lateEnv 3 webActiveWorld).world.log := by
  decide

/-- C11, amended: one iteration of the blocking loop of `startConfigPortal`,
for a running portal with the standalone web portal off, no restarting
request served, and the result constants `portalAbortResult` and
`portalTimeoutResult` false.  The timeout check and the abort flag come
first: if the check fires or the flag is set the loop stops the portal and
returns false, in the state `stopConfigPortal` leaves from the checked state,
without a poll step.  Otherwise it polls once and returns true if the poll
reported `WL_CONNECTED`, false if it reported `WL_CONNECT_FAILED`, and goes on
with the next iteration if it reported `WL_IDLE_STATUS`.  Whenever the loop
returns, it returns true iff a poll step reported `WL_CONNECTED`.  The exit
handler sets the abort flag. -/
theorem blocking_loop_exits (env : Env) (hno : NoRestart env) (u fuel : Nat) (w : World)
    (hrun : Running u w) (hA : w.m.portalAbortResult = false)
    (hT : w.m.portalTimeoutResult = false) :
    (((loopCheck env w).1 = true ∨ (loopCheck env w).2.m.abort = true) →
      ∃ b w2, stopConfigPortal env (loopCheck env w).2 = Outcome.ok b w2 ∧
        portalLoop env (fuel + 1) w = Outcome.ok false w2 ∧
        TornDown (loopCheck env w).2 w2 ∧ pollStates env (fuel + 1) w = []) ∧
    (¬ ((loopCheck env w).1 = true ∨ (loopCheck env w).2.m.abort = true) →
      ∃ st w2, handleConfigPortal env (loopCheck env w).2 = Outcome.ok st w2 ∧
        (st = WL_CONNECTED ∨ st = WL_CONNECT_FAILED ∨ st = WL_IDLE_STATUS) ∧
        (st = WL_CONNECTED → portalLoop env (fuel + 1) w = Outcome.ok true w2) ∧
        (st = WL_CONNECT_FAILED → portalLoop env (fuel + 1) w = Outcome.ok false w2) ∧
        (st = WL_IDLE_STATUS →
          portalLoop env (fuel + 1) w = portalLoop env fuel w2 ∧ Running u w2)) ∧
    (∀ r w2, portalLoop env fuel w = Outcome.ok r w2 →
      ((r = true ↔ WL_CONNECTED ∈ pollStates env fuel w) ∧
       (WL_CONNECT_FAILED ∈ pollStates env fuel w → r = false))) ∧
    (∀ w0 : World, ∃ w1, dispatch env w0 Request.exit = Outcome.ok () w1 ∧
      w1.m.abort = true) := by
  have hrunc := loopCheck_running env u w hrun
  obtain ⟨c1, c2⟩ := loopCheck_results env w
  refine ⟨?_, ?_, portalLoop_true_iff env fuel w hA hT, fun w0 => ⟨_, rfl, rfl⟩⟩
  · intro hc
    obtain ⟨b, w2, hs, hTorn, -⟩ := stopConfigPortal_teardown env (loopCheck env w).2 hno
      hrunc.1 hrunc.2.1 hrunc.2.2.1 hrunc.2.2.2.1
    obtain ⟨t1, t2⟩ := stopConfigPortal_results env _ w2 b hs
    refine ⟨b, w2, hs, ?_, hTorn, ?_⟩
    · rw [portalLoop_succ, if_pos hc, hs]
      dsimp only
      have hfalse : (if w2.m.abort = true then w2.m.portalAbortResult
          else w2.m.portalTimeoutResult) = false := by
        split_ifs
        · rw [t1, c1, hA]
        · rw [t2, c2, hT]
      rw [hfalse]
    · rw [pollStates_succ, if_pos hc]
  · intro hc
    obtain ⟨st, w2, hh, hcase⟩ := handleConfigPortal_running env hno u (loopCheck env w).2 hrunc
    obtain ⟨hst, -⟩ := handleConfigPortal_status env _ w2 st hh
    refine ⟨st, w2, hh, hst, ?_, ?_, ?_⟩
    · intro h
      rw [portalLoop_succ, if_neg hc, hh]
      dsimp only
      rw [if_pos (by rw [h]; decide)]
      simp [h]
    · intro h
      rw [portalLoop_succ, if_neg hc, hh]
      dsimp only
      rw [if_pos (by rw [h]; decide)]
      have : decide (st = WL_CONNECTED) = false := by rw [h]; decide
      rw [this]
    · intro h
      rcases hcase with ⟨hne, -⟩ | ⟨-, hr⟩
      · exact absurd h hne
      · refine ⟨?_, hr⟩
        rw [portalLoop_succ, if_neg hc, hh]
        dsimp only
        rw [if_neg (by rw [h]; simp)]

/-- Witness for C11: with the clock at 40000 ms and a 30000 ms timeout the
first check fires and the loop returns false; with a form submission served
and the attempt connecting the loop returns true. -/
theorem blocking_loop_exits_witness :
    (portalLoop lateEnv 1 activeWorld).returned = some false ∧
    (portalLoop loopSubmitEnv 1 activeWorld).returned = some true ∧
    pollStates loopSubmitEnv 1 activeWorld = [WL_CONNECTED] ∧
    ∃ b w2, stopConfigPortal lateEnv (loopCheck lateEnv activeWorld).2 = Outcome.ok b w2 ∧
      portalLoop lateEnv 1 activeWorld = Outcome.ok false w2 :=
  ⟨by decide, by decide, by decide,
   ((blocking_loop_exits lateEnv noRestart_lateEnv 0 0 activeWorld
      ⟨rfl, rfl, rfl, rfl, rfl⟩ rfl rfl).1 (Or.inl (by decide))).imp
     (fun _ h => h.imp (fun _ h2 => ⟨h2.1, h2.2.1⟩))⟩

/-! ## The scan-list loops and their list forms -/

theorem getD_append_cons (pre : List Int) (y : Int) (t : List Int) :
    (pre ++ y :: t).getD pre.length 0 = y := by
  induction pre with
  | nil => rfl
  | cons p ps ih => simpa using ih

theorem set_append_cons (pre : List Int) (y z : Int) (t : List Int) :
    (pre ++ y :: t).set pre.length z = pre ++ z :: t := by
  induction pre with
  | nil => rfl
  | cons p ps ih => simp [ih]

theorem passMax_length (key : Int → Int) (cur : Int) (l : List Int) :
    (passMax key cur l).2.length = l.length := by
  induction l generalizing cur with
  | nil => rfl
  | cons x xs ih =>
    unfold passMax
    split_ifs <;> simp [ih]

/-- The inner sort loop computes `passMax` on the entries after the outer
index. -/
theorem sortInner_eq (nets : List Network) (pre : List Int) :
    ∀ (todo done : List Int) (cur : Int),
      sortInner nets pre.length (pre.length + 1 + done.length) todo.length
          (pre ++ cur :: (done ++ todo)) =
        pre ++ (passMax (WiFi_RSSI nets) cur todo).1 ::
          (done ++ (passMax (WiFi_RSSI nets) cur todo).2) := by
  intro todo
  induction todo with
  | nil => intro done cur; rfl
  | cons x xs ih =>
    intro done cur
    have e1 : ∀ c : Int, pre ++ c :: (done ++ x :: xs) = (pre ++ c :: done) ++ x :: xs := by
      intro c; simp
    have e2 : ∀ c : Int, (pre ++ c :: done).length = pre.length + 1 + done.length := by
      intro c; simp; omega
    have hj : (pre ++ cur :: (done ++ x :: xs)).getD (pre.length + 1 + done.length) 0 = x := by
      rw [e1, ← e2 cur]
      exact getD_append_cons _ _ _
    have hi : (pre ++ cur :: (done ++ x :: xs)).getD pre.length 0 = cur :=
      getD_append_cons pre cur _
    have hswap : swapAt (pre ++ cur :: (done ++ x :: xs)) pre.length
        (pre.length + 1 + done.length) = pre ++ x :: (done ++ cur :: xs) := by
      unfold swapAt
      rw [hj, hi, set_append_cons, e1, ← e2 x, set_append_cons]
      simp
    show sortInner nets pre.length (pre.length + 1 + done.length + 1) xs.length
      (if WiFi_RSSI nets ((pre ++ cur :: (done ++ x :: xs)).getD
          (pre.length + 1 + done.length) 0) >
        WiFi_RSSI nets ((pre ++ cur :: (done ++ x :: xs)).getD pre.length 0)
       then swapAt (pre ++ cur :: (done ++ x :: xs)) pre.length (pre.length + 1 + done.length)
       else pre ++ cur :: (done ++ x :: xs)) = _
    rw [hj, hi, hswap]
    unfold passMax
    by_cases hgt : WiFi_RSSI nets x > WiFi_RSSI nets cur
    · rw [if_pos hgt, if_pos hgt]
      have h := ih (done ++ [cur]) x
      simp only [List.length_append, List.length_singleton, List.append_assoc,
        List.singleton_append] at h
      rw [← Nat.add_assoc] at h
      exact h
    · rw [if_neg hgt, if_neg hgt]
      have h := ih (done ++ [x]) cur
      simp only [List.length_append, List.length_singleton, List.append_assoc,
        List.singleton_append] at h
      rw [← Nat.add_assoc] at h
      exact h

/-- The outer sort loop computes `exchangeSort` on the entries from the outer
index on. -/
theorem sortOuter_eq (nets : List Network) :
    ∀ (k : Nat) (rest pre : List Int), rest.length = k →
      sortOuter nets (pre.length + k) pre.length k (pre ++ rest) =
        pre ++ exchangeSort (WiFi_RSSI nets) k rest := by
  intro k
  induction k with
  | zero =>
    intro rest pre _
    rfl
  | succ k ih =>
    intro rest pre hlen
    cases rest with
    | nil => cases hlen
    | cons x xs =>
      have hk : xs.length = k := by simpa using hlen
      have hinner := sortInner_eq nets pre xs [] x
      have hn : pre.length + (k + 1) - (pre.length + 1) = xs.length := by omega
      show sortOuter nets (pre.length + (k + 1)) (pre.length + 1) k
        (sortInner nets pre.length (pre.length + 1) (pre.length + (k + 1) - (pre.length + 1))
          (pre ++ x :: xs)) = _
      rw [hn]
      simp only [List.length_nil, Nat.add_zero, List.nil_append] at hinner
      rw [hinner]
      have hl := passMax_length (WiFi_RSSI nets) x xs
      have h := ih (passMax (WiFi_RSSI nets) x xs).2
        (pre ++ [(passMax (WiFi_RSSI nets) x xs).1]) (by rw [hl, hk])
      simp only [List.length_append, List.length_singleton, List.append_assoc,
        List.singleton_append] at h
      have e : pre.length + (k + 1) = pre.length + 1 + k := by omega
      rw [e, h]
      rfl

/-- The RSSI sort of `getScanItemOut` is `exchangeSort` on `0, ..., n-1`. -/
theorem rssiSort_eq (nets : List Network) :
    rssiSort nets =
      exchangeSort (WiFi_RSSI nets) nets.length ((List.range nets.length).map Int.ofNat) := by
  have h := sortOuter_eq nets nets.length ((List.range nets.length).map Int.ofNat) []
    (by simp)
  simp only [List.length_nil, Nat.zero_add, List.nil_append] at h
  exact h

/-- The inner duplicate-removal loop maps `killDup` over the later entries. -/
theorem dedupInner_eq (nets : List Network) (cssid : String) :
    ∀ (todo pre : List Int),
      dedupInner nets cssid pre.length todo.length (pre ++ todo) =
        pre ++ todo.map (killDup (WiFi_SSID nets) cssid) := by
  intro todo
  induction todo with
  | nil => intro pre; simp [dedupInner]
  | cons x xs ih =>
    intro pre
    have hj : (pre ++ x :: xs).getD pre.length 0 = x := getD_append_cons pre x xs
    show dedupInner nets cssid (pre.length + 1) xs.length
      (if cssid = WiFi_SSID nets ((pre ++ x :: xs).getD pre.length 0) then
        (pre ++ x :: xs).set pre.length (-1) else pre ++ x :: xs) = _
    rw [hj, set_append_cons]
    have h1 := ih (pre ++ [-1])
    have h2 := ih (pre ++ [x])
    simp only [List.length_append, List.length_singleton, List.append_assoc,
      List.singleton_append] at h1 h2
    by_cases hc : cssid = WiFi_SSID nets x
    · rw [if_pos hc, h1]
      simp [killDup, hc]
    · rw [if_neg hc, h2]
      simp [killDup, hc]

/-- The outer duplicate-removal loop computes `dedupList` on the entries
from the outer index on. -/
theorem dedupOuter_eq (nets : List Network) :
    ∀ (k : Nat) (rest pre : List Int), rest.length = k →
      dedupOuter nets (pre.length + k) pre.length k (pre ++ rest) =
        pre ++ dedupList (WiFi_SSID nets) k rest := by
  intro k
  induction k with
  | zero =>
    intro rest pre _
    rfl
  | succ k ih =>
    intro rest pre hlen
    cases rest with
    | nil => cases hlen
    | cons x xs =>
      have hk : xs.length = k := by simpa using hlen
      have hi : (pre ++ x :: xs).getD pre.length 0 = x := getD_append_cons pre x xs
      have hn : pre.length + (k + 1) - (pre.length + 1) = xs.length := by omega
      have e : pre.length + (k + 1) = pre.length + 1 + k := by omega
      show (if (pre ++ x :: xs).getD pre.length 0 = -1 then
          dedupOuter nets (pre.length + (k + 1)) (pre.length + 1) k (pre ++ x :: xs)
        else dedupOuter nets (pre.length + (k + 1)) (pre.length + 1) k
          (dedupInner nets (WiFi_SSID nets ((pre ++ x :: xs).getD pre.length 0))
            (pre.length + 1) (pre.length + (k + 1) - (pre.length + 1)) (pre ++ x :: xs))) = _
      rw [hi, hn]
      by_cases hx : x = -1
      · rw [if_pos hx]
        have h := ih xs (pre ++ [x]) hk
        simp only [List.length_append, List.length_singleton, List.append_assoc,
          List.singleton_append] at h
        rw [e, h]
        simp [dedupList, hx]
      · rw [if_neg hx]
        have hin := dedupInner_eq nets (WiFi_SSID nets x) xs (pre ++ [x])
        simp only [List.length_append, List.length_singleton, List.append_assoc,
          List.singleton_append] at hin
        rw [hin]
        have h := ih (xs.map (killDup (WiFi_SSID nets) (WiFi_SSID nets x))) (pre ++ [x])
          (by simpa using hk)
        simp only [List.length_append, List.length_singleton, List.append_assoc,
          List.singleton_append] at h
        rw [e, h]
        simp [dedupList, hx]

/-! ## Properties of the sort -/

theorem passMax_perm (key : Int → Int) (cur : Int) (l : List Int) :
    ((passMax key cur l).1 :: (passMax key cur l).2).Perm (cur :: l) := by
  induction l generalizing cur with
  | nil => exact List.Perm.refl _
  | cons x xs ih =>
    unfold passMax
    split_ifs
    · exact (List.Perm.swap _ _ _).trans ((ih x).cons cur)
    · exact ((List.Perm.swap _ _ _).trans ((ih cur).cons x)).trans (List.Perm.swap _ _ _)

theorem passMax_key_le (key : Int → Int) (cur : Int) (l : List Int) :
    key cur ≤ key (passMax key cur l).1 ∧
    ∀ y ∈ (passMax key cur l).2, key y ≤ key (passMax key cur l).1 := by
  induction l generalizing cur with
  | nil => exact ⟨le_refl _, by simp [passMax]⟩
  | cons x xs ih =>
    unfold passMax
    split_ifs with hgt
    · obtain ⟨h1, h2⟩ := ih x
      dsimp only
      refine ⟨by omega, ?_⟩
      intro y hy
      rcases List.mem_cons.mp hy with hy | hy
      · rw [hy]; omega
      · exact h2 y hy
    · obtain ⟨h1, h2⟩ := ih cur
      dsimp only
      refine ⟨h1, ?_⟩
      intro y hy
      rcases List.mem_cons.mp hy with hy | hy
      · rw [hy]; omega
      · exact h2 y hy

theorem exchangeSort_perm (key : Int → Int) :
    ∀ (k : Nat) (l : List Int), (exchangeSort key k l).Perm l := by
  intro k
  induction k with
  | zero => intro l; exact List.Perm.refl _
  | succ k ih =>
    intro l
    cases l with
    | nil => exact List.Perm.refl _
    | cons x xs =>
      show ((passMax key x xs).1 :: exchangeSort key k (passMax key x xs).2).Perm (x :: xs)
      exact ((ih _).cons _).trans (passMax_perm key x xs)

theorem exchangeSort_sorted (key : Int → Int) :
    ∀ (k : Nat) (l : List Int), l.length ≤ k →
      (exchangeSort key k l).Pairwise (fun a b => key b ≤ key a) := by
  intro k
  induction k with
  | zero =>
    intro l hl
    have : l = [] := List.length_eq_zero.mp (by omega)
    rw [this]
    exact List.Pairwise.nil
  | succ k ih =>
    intro l hl
    cases l with
    | nil => exact List.Pairwise.nil
    | cons x xs =>
      show ((passMax key x xs).1 :: exchangeSort key k (passMax key x xs).2).Pairwise _
      have hlen := passMax_length key x xs
      refine List.Pairwise.cons ?_ (ih _ (by rw [hlen]; simpa using hl))
      intro y hy
      exact (passMax_key_le key x xs).2 y ((exchangeSort_perm key k _).mem_iff.mp hy)

/-- A pass that starts from an entry no weaker than all later ones changes
nothing. -/
theorem passMax_of_max (key : Int → Int) (cur : Int) (l : List Int)
    (h : ∀ y ∈ l, key y ≤ key cur) : passMax key cur l = (cur, l) := by
  induction l with
  | nil => rfl
  | cons x xs ih =>
    have hx : ¬ key x > key cur := by
      have := h x (List.mem_cons_self _ _)
      omega
    unfold passMax
    rw [if_neg hx, ih (fun y hy => h y (List.mem_cons_of_mem _ hy))]

/-- One pass keeps the entries of the greatest signal strength in their
order. -/
theorem passMax_filter_top (key : Int → Int) (top : Int) (cur : Int) (l : List Int)
    (htop : ∀ y ∈ cur :: l, key y ≤ top) :
    ((passMax key cur l).1 :: (passMax key cur l).2).filter (fun y => decide (key y = top)) =
      (cur :: l).filter (fun y => decide (key y = top)) := by
  induction l generalizing cur with
  | nil => rfl
  | cons x xs ih =>
    have hcur := htop cur (List.mem_cons_self _ _)
    have hx := htop x (List.mem_cons_of_mem _ (List.mem_cons_self _ _))
    unfold passMax
    split_ifs with hgt
    · have hne : ¬ key cur = top := by omega
      have h := ih x (fun y hy => htop y (List.mem_cons_of_mem _ hy))
      dsimp only
      simp only [List.filter_cons, hne, decide_False, Bool.false_eq_true, if_false] at h ⊢
      exact h
    · by_cases hxt : key x = top
      · have hc : key cur = top := by omega
        have hid := passMax_of_max key cur xs (fun y hy => by
          have := htop y (List.mem_cons_of_mem _ (List.mem_cons_of_mem _ hy))
          omega)
        rw [hid]
      · have h := ih cur (fun y hy => by
          rcases List.mem_cons.mp hy with hy | hy
          · rw [hy]; exact hcur
          · exact htop y (List.mem_cons_of_mem _ (List.mem_cons_of_mem _ hy)))
        dsimp only
        simp only [List.filter_cons, hxt, decide_False, Bool.false_eq_true, if_false] at h ⊢
        exact h

theorem exchangeSort_filter_top (key : Int → Int) (top : Int) :
    ∀ (k : Nat) (l : List Int), (∀ y ∈ l, key y ≤ top) →
      (exchangeSort key k l).filter (fun y => decide (key y = top)) =
        l.filter (fun y => decide (key y = top)) := by
  intro k
  induction k with
  | zero => intro l _; rfl
  | succ k ih =>
    intro l htop
    cases l with
    | nil => rfl
    | cons x xs =>
      show ((passMax key x xs).1 :: exchangeSort key k (passMax key x xs).2).filter _ = _
      have hp := passMax_perm key x xs
      have hr : ∀ y ∈ (passMax key x xs).2, key y ≤ top := fun y hy =>
        htop y (hp.mem_iff.mp (List.mem_cons_of_mem _ hy))
      have h := passMax_filter_top key top x xs htop
      rw [List.filter_cons] at h
      rw [List.filter_cons, ih _ hr]
      exact h

/-! ## Properties of the duplicate removal -/

theorem killDup_of_ne (ssidOf : Int → String) (cssid : String) (y : Int)
    (h : cssid ≠ ssidOf y) : killDup ssidOf cssid y = y := by
  unfold killDup
  rw [if_neg h]

theorem killDup_survivor (ssidOf : Int → String) (cssid : String) (y : Int)
    (h : killDup ssidOf cssid y ≠ -1) : cssid ≠ ssidOf y ∧ killDup ssidOf cssid y = y := by
  unfold killDup at h ⊢
  by_cases hc : cssid = ssidOf y
  · rw [if_pos hc] at h
    exact absurd rfl h
  · exact ⟨hc, by rw [if_neg hc]⟩

theorem dedupList_mem (ssidOf : Int → String) :
    ∀ (k : Nat) (l : List Int) (e : Int), e ∈ dedupList ssidOf k l → e = -1 ∨ e ∈ l := by
  intro k
  induction k with
  | zero => intro l e h; exact Or.inr h
  | succ k ih =>
    intro l e h
    cases l with
    | nil => exact Or.inr h
    | cons x xs =>
      unfold dedupList at h
      by_cases hx : x = -1
      · rw [if_pos hx] at h
        rcases List.mem_cons.mp h with h | h
        · exact Or.inr (h ▸ List.mem_cons_self _ _)
        · rcases ih xs e h with h | h
          · exact Or.inl h
          · exact Or.inr (List.mem_cons_of_mem _ h)
      · rw [if_neg hx] at h
        rcases List.mem_cons.mp h with h | h
        · exact Or.inr (h ▸ List.mem_cons_self _ _)
        · rcases ih _ e h with h | h
          · exact Or.inl h
          · obtain ⟨z, hz, hze⟩ := List.mem_map.mp h
            by_cases he : e = -1
            · exact Or.inl he
            · have hk := killDup_survivor ssidOf (ssidOf x) z (by rw [hze]; exact he)
              rw [hk.2] at hze
              exact Or.inr (List.mem_cons_of_mem _ (hze ▸ hz))

theorem countP_live_pos (ssidOf : Int → String) (s : String) (x : Int) (l : List Int)
    (h : x ≠ -1 ∧ ssidOf x = s) :
    (x :: l).countP (fun e => decide (e ≠ -1 ∧ ssidOf e = s)) =
      l.countP (fun e => decide (e ≠ -1 ∧ ssidOf e = s)) + 1 := by
  rw [List.countP_cons]
  simp [h.1, h.2]

theorem countP_live_neg (ssidOf : Int → String) (s : String) (x : Int) (l : List Int)
    (h : ¬ (x ≠ -1 ∧ ssidOf x = s)) :
    (x :: l).countP (fun e => decide (e ≠ -1 ∧ ssidOf e = s)) =
      l.countP (fun e => decide (e ≠ -1 ∧ ssidOf e = s)) := by
  rw [List.countP_cons]
  simp only [decide_eq_true_eq, h, if_false, Nat.add_zero]

/-- After the duplicate removal every ssid carried by a live entry is carried
by exactly one live entry, and no other ssid by any. -/
theorem dedupList_count (ssidOf : Int → String) (s : String) :
    ∀ (k : Nat) (l : List Int), l.length ≤ k →
      ((∃ e ∈ l, e ≠ -1 ∧ ssidOf e = s) →
        (dedupList ssidOf k l).countP (fun e => decide (e ≠ -1 ∧ ssidOf e = s)) = 1) ∧
      ((¬ ∃ e ∈ l, e ≠ -1 ∧ ssidOf e = s) →
        (dedupList ssidOf k l).countP (fun e => decide (e ≠ -1 ∧ ssidOf e = s)) = 0) := by
  intro k
  induction k with
  | zero =>
    intro l hl
    have hnil : l = [] := List.length_eq_zero.mp (by omega)
    subst hnil
    exact ⟨fun ⟨e, he, _⟩ => absurd he (List.not_mem_nil e), fun _ => rfl⟩
  | succ k ih =>
    intro l hl
    cases l with
    | nil => exact ⟨fun ⟨e, he, _⟩ => absurd he (List.not_mem_nil e), fun _ => rfl⟩
    | cons x xs =>
      have hxs : xs.length ≤ k := by simpa using hl
      unfold dedupList
      by_cases hx : x = -1
      · rw [if_pos hx]
        rw [countP_live_neg ssidOf s x _ (fun h => h.1 hx)]
        have hiff : (∃ e ∈ x :: xs, e ≠ -1 ∧ ssidOf e = s) ↔ (∃ e ∈ xs, e ≠ -1 ∧ ssidOf e = s) := by
          constructor
          · rintro ⟨e, he, hne, hs⟩
            rcases List.mem_cons.mp he with he | he
            · exact absurd (he ▸ hx) hne
            · exact ⟨e, he, hne, hs⟩
          · rintro ⟨e, he, hne, hs⟩
            exact ⟨e, List.mem_cons_of_mem _ he, hne, hs⟩
        rw [hiff]
        exact ih xs hxs
      · rw [if_neg hx]
        have hlen : (xs.map (killDup ssidOf (ssidOf x))).length ≤ k := by simpa using hxs
        have hrec := ih (xs.map (killDup ssidOf (ssidOf x))) hlen
        by_cases hs : ssidOf x = s
        · rw [countP_live_pos ssidOf s x _ ⟨hx, hs⟩]
          have hnone : ¬ ∃ e ∈ xs.map (killDup ssidOf (ssidOf x)), e ≠ -1 ∧ ssidOf e = s := by
            rintro ⟨e, he, hne, hes⟩
            obtain ⟨z, _, hze⟩ := List.mem_map.mp he
            have hk := killDup_survivor ssidOf (ssidOf x) z (by rw [hze]; exact hne)
            rw [hk.2] at hze
            exact hk.1 (by rw [hze, hes, hs])
          rw [hrec.2 hnone]
          exact ⟨fun _ => rfl, fun h => absurd ⟨x, List.mem_cons_self _ _, hx, hs⟩ h⟩
        · rw [countP_live_neg ssidOf s x _ (fun h => hs h.2)]
          have hiff : (∃ e ∈ x :: xs, e ≠ -1 ∧ ssidOf e = s) ↔
              (∃ e ∈ xs.map (killDup ssidOf (ssidOf x)), e ≠ -1 ∧ ssidOf e = s) := by
            constructor
            · rintro ⟨e, he, hne, hes⟩
              rcases List.mem_cons.mp he with he | he
              · exact absurd (he ▸ hes) hs
              · have hk := killDup_of_ne ssidOf (ssidOf x) e (by rw [hes]; exact hs)
                exact ⟨e, List.mem_map.mpr ⟨e, he, hk⟩, hne, hes⟩
            · rintro ⟨e, he, hne, hes⟩
              obtain ⟨z, hz, hze⟩ := List.mem_map.mp he
              have hk := killDup_survivor ssidOf (ssidOf x) z (by rw [hze]; exact hne)
              rw [hk.2] at hze
              exact ⟨e, List.mem_cons_of_mem _ (hze ▸ hz), hne, hes⟩
          rw [hiff]
          exact hrec

/-- On an array whose live entries are in non-increasing signal strength,
every live entry left by the duplicate removal is at least as strong as each
live entry of the same ssid before the removal. -/
theorem dedupList_strongest (ssidOf : Int → String) (key : Int → Int) :
    ∀ (k : Nat) (l : List Int), l.length ≤ k →
      l.Pairwise (fun a b => a ≠ -1 → b ≠ -1 → key b ≤ key a) →
      ∀ e ∈ dedupList ssidOf k l, e ≠ -1 →
        ∀ y ∈ l, y ≠ -1 → ssidOf y = ssidOf e → key y ≤ key e := by
  intro k
  induction k with
  | zero =>
    intro l hl _ e he
    have hnil : l = [] := List.length_eq_zero.mp (by omega)
    subst hnil
    exact absurd he (List.not_mem_nil e)
  | succ k ih =>
    intro l hl hpw e he hne y hy hyne hs
    cases l with
    | nil => exact absurd hy (List.not_mem_nil y)
    | cons x xs =>
      have hxs : xs.length ≤ k := by simpa using hl
      obtain ⟨hhead, htail⟩ := List.pairwise_cons.mp hpw
      unfold dedupList at he
      by_cases hx : x = -1
      · rw [if_pos hx] at he
        rcases List.mem_cons.mp he with he | he
        · exact absurd (he.trans hx) hne
        · rcases List.mem_cons.mp hy with hy | hy
          · exact absurd (hy.trans hx) hyne
          · exact ih xs hxs htail e he hne y hy hyne hs
      · rw [if_neg hx] at he
        rcases List.mem_cons.mp he with he | he
        · rcases List.mem_cons.mp hy with hy | hy
          · rw [he, hy]
          · rw [he]
            exact hhead y hy hx hyne
        · have hlen : (xs.map (killDup ssidOf (ssidOf x))).length ≤ k := by simpa using hxs
          have hpw2 : (xs.map (killDup ssidOf (ssidOf x))).Pairwise
              (fun a b => a ≠ -1 → b ≠ -1 → key b ≤ key a) := by
            rw [List.pairwise_map]
            refine htail.imp ?_
            intro a b hab ha hb
            have ka := killDup_survivor ssidOf (ssidOf x) a ha
            have kb := killDup_survivor ssidOf (ssidOf x) b hb
            rw [ka.2, kb.2]
            rw [ka.2] at ha
            rw [kb.2] at hb
            exact hab ha hb
          have hex : ssidOf x ≠ ssidOf e := by
            rcases dedupList_mem ssidOf k _ e he with h | h
            · exact absurd h hne
            · obtain ⟨z, _, hze⟩ := List.mem_map.mp h
              have hk := killDup_survivor ssidOf (ssidOf x) z (by rw [hze]; exact hne)
              rw [hk.2] at hze
              rw [← hze]
              exact hk.1
          rcases List.mem_cons.mp hy with hy | hy
          · exact absurd (by rw [← hs, hy]) hex
          · have hk := killDup_of_ne ssidOf (ssidOf x) y (by rw [hs]; exact hex)
            exact ih _ hlen hpw2 e he hne y (List.mem_map.mpr ⟨y, hy, hk⟩) hyne hs

/-! ## The ranked index array -/

theorem WiFi_RSSI_index (nets : List Network) (k : Nat) (h : k < nets.length) :
    WiFi_RSSI nets (Int.ofNat k) = (nets.get ⟨k, h⟩).rssi := by
  unfold WiFi_RSSI
  have h0 : (0 : Int) ≤ Int.ofNat k := Int.ofNat_nonneg k
  rw [if_pos h0]
  show (Option.map Network.rssi (nets.get? k)).getD 0 = _
  rw [List.get?_eq_get h]
  rfl

theorem mem_scanIndices (n : Nat) (y : Int) :
    y ∈ (List.range n).map Int.ofNat ↔ 0 ≤ y ∧ y < n := by
  constructor
  · intro h
    obtain ⟨k, hk, hky⟩ := List.mem_map.mp h
    have := List.mem_range.mp hk
    subst hky
    exact ⟨Int.ofNat_nonneg k, Int.ofNat_lt.mpr this⟩
  · rintro ⟨h0, hn⟩
    refine List.mem_map.mpr ⟨y.toNat, List.mem_range.mpr (by omega), ?_⟩
    exact Int.toNat_of_nonneg h0

theorem rssiSort_perm_range (nets : List Network) :
    (rssiSort nets).Perm ((List.range nets.length).map Int.ofNat) := by
  rw [rssiSort_eq]
  exact exchangeSort_perm _ _ _

theorem rssiSort_pairwise (nets : List Network) :
    (rssiSort nets).Pairwise (fun a b => WiFi_RSSI nets b ≤ WiFi_RSSI nets a) := by
  rw [rssiSort_eq]
  exact exchangeSort_sorted _ _ _ (by simp)

theorem rssiSort_length (nets : List Network) : (rssiSort nets).length = nets.length := by
  have h := (rssiSort_perm_range nets).length_eq
  simpa using h

/-- With duplicate removal the index array is `dedupList` of the sorted
indices. -/
theorem rankedIndices_dedup (nets : List Network) :
    rankedIndices nets true = dedupList (WiFi_SSID nets) nets.length (rssiSort nets) := by
  have h := dedupOuter_eq nets nets.length (rssiSort nets) [] (rssiSort_length nets)
  simp only [List.length_nil, Nat.zero_add, List.nil_append] at h
  unfold rankedIndices
  rw [if_pos rfl]
  exact h

theorem rankedIndices_nil (dd : Bool) : rankedIndices [] dd = [] := by
  cases dd <;> rfl

/-- The display loop lists exactly the live entries that pass the quality
gate, in array order. -/
theorem displayLoop_eq_filter (nets : List Network) (minQ : Int) (a : List Int) :
    displayLoop nets minQ a =
      a.filter (fun x => decide (x ≠ -1 ∧
        (minQ = -1 ∨ minQ < getRSSIasQuality (WiFi_RSSI nets x)))) := by
  induction a with
  | nil => rfl
  | cons x rest ih =>
    unfold displayLoop
    rw [ih, List.filter_cons]
    by_cases hx : x = -1
    · simp [hx]
    · by_cases hq : minQ = -1 ∨ minQ < getRSSIasQuality (WiFi_RSSI nets x)
      · rw [if_neg hx, if_pos hq]
        simp [hx, hq]
      · rw [if_neg hx, if_neg hq]
        simp [hq]

/-! ## Signal quality and ranking: the claims -/

/-- C17: for every integer `rssiDbm`, `getRSSIasQuality` returns 0 when
`rssiDbm ≤ -100`, 100 when `rssiDbm ≥ -50`, and `2 * (rssiDbm + 100)` in
between; at -75 it returns 50; and the result always lies between 0 and
100. -/
theorem getRSSIasQuality_spec (rssiDbm : Int) :
    (rssiDbm ≤ -100 → getRSSIasQuality rssiDbm = 0) ∧
    (rssiDbm ≥ -50 → getRSSIasQuality rssiDbm = 100) ∧
    (-100 < rssiDbm → rssiDbm < -50 → getRSSIasQuality rssiDbm = 2 * (rssiDbm + 100)) ∧
    getRSSIasQuality (-75) = 50 ∧
    (0 ≤ getRSSIasQuality rssiDbm ∧ getRSSIasQuality rssiDbm ≤ 100) := by
  unfold getRSSIasQuality
  refine ⟨?_, ?_, ?_, by decide, ?_⟩
  · intro h; rw [if_pos h]
  · intro h
    have h1 : ¬ rssiDbm ≤ -100 := by omega
    rw [if_neg h1, if_pos h]
  · intro h1 h2
    rw [if_neg (by omega), if_neg (by omega)]
  · split_ifs <;> omega

theorem getRSSIasQuality_spec_witness :
    getRSSIasQuality (-120) = 0 ∧ getRSSIasQuality (-30) = 100 ∧
    getRSSIasQuality (-60) = 2 * (-60 + 100) :=
  ⟨(getRSSIasQuality_spec (-120)).1 (by decide),
   (getRSSIasQuality_spec (-30)).2.1 (by decide),
   (getRSSIasQuality_spec (-60)).2.2.1 (by decide) (by decide)⟩

/-- C18, counterexample: on the scan `tieScan` the entries 0 and 1 have the
same signal strength, and the sorted index array is `[2, 1, 0]`, so entry 1
comes before entry 0: the sort is not stable. -/
theorem rssiSort_unstable_counterexample :
    WiFi_RSSI tieScan 0 = WiFi_RSSI tieScan 1 ∧
    rssiSort tieScan = [2, 1, 0] ∧
    (rssiSort tieScan).indexOf 1 < (rssiSort tieScan).indexOf 0 := by
  decide

/-- C18, amended: the RSSI sort of `getScanItemOut` keeps the entries that
share the greatest signal strength of the scan in their scan order: read
along the sorted index array, the indices of strength `top` are the indices
of strength `top` in the order 0, 1, ..., n-1. -/
theorem rssiSort_keeps_strongest_ties (nets : List Network) (top : Int)
    (htop : ∀ e ∈ nets, e.rssi ≤ top) :
    (rssiSort nets).filter (fun i => decide (WiFi_RSSI nets i = top)) =
      ((List.range nets.length).map Int.ofNat).filter
        (fun i => decide (WiFi_RSSI nets i = top)) := by
  rw [rssiSort_eq]
  refine exchangeSort_filter_top (WiFi_RSSI nets) top nets.length _ ?_
  intro y hy
  obtain ⟨k, hk, hky⟩ := List.mem_map.mp hy
  have hlt := List.mem_range.mp hk
  rw [← hky, WiFi_RSSI_index nets k hlt]
  exact htop _ (List.get_mem _ _ _)

theorem rssiSort_keeps_strongest_ties_witness :
    (∀ e ∈ topTieScan, e.rssi ≤ -40) ∧
    (rssiSort topTieScan).filter (fun i => decide (WiFi_RSSI topTieScan i = -40)) =
      ((List.range topTieScan.length).map Int.ofNat).filter
        (fun i => decide (WiFi_RSSI topTieScan i = -40)) :=
  ⟨by decide, rssiSort_keeps_strongest_ties topTieScan (-40) (by decide)⟩

/-- C19: with duplicate removal enabled, after the sort and the duplicate
removal of `getScanItemOut` the index array holds, for the ssid of every
scan entry, exactly one live entry (one other than the marker -1) with that
ssid; and every live entry is an index of the scan whose signal strength is
at least that of every scan entry with the same ssid. -/
theorem dedup_keeps_strongest (nets : List Network) :
    (∀ k : Nat, k < nets.length →
      (rankedIndices nets true).countP
        (fun i => decide (i ≠ -1 ∧ WiFi_SSID nets i = WiFi_SSID nets (Int.ofNat k))) = 1) ∧
    (∀ i ∈ rankedIndices nets true, i ≠ -1 →
      (0 ≤ i ∧ i < nets.length) ∧
      ∀ k : Nat, k < nets.length → WiFi_SSID nets (Int.ofNat k) = WiFi_SSID nets i →
        WiFi_RSSI nets (Int.ofNat k) ≤ WiFi_RSSI nets i) := by
  rw [rankedIndices_dedup]
  have hlen : (rssiSort nets).length ≤ nets.length := le_of_eq (rssiSort_length nets)
  have hmem : ∀ k : Nat, k < nets.length → Int.ofNat k ∈ rssiSort nets := fun k hk =>
    (rssiSort_perm_range nets).mem_iff.mpr
      (List.mem_map.mpr ⟨k, List.mem_range.mpr hk, rfl⟩)
  have hlive : ∀ k : Nat, Int.ofNat k ≠ -1 := fun k h => by
    have h0 : (0 : Int) ≤ Int.ofNat k := Int.ofNat_nonneg k
    rw [h] at h0
    exact absurd h0 (by decide)
  constructor
  · intro k hk
    exact (dedupList_count (WiFi_SSID nets) _ nets.length (rssiSort nets) hlen).1
      ⟨Int.ofNat k, hmem k hk, hlive k, rfl⟩
  · intro i hi hne
    have hin : i ∈ rssiSort nets := by
      rcases dedupList_mem _ _ _ i hi with h | h
      · exact absurd h hne
      · exact h
    refine ⟨(mem_scanIndices nets.length i).mp ((rssiSort_perm_range nets).mem_iff.mp hin), ?_⟩
    intro k hk hs
    exact dedupList_strongest (WiFi_SSID nets) (WiFi_RSSI nets) nets.length (rssiSort nets) hlen
      ((rssiSort_pairwise nets).imp (fun h _ _ => h)) i hi hne (Int.ofNat k) (hmem k hk)
      (hlive k) hs

set_option maxRecDepth 100000 in
theorem dedup_keeps_strongest_witness :
    (rankedIndices dupScan true).countP
      (fun i => decide (i ≠ -1 ∧ WiFi_SSID dupScan i = WiFi_SSID dupScan (Int.ofNat 0))) = 1 ∧
    WiFi_RSSI dupScan (Int.ofNat 0) ≤ WiFi_RSSI dupScan 2 :=
  ⟨(dedup_keeps_strongest dupScan).1 0 (by decide),
   ((dedup_keeps_strongest dupScan).2 2 (by decide) (by decide)).2 0 (by decide) (by decide)⟩

set_option maxRecDepth 100000 in
/-- C20, counterexample: with threshold 50 the entry of signal strength -75,
whose quality is exactly 50, is in the index array but gets no item. -/
theorem minimumQuality_equal_counterexample :
    (1 : Int) ∈ rankedIndices dupScan true ∧
    getRSSIasQuality (WiFi_RSSI dupScan 1) = 50 ∧
    (1 : Int) ∉ getScanItemOut dupScan true 50 := by
  decide

/-- C20, amended: an entry of the index array that is not the marker -1 is
left out of the page by `getScanItemOut` exactly when the threshold is not
-1 and the quality of the entry is at most the threshold (an entry whose
quality equals the threshold is left out); threshold -1 leaves out
nothing. -/
theorem getScanItemOut_excludes_iff (nets : List Network) (dd : Bool) (minQ x : Int)
    (hx : x ∈ rankedIndices nets dd) (hlive : x ≠ -1) :
    (x ∉ getScanItemOut nets dd minQ ↔
      (minQ ≠ -1 ∧ getRSSIasQuality (WiFi_RSSI nets x) ≤ minQ)) ∧
    (minQ = -1 → x ∈ getScanItemOut nets dd minQ) := by
  have hn : ¬ nets.length = 0 := by
    intro h
    have hnil : nets = [] := List.length_eq_zero.mp h
    rw [hnil, rankedIndices_nil] at hx
    exact absurd hx (List.not_mem_nil x)
  have hmem : x ∈ getScanItemOut nets dd minQ ↔
      (minQ = -1 ∨ minQ < getRSSIasQuality (WiFi_RSSI nets x)) := by
    unfold getScanItemOut
    rw [if_neg hn, displayLoop_eq_filter, List.mem_filter]
    simp [hx, hlive]
  constructor
  · rw [hmem]
    constructor
    · intro h
      exact ⟨fun h1 => h (Or.inl h1), by
        by_contra h2
        exact h (Or.inr (by omega))⟩
    · rintro ⟨h1, h2⟩ h
      rcases h with h | h
      · exact h1 h
      · omega
  · intro h
    exact hmem.mpr (Or.inl h)

set_option maxRecDepth 100000 in
theorem getScanItemOut_excludes_iff_witness :
    ((1 : Int) ∉ getScanItemOut dupScan true 50 ↔
      ((50 : Int) ≠ -1 ∧ getRSSIasQuality (WiFi_RSSI dupScan 1) ≤ 50)) ∧
    ((50 : Int) = -1 → (1 : Int) ∈ getScanItemOut dupScan true 50) :=
  getScanItemOut_excludes_iff dupScan true 50 1 (by decide) (by decide)

/-! ## The value of a new parameter -/

theorem cString_append_nul (l rest : List Char) (h : nul ∉ l) :
    cString (l ++ nul :: rest) = some l := by
  induction l with
  | nil => simp [cString]
  | cons c cs ih =>
    have hc : c ≠ nul := fun e => h (e ▸ List.mem_cons_self _ _)
    have hcs : nul ∉ cs := fun e => h (List.mem_cons_of_mem _ e)
    show (if c = nul then some [] else (cString (cs ++ nul :: rest)).map (fun r => c :: r)) = _
    rw [if_neg hc, ih hcs]
    rfl

theorem cString_no_nul (l : List Char) (h : nul ∉ l) : cString l = none := by
  induction l with
  | nil => rfl
  | cons c cs ih =>
    have hc : c ≠ nul := fun e => h (e ▸ List.mem_cons_self _ _)
    have hcs : nul ∉ cs := fun e => h (List.mem_cons_of_mem _ e)
    show (if c = nul then some [] else (cString cs).map (fun r => c :: r)) = _
    rw [if_neg hc, ih hcs]
    rfl

theorem nul_not_mem_cstrOf (s : String) : nul ∉ cstrOf s := by
  intro h
  have := List.mem_takeWhile_imp h
  simp at this

/-- The buffer `init` leaves: always `length + 1` bytes; a default value of at
most `length` characters is stored with a terminator, a longer one fills the
buffer with its first `length + 1` characters and leaves no terminator. -/
theorem init_value (id placeholder : Option String) (d : String) (length : Nat)
    (custom : Option String) (labelPlacement : Int) :
    ∃ buf, (WiFiManagerParameter.init id placeholder (some d) length custom labelPlacement)._value
        = some buf ∧ buf.length = length + 1 ∧
      ((cstrOf d).length ≤ length → cString buf = some (cstrOf d)) ∧
      (length < (cstrOf d).length →
        buf = (cstrOf d).take (length + 1) ∧ nul ∉ buf ∧ cString buf = none) := by
  refine ⟨strncpy (List.replicate (length + 1) nul) (cstrOf d) (length + 1), rfl, ?_, ?_, ?_⟩
  · unfold strncpy
    simp only [List.length_append, List.length_take, List.length_replicate, List.length_drop]
    omega
  · intro hle
    unfold strncpy
    have ht : (cstrOf d).take (length + 1) = cstrOf d := List.take_of_length_le (by omega)
    have hr : List.replicate (length + 1 - (cstrOf d).length) nul =
        nul :: List.replicate (length - (cstrOf d).length) nul := by
      have : length + 1 - (cstrOf d).length = (length - (cstrOf d).length) + 1 := by omega
      rw [this]
      rfl
    rw [ht, hr, List.append_assoc]
    exact cString_append_nul _ _ (nul_not_mem_cstrOf d)
  · intro hlt
    have hb : strncpy (List.replicate (length + 1) nul) (cstrOf d) (length + 1) =
        (cstrOf d).take (length + 1) := by
      unfold strncpy
      have h0 : length + 1 - (cstrOf d).length = 0 := by omega
      rw [h0]
      simp
    rw [hb]
    have hn : nul ∉ (cstrOf d).take (length + 1) := fun h =>
      nul_not_mem_cstrOf d (List.mem_of_mem_take h)
    exact ⟨rfl, hn, cString_no_nul _ hn⟩

/-! ## Registration -/

/-- The final assignment of `addParameter` on a registry with a free slot. -/
theorem storeParameter_spec (p : Ptr) (r : Registry) (arr : List (Option Ptr))
    (h1 : r._params = some arr) (h2 : arr.length = r._max_params)
    (h3 : r._paramsCount < r._max_params) :
    ∃ r', storeParameter p r = some (true, r') ∧ r'.WellFormed ∧
      r'.entries = r.entries ++ [some p] ∧ r'._paramsCount = r._paramsCount + 1 ∧
      r'._max_params = r._max_params := by
  have hlt : r._paramsCount < arr.length := by omega
  refine ⟨{ r with _params := some (arr.set r._paramsCount (some p))
                   _paramsCount := r._paramsCount + 1 }, ?_, ?_, ?_, rfl, rfl⟩
  · unfold storeParameter
    rw [h1]
    dsimp only
    rw [if_pos hlt]
  · exact ⟨arr.set r._paramsCount (some p), rfl, by simpa using h2, by
      show r._paramsCount + 1 ≤ r._max_params
      omega⟩
  · show (arr.set r._paramsCount (some p)).take (r._paramsCount + 1) =
      (r._params.getD []).take r._paramsCount ++ [some p]
    rw [h1, List.set_eq_take_append_cons_drop, if_pos hlt]
    have hlen : (arr.take r._paramsCount).length = r._paramsCount := by
      rw [List.length_take]
      omega
    rw [List.take_append_eq_append_take, hlen]
    simp [List.take_take]

/-- One `addParameter` call on a usable registry whose `realloc` succeeds:
it returns the result of the id check, keeps the registry usable, and appends
the pointer to the entries exactly when the id passes. -/
theorem addParameter_step (MAXP : Nat) (hM : 0 < MAXP) (reallocOk : Nat → Bool)
    (heap : Heap) (p : Ptr) (r : Registry) (obj : WiFiManagerParameter) (id : String)
    (hp : heap p = some obj) (hid : obj._id = some id)
    (hre : r._paramsCount = r._max_params → reallocOk (r._max_params + MAXP) = true)
    (hr : r.WellFormed) :
    ∃ r', addParameter MAXP reallocOk heap p r = some (idLoop (cstrOf id), r') ∧
      r'.WellFormed ∧
      r'.entries = r.entries ++ (if idLoop (cstrOf id) = true then [some p] else []) ∧
      r'._paramsCount = r._paramsCount + (if idLoop (cstrOf id) = true then 1 else 0) ∧
      (idLoop (cstrOf id) = false → r' = r) := by
  obtain ⟨arr, ha, hlen, hle⟩ := hr
  unfold addParameter
  rw [hp]
  dsimp only
  rw [hid]
  dsimp only
  by_cases hv : idLoop (cstrOf id) = false
  · rw [if_pos hv, hv]
    exact ⟨r, rfl, ⟨arr, ha, hlen, hle⟩, by simp, by simp, fun _ => rfl⟩
  · have hv1 : idLoop (cstrOf id) = true := by simpa using hv
    rw [if_neg hv, hv1]
    by_cases hfull : r._paramsCount = r._max_params
    · rw [if_pos hfull, if_pos (hre hfull)]
      have hgrow : reallocSlots (r._params.getD []) (r._max_params + MAXP) =
          arr ++ List.replicate MAXP none := by
        rw [ha]
        unfold reallocSlots
        show arr.take (r._max_params + MAXP) ++
          List.replicate (r._max_params + MAXP - arr.length) none = _
        rw [List.take_of_length_le (by omega), hlen]
        congr 2
        omega
      obtain ⟨r', h1, h2, h3, h4, _⟩ := storeParameter_spec p
        { r with _max_params := r._max_params + MAXP
                 _params := some (reallocSlots (r._params.getD []) (r._max_params + MAXP)) }
        (arr ++ List.replicate MAXP none) (by rw [hgrow])
        (by simp [hlen]) (by show r._paramsCount < r._max_params + MAXP; omega)
      refine ⟨r', h1, h2, ?_, by simpa using h4, fun h => by cases h⟩
      rw [h3]
      simp only [if_true]
      congr 1
      show (reallocSlots (r._params.getD []) (r._max_params + MAXP)).take r._paramsCount =
        (r._params.getD []).take r._paramsCount
      rw [hgrow, ha]
      exact List.take_append_of_le_length (by show r._paramsCount ≤ arr.length; omega)
    · rw [if_neg hfull]
      obtain ⟨r', h1, h2, h3, h4, _⟩ := storeParameter_spec p r arr ha hlen (by omega)
      exact ⟨r', h1, h2, by simpa using h3, by simpa using h4, fun h => by cases h⟩

theorem constructRegistry_wellFormed (MAXP : Nat) (r0 : Registry) (h0 : r0._paramsCount = 0) :
    (constructRegistry MAXP true r0).WellFormed ∧ (constructRegistry MAXP true r0).entries = [] ∧
    (constructRegistry MAXP true r0)._paramsCount = 0 := by
  refine ⟨⟨List.replicate MAXP none, rfl, by simp [constructRegistry], ?_⟩, ?_, h0⟩
  · show r0._paramsCount ≤ MAXP
    omega
  · show (List.replicate MAXP none).take r0._paramsCount = []
    rw [h0]
    rfl

/-- A sequence of `addParameter` calls with non-null ids on a usable registry
whose `realloc` calls succeed: every call returns, the entries grow by the
accepted pointers in call order, and the registry stays usable. -/
theorem addParameters_invariant (MAXP : Nat) (hM : 0 < MAXP) (reallocOk : Nat → Bool)
    (hre : ∀ n, reallocOk n = true) (heap : Heap) :
    ∀ (ps : List Ptr) (r : Registry),
      (∀ p ∈ ps, ((heap p).bind (fun obj => obj._id)).isSome = true) → r.WellFormed →
      ∃ r', addParameters MAXP reallocOk heap ps r = some (ps.map (idAccepted heap), r') ∧
        r'.WellFormed ∧ r'.entries = r.entries ++ (accepted heap ps).map some ∧
        r'._paramsCount = r._paramsCount + (accepted heap ps).length := by
  intro ps
  induction ps with
  | nil =>
    intro r _ hr
    exact ⟨r, rfl, hr, by simp [accepted], by simp [accepted]⟩
  | cons p ps ih =>
    intro r hps hr
    have hp := hps p (List.mem_cons_self _ _)
    cases hobj : heap p with
    | none => rw [hobj] at hp; cases hp
    | some obj =>
      cases hid : obj._id with
      | none => rw [hobj] at hp; simp [hid] at hp
      | some id =>
        obtain ⟨r1, h1, hw1, he1, hc1, _⟩ :=
          addParameter_step MAXP hM reallocOk heap p r obj id hobj hid (fun _ => hre _) hr
        obtain ⟨r2, h2, hw2, he2, hc2⟩ :=
          ih r1 (fun q hq => hps q (List.mem_cons_of_mem _ hq)) hw1
        have hacc : idAccepted heap p = idLoop (cstrOf id) := by
          unfold idAccepted
          rw [hobj]
          dsimp only
          rw [hid]
          rfl
        refine ⟨r2, ?_, hw2, ?_, ?_⟩
        · show (match addParameter MAXP reallocOk heap p r with
            | none => none
            | some (b, r1) =>
              match addParameters MAXP reallocOk heap ps r1 with
              | none => none
              | some (bs, r2) => some (b :: bs, r2)) = _
          rw [h1]
          dsimp only
          rw [h2]
          dsimp only
          rw [List.map_cons, hacc]
        · rw [he2, he1]
          unfold accepted
          rw [List.filter_cons, hacc]
          by_cases hv : idLoop (cstrOf id) = true
          · simp [hv]
          · simp [hv]
        · rw [hc2, hc1]
          unfold accepted
          rw [List.filter_cons, hacc]
          by_cases hv : idLoop (cstrOf id) = true
          · simp [hv]; omega
          · simp [hv]

/-! ## Absorbing submitted values -/

theorem nul_not_mem_submitted (arg : String → String) (i : Nat) (obj : WiFiManagerParameter) :
    nul ∉ submitted arg i obj := by
  unfold submitted
  split_ifs
  · exact nul_not_mem_cstrOf _
  · exact nul_not_mem_cstrOf _

/-- The call `toCharArray` on a buffer of `n + 1` bytes stores the first
`min n len` characters of a value without terminators, then a terminator. -/
theorem toCharArray_spec (v buf : List Char) (n : Nat) (hv : nul ∉ v)
    (hl : buf.length = n + 1) :
    ∃ b, toCharArray v (some buf) (n + 1) = some b ∧ b.length = n + 1 ∧
      cString b = some (v.take (min n v.length)) := by
  unfold toCharArray
  dsimp only
  rw [if_neg (Nat.succ_ne_zero n)]
  by_cases h0 : v.length = 0
  · rw [if_pos h0]
    have hnil : v = [] := List.length_eq_zero.mp h0
    cases buf with
    | nil => cases hl
    | cons c cs =>
      refine ⟨nul :: cs, rfl, by simpa using hl, ?_⟩
      rw [hnil]
      simp [cString]
  · rw [if_neg h0]
    have hm : n + 1 - 1 = n := rfl
    rw [hm]
    refine ⟨_, rfl, ?_, ?_⟩
    · simp only [List.length_append, List.length_take, List.length_singleton,
        List.length_drop, hl]
      have : min n v.length ≤ n := Nat.min_le_left _ _
      have h2 : min (min n v.length) v.length = min n v.length := by
        apply Nat.min_eq_left
        exact Nat.min_le_right _ _
      omega
    · rw [List.append_assoc]
      exact cString_append_nul _ _ (fun h => hv (List.mem_of_mem_take h))

/-- The object after the assignment of `handleWifiSave`: same capacity, a
buffer of the same size, and as value the submitted one cut to the
capacity. -/
theorem absorb_spec (arg : String → String) (i : Nat) (obj : WiFiManagerParameter)
    (buf : List Char) (hb : obj._value = some buf) (hl : buf.length = obj._length + 1) :
    (absorb arg i obj)._length = obj._length ∧ (absorb arg i obj)._id = obj._id ∧
    (∃ b, (absorb arg i obj)._value = some b ∧ b.length = obj._length + 1) ∧
    getValue (absorb arg i obj) =
      some ((submitted arg i obj).take (min obj._length (submitted arg i obj).length)) := by
  obtain ⟨b, h1, h2, h3⟩ := toCharArray_spec (submitted arg i obj) buf obj._length
    (nul_not_mem_submitted arg i obj) hl
  have hv : (absorb arg i obj)._value = some b := by
    show toCharArray (submitted arg i obj) obj._value (obj._length + 1) = some b
    rw [hb, h1]
  refine ⟨rfl, rfl, ⟨b, hv, h2⟩, ?_⟩
  unfold getValue
  rw [hv]
  exact h3

theorem store_same (h : Heap) (p : Ptr) (obj : WiFiManagerParameter) :
    h.store p obj p = some obj := by
  unfold Heap.store
  rw [if_pos rfl]

theorem store_other (h : Heap) (p q : Ptr) (obj : WiFiManagerParameter) (hq : q ≠ p) :
    h.store p obj q = h q := by
  unfold Heap.store
  rw [if_neg hq]

/-- The parameter loop from index `i` for `k` iterations, over slots that
hold distinct pointers to objects: it returns, every object of a slot in the
range is replaced by its `absorb`, and every other address is untouched. -/
theorem saveLoop_spec (arg : String → String) (arr : List (Option Ptr)) :
    ∀ (k i : Nat) (h : Heap),
      (∀ j, i ≤ j → j < i + k → ∃ p obj, arr.get? j = some (some p) ∧ p ≠ 0 ∧ h p = some obj) →
      (∀ j1 j2, i ≤ j1 → j1 < j2 → j2 < i + k → arr.get? j1 ≠ arr.get? j2) →
      ∃ h', saveLoop arg arr i k h = some h' ∧
        (∀ q, (∀ j, i ≤ j → j < i + k → arr.get? j ≠ some (some q)) → h' q = h q) ∧
        (∀ j p obj, i ≤ j → j < i + k → arr.get? j = some (some p) → h p = some obj →
          h' p = some (absorb arg j obj)) := by
  intro k
  induction k with
  | zero =>
    intro i h _ _
    exact ⟨h, rfl, fun _ _ => rfl, fun j _ _ h1 h2 => absurd h2 (by omega)⟩
  | succ k ih =>
    intro i h hslots hdist
    obtain ⟨p, obj, hget, hp0, hobj⟩ := hslots i (le_refl _) (by omega)
    have hlater : ∀ j, i + 1 ≤ j → j < i + 1 + k → arr.get? j ≠ some (some p) := by
      intro j h1 h2 he
      exact hdist i j (le_refl _) (by omega) (by omega) (hget.trans he.symm)
    obtain ⟨h', hrun, hframe, hval⟩ := ih (i + 1) (h.store p (absorb arg i obj))
      (by
        intro j h1 h2
        obtain ⟨pj, oj, hgj, hpj, hoj⟩ := hslots j (by omega) (by omega)
        have hne : pj ≠ p := fun e => hlater j h1 h2 (by rw [hgj, e])
        exact ⟨pj, oj, hgj, hpj, by rw [store_other _ _ _ _ hne]; exact hoj⟩)
      (fun j1 j2 h1 h2 h3 => hdist j1 j2 (by omega) h2 (by omega))
    refine ⟨h', ?_, ?_, ?_⟩
    · show (match arr.get? i with
        | some (some p) =>
          if p = 0 then some h
          else
            match h p with
            | none => none
            | some obj => saveLoop arg arr (i + 1) k (h.store p (absorb arg i obj))
        | _ => none) = some h'
      rw [hget]
      dsimp only
      rw [if_neg hp0, hobj]
      exact hrun
    · intro q hq
      have hqp : q ≠ p := fun e => hq i (le_refl _) (by omega) (by rw [hget, e])
      rw [hframe q (fun j h1 h2 => hq j (by omega) (by omega)), store_other _ _ _ _ hqp]
    · intro j pj oj h1 h2 hgj hoj
      by_cases hj : j = i
      · subst hj
        have hpp : pj = p := by
          have := hgj.symm.trans hget
          injection this with this
          injection this
        have hoo : oj = obj := by
          rw [hpp, hobj] at hoj
          injection hoj with hoj
          exact hoj.symm
        rw [hpp, hoo, hframe p hlater, store_same]
      · have hne : pj ≠ p := fun e => hlater j (by omega) (by omega) (by rw [hgj, e])
        exact hval j pj oj (by omega) (by omega) hgj
          (by rw [store_other _ _ _ _ hne]; exact hoj)

/-! ## Custom parameters: the claims -/

/-- C13, at the failing input: the parameter constructed with default value
"abcdefgh" and capacity 5 has a buffer of six bytes that holds "abcdef" and
no terminator, so its value is not a terminated string of at most five
characters. -/
theorem init_overlong_default :
    (newParameter 1 (some "id") (some "ph") (some "abcdefgh") 5)._length = 5 ∧
    (newParameter 1 (some "id") (some "ph") (some "abcdefgh") 5)._value =
      some ['a', 'b', 'c', 'd', 'e', 'f'] ∧
    getValue (newParameter 1 (some "id") (some "ph") (some "abcdefgh") 5) = none := by
  decide

/-- C14: when the registered slots hold distinct pointers to parameter
objects, each with a buffer of capacity + 1 bytes, the parameter loop of
`handleWifiSave` returns, and afterwards the value of every registered
parameter is the first `min n |v|` characters of the string `v` submitted
for it, terminated, so that its length is at most the capacity `n`. -/
theorem handleWifiSave_truncates (arg : String → String) (r : Registry) (h : Heap)
    (arr : List (Option Ptr)) (hr : r._params = some arr)
    (hreg : ∀ i, i < r._paramsCount → ∃ p obj buf, arr.get? i = some (some p) ∧ p ≠ 0 ∧
      h p = some obj ∧ obj._value = some buf ∧ buf.length = obj._length + 1)
    (hnd : (arr.take r._paramsCount).Nodup) :
    ∃ h', handleWifiSaveParams arg r h = some h' ∧
      ∀ i p obj, i < r._paramsCount → arr.get? i = some (some p) → h p = some obj →
        ∃ obj', h' p = some obj' ∧ obj'._length = obj._length ∧
          getValue obj' = some
            ((submitted arg i obj).take (min obj._length (submitted arg i obj).length)) ∧
          ((submitted arg i obj).take
            (min obj._length (submitted arg i obj).length)).length ≤ obj._length := by
  have hbound : r._paramsCount ≤ arr.length := by
    by_contra hlt
    have hpos : 0 < r._paramsCount := by omega
    obtain ⟨p, obj, buf, hget, _⟩ := hreg (r._paramsCount - 1) (by omega)
    have hnone : arr.get? (r._paramsCount - 1) = none := List.get?_eq_none.mpr (by omega)
    rw [hnone] at hget
    cases hget
  have hdist : ∀ j1 j2, 0 ≤ j1 → j1 < j2 → j2 < 0 + r._paramsCount →
      arr.get? j1 ≠ arr.get? j2 := by
    intro j1 j2 _ h12 h2
    have h2c : j2 < r._paramsCount := by omega
    have hn := List.nodup_iff_getElem?_ne_getElem?.mp hnd j1 j2 h12
      (by rw [List.length_take]; omega)
    rw [List.getElem?_take, List.getElem?_take, if_pos (by omega), if_pos h2c] at hn
    rw [List.get?_eq_getElem?, List.get?_eq_getElem?]
    exact hn
  obtain ⟨h', hrun, _, hval⟩ := saveLoop_spec arg arr r._paramsCount 0 h
    (fun j _ hj => by
      obtain ⟨p, obj, _, hget, hp, hobj, _⟩ := hreg j (by omega)
      exact ⟨p, obj, hget, hp, hobj⟩)
    hdist
  have hrun2 : handleWifiSaveParams arg r h = some (if r._paramsCount > 0 then h' else h) := by
    unfold handleWifiSaveParams
    by_cases hc : r._paramsCount > 0
    · rw [if_pos hc, if_pos hc, hr]
      exact hrun
    · rw [if_neg hc, if_neg hc]
  refine ⟨_, hrun2, ?_⟩
  intro i p obj hi hget hobj
  rw [if_pos (by omega)]
  obtain ⟨p2, obj2, buf, hget2, _, hobj2, hbuf, hlen⟩ := hreg i hi
  have hpp : p2 = p := by
    have := hget2.symm.trans hget
    injection this with this
    injection this
  have hoo : obj2 = obj := by
    rw [hpp, hobj] at hobj2
    injection hobj2 with hobj2
    exact hobj2.symm
  rw [hoo] at hbuf hlen
  obtain ⟨a1, _, _, a4⟩ := absorb_spec arg i obj buf hbuf hlen
  refine ⟨absorb arg i obj, hval i p obj (Nat.zero_le _) (by omega) hget hobj, a1, a4, ?_⟩
  rw [List.length_take]
  exact le_trans (Nat.min_le_left _ _) (Nat.min_le_left _ _)

set_option maxRecDepth 100000 in
theorem handleWifiSave_truncates_witness :
    ∃ h', handleWifiSaveParams formArgs savedRegistry paramHeap = some h' ∧
      ∃ obj', h' 1 = some obj' ∧ obj'._length = 5 ∧
        getValue obj' = some ['a', 'b', 'c', 'd', 'e'] :=
  match handleWifiSave_truncates formArgs savedRegistry paramHeap [some 1, some 4] rfl
    (fun i hi => by
      have hi2 : i < 2 := hi
      have h01 : i = 0 ∨ i = 1 := by omega
      rcases h01 with rfl | rfl
      · exact ⟨1, _, _, rfl, by decide, rfl, rfl, rfl⟩
      · exact ⟨4, _, _, rfl, by decide, rfl, rfl, rfl⟩)
    (by decide) with
  | ⟨h', hrun, hall⟩ =>
    match hall 0 1 _ (by decide) rfl rfl with
    | ⟨obj', ho, hl, hv, _⟩ => ⟨h', hrun, obj', ho, hl, hv.trans (by decide)⟩

/-- C16, at the failing input: a parameter made by the one-argument
constructor has a null id, and `addParameter` on it dereferences `NULL` in
`strlen`, so the call does not return and a call sequence that contains it
leaves no registry to read. -/
theorem addParameter_null_id :
    (newCustomParameter 1 (some "<p>note</p>"))._id = none ∧
    customHeap 5 = some (newCustomParameter 1 (some "<p>note</p>")) ∧
    addParameter 2 (fun _ => true) customHeap 5 freshRegistry = none ∧
    addParameters 2 (fun _ => true) customHeap [1, 5, 4] freshRegistry = none := by
  decide

/-- Registration with non-null ids: from the registry of a new manager
(count 0, `malloc` succeeded, positive block size), for every sequence of
`addParameter` calls with non-null ids in which every `realloc` succeeds,
every call returns the result of its id check; afterwards the entries are
exactly the accepted pointers in call order, the count is their number, and
the count is at most `_max_params`; a further sequence of calls leaves these
entries in place and appends its own accepted pointers, again with the count
within `_max_params`. -/
theorem registry_keeps_insertion_order (MAXP : Nat) (hM : 0 < MAXP)
    (reallocOk : Nat → Bool) (hre : ∀ n, reallocOk n = true) (heap : Heap) (r0 : Registry)
    (h0 : r0._paramsCount = 0) (ps qs : List Ptr)
    (hps : ∀ p ∈ ps, ((heap p).bind (fun obj => obj._id)).isSome = true)
    (hqs : ∀ p ∈ qs, ((heap p).bind (fun obj => obj._id)).isSome = true) :
    ∃ r1 r2,
      addParameters MAXP reallocOk heap ps (constructRegistry MAXP true r0) =
        some (ps.map (idAccepted heap), r1) ∧
      addParameters MAXP reallocOk heap qs r1 = some (qs.map (idAccepted heap), r2) ∧
      r1.entries = (accepted heap ps).map some ∧
      r1._paramsCount = (accepted heap ps).length ∧
      r1._paramsCount ≤ r1._max_params ∧
      r2.entries = r1.entries ++ (accepted heap qs).map some ∧
      r2._paramsCount = r1._paramsCount + (accepted heap qs).length ∧
      r2._paramsCount ≤ r2._max_params := by
  obtain ⟨hw0, he0, hc0⟩ := constructRegistry_wellFormed MAXP r0 h0
  obtain ⟨r1, h1, hw1, he1, hc1⟩ :=
    addParameters_invariant MAXP hM reallocOk hre heap ps _ hps hw0
  obtain ⟨r2, h2, hw2, he2, hc2⟩ :=
    addParameters_invariant MAXP hM reallocOk hre heap qs r1 hqs hw1
  obtain ⟨_, _, _, hle1⟩ := hw1
  obtain ⟨_, _, _, hle2⟩ := hw2
  refine ⟨r1, r2, h1, h2, ?_, ?_, hle1, he2, hc2, hle2⟩
  · rw [he1, he0]
    rfl
  · rw [hc1, hc0]
    omega

set_option maxRecDepth 100000 in
theorem registry_keeps_insertion_order_witness :
    ∃ r1 r2,
      addParameters 2 (fun _ => true) paramHeap [1, 2, 3] (constructRegistry 2 true ⟨none, 0, 0⟩) =
        some ([1, 2, 3].map (idAccepted paramHeap), r1) ∧
      addParameters 2 (fun _ => true) paramHeap [4, 1] r1 =
        some ([4, 1].map (idAccepted paramHeap), r2) ∧
      r1.entries = (accepted paramHeap [1, 2, 3]).map some ∧
      r1._paramsCount = (accepted paramHeap [1, 2, 3]).length ∧
      r1._paramsCount ≤ r1._max_params ∧
      r2.entries = r1.entries ++ (accepted paramHeap [4, 1]).map some ∧
      r2._paramsCount = r1._paramsCount + (accepted paramHeap [4, 1]).length ∧
      r2._paramsCount ≤ r2._max_params :=
  registry_keeps_insertion_order 2 (by decide) (fun _ => true) (fun _ => rfl) paramHeap
    ⟨none, 0, 0⟩ rfl [1, 2, 3] [4, 1] (by decide) (by decide)

/-! ## The sort on a sorted scan -/

theorem filterMap_get?_range {α : Type} (l : List α) :
    (List.range l.length).filterMap (fun k => l.get? k) = l := by
  induction l using List.reverseRecOn with
  | nil => rfl
  | append_singleton init x ih =>
    rw [List.length_append, List.length_singleton, List.range_succ, List.filterMap_append]
    have h1 : (List.range init.length).filterMap (fun k => (init ++ [x]).get? k) =
        (List.range init.length).filterMap (fun k => init.get? k) := by
      apply List.filterMap_congr
      intro k hk
      have hk2 := List.mem_range.mp hk
      rw [List.get?_eq_getElem?, List.get?_eq_getElem?, List.getElem?_append_left hk2]
    rw [h1, ih]
    simp

/-- The inner loop of the sort over a range in which no entry is stronger
than the entry at the outer index: no swap, and the array is unchanged. -/
theorem sortInner_noswap (nets : List Network) (i : Nat) :
    ∀ (k j : Nat) (a : List Int),
      (∀ t, j ≤ t → t < j + k → WiFi_RSSI nets (a.getD t 0) ≤ WiFi_RSSI nets (a.getD i 0)) →
      sortInner nets i j k a = a ∧ sortInnerSwaps nets i j k a = 0 := by
  intro k
  induction k with
  | zero => intro j a _; exact ⟨rfl, rfl⟩
  | succ k ih =>
    intro j a h
    have hj : ¬ WiFi_RSSI nets (a.getD j 0) > WiFi_RSSI nets (a.getD i 0) := by
      have := h j (le_refl _) (by omega)
      omega
    have hrec := ih (j + 1) a (fun t h1 h2 => h t (by omega) (by omega))
    constructor
    · show sortInner nets i (j + 1) k
        (if WiFi_RSSI nets (a.getD j 0) > WiFi_RSSI nets (a.getD i 0) then swapAt a i j else a) = a
      rw [if_neg hj]
      exact hrec.1
    · show (if WiFi_RSSI nets (a.getD j 0) > WiFi_RSSI nets (a.getD i 0) then
          1 + sortInnerSwaps nets i (j + 1) k (swapAt a i j)
        else sortInnerSwaps nets i (j + 1) k a) = 0
      rw [if_neg hj]
      exact hrec.2

/-- The outer loop of the sort over an array that reads non-increasing
signal strengths from the outer index on: no swap, and the array is
unchanged. -/
theorem sortOuter_noswap (nets : List Network) (n : Nat) :
    ∀ (k i : Nat) (a : List Int),
      (∀ s t, i ≤ s → s < t → t < n →
        WiFi_RSSI nets (a.getD t 0) ≤ WiFi_RSSI nets (a.getD s 0)) →
      sortOuter nets n i k a = a ∧ sortOuterSwaps nets n i k a = 0 := by
  intro k
  induction k with
  | zero => intro i a _; exact ⟨rfl, rfl⟩
  | succ k ih =>
    intro i a h
    have hin := sortInner_noswap nets i (n - (i + 1)) (i + 1) a
      (fun t h1 h2 => h i t (le_refl _) (by omega) (by omega))
    have hrec := ih (i + 1) a (fun s t h1 h2 h3 => h s t (by omega) h2 h3)
    constructor
    · show sortOuter nets n (i + 1) k (sortInner nets i (i + 1) (n - (i + 1)) a) = a
      rw [hin.1]
      exact hrec.1
    · show sortInnerSwaps nets i (i + 1) (n - (i + 1)) a +
        sortOuterSwaps nets n (i + 1) k (sortInner nets i (i + 1) (n - (i + 1)) a) = 0
      rw [hin.1, hin.2, hrec.2]

theorem scanIndices_getD (n t : Nat) (h : t < n) :
    ((List.range n).map Int.ofNat).getD t 0 = Int.ofNat t := by
  rw [List.getD_eq_getElem?_getD, List.getElem?_map, List.getElem?_range h]
  rfl

/-- On a scan in non-increasing signal strength the index array
`0, ..., n-1` reads non-increasing signal strengths. -/
theorem scanIndices_sorted (nets : List Network)
    (h : nets.Pairwise (fun a b => b.rssi ≤ a.rssi)) (s t : Nat) (hst : s < t)
    (ht : t < nets.length) :
    WiFi_RSSI nets (((List.range nets.length).map Int.ofNat).getD t 0) ≤
      WiFi_RSSI nets (((List.range nets.length).map Int.ofNat).getD s 0) := by
  have hs : s < nets.length := by omega
  rw [scanIndices_getD _ t ht, scanIndices_getD _ s hs, WiFi_RSSI_index nets t ht,
    WiFi_RSSI_index nets s hs]
  exact List.pairwise_iff_getElem.mp h s t hs ht hst

theorem rssiSort_of_sorted (nets : List Network)
    (h : nets.Pairwise (fun a b => b.rssi ≤ a.rssi)) :
    rssiSort nets = (List.range nets.length).map Int.ofNat ∧ rssiSortSwaps nets = 0 :=
  sortOuter_noswap nets nets.length nets.length 0 _
    (fun s t _ hst ht => scanIndices_sorted nets h s t hst ht)

theorem rankedScan_of_sorted (nets : List Network)
    (h : nets.Pairwise (fun a b => b.rssi ≤ a.rssi)) : rankedScan nets = nets := by
  unfold rankedScan
  rw [(rssiSort_of_sorted nets h).1, List.filterMap_map]
  exact filterMap_get?_range nets

theorem rankedScan_sorted (nets : List Network) :
    (rankedScan nets).Pairwise (fun a b => b.rssi ≤ a.rssi) := by
  unfold rankedScan
  rw [List.pairwise_filterMap]
  refine (rssiSort_pairwise nets).imp ?_
  intro i j hij b hb c hc
  have key : ∀ (x : Int) (e : Network),
      e ∈ (if 0 ≤ x then nets.get? x.toNat else none) → WiFi_RSSI nets x = e.rssi := by
    intro x e he
    unfold WiFi_RSSI
    by_cases hx : 0 ≤ x
    · rw [if_pos hx] at he ⊢
      rw [Option.mem_def.mp he]
      rfl
    · rw [if_neg hx] at he
      cases he
  rw [← key i b hb, ← key j c hc]
  exact hij

/-! ## Ranking and redirect: the claims -/

/-- C21: on a scan that is already in non-increasing signal strength the
RSSI sort of `getScanItemOut` makes no swap and leaves the index array at
`0, 1, ..., n-1`, so the ranked list is the scan itself; hence, for every
scan, ranking the ranked list returns it unchanged. -/
theorem rssiSort_sorted_input (nets : List Network) :
    (nets.Pairwise (fun a b => b.rssi ≤ a.rssi) →
      rssiSortSwaps nets = 0 ∧
      rssiSort nets = (List.range nets.length).map Int.ofNat ∧
      rankedScan nets = nets) ∧
    rssiSortSwaps (rankedScan nets) = 0 ∧
    rankedScan (rankedScan nets) = rankedScan nets := by
  refine ⟨?_, ?_, ?_⟩
  · intro h
    exact ⟨(rssiSort_of_sorted nets h).2, (rssiSort_of_sorted nets h).1,
      rankedScan_of_sorted nets h⟩
  · exact (rssiSort_of_sorted _ (rankedScan_sorted nets)).2
  · exact rankedScan_of_sorted _ (rankedScan_sorted nets)

theorem rssiSort_sorted_input_witness :
    sortedScan.Pairwise (fun a b => b.rssi ≤ a.rssi) ∧
    rssiSortSwaps sortedScan = 0 ∧
    rssiSort sortedScan = (List.range sortedScan.length).map Int.ofNat ∧
    rankedScan sortedScan = sortedScan :=
  ⟨by decide, (rssiSort_sorted_input sortedScan).1 (by decide)⟩

/-- C22: for every scan of `n` results the index array after the RSSI sort of
`getScanItemOut` is a permutation of `0, ..., n-1`: it has `n` entries, each
an index of the scan, and every index of the scan occurs in it exactly once;
and the signal strengths read along it are non-increasing. -/
theorem rssiSort_permutation_sorted (nets : List Network) :
    (rssiSort nets).Perm ((List.range nets.length).map Int.ofNat) ∧
    (rssiSort nets).length = nets.length ∧
    (∀ i ∈ rssiSort nets, 0 ≤ i ∧ i < nets.length) ∧
    (∀ k : Nat, k < nets.length → (rssiSort nets).count (Int.ofNat k) = 1) ∧
    (rssiSort nets).Pairwise (fun a b => WiFi_RSSI nets b ≤ WiFi_RSSI nets a) := by
  have hperm := rssiSort_perm_range nets
  refine ⟨hperm, rssiSort_length nets, ?_, ?_, rssiSort_pairwise nets⟩
  · intro i hi
    exact (mem_scanIndices nets.length i).mp (hperm.mem_iff.mp hi)
  · intro k hk
    rw [hperm.count_eq]
    have hnd : ((List.range nets.length).map Int.ofNat).Nodup :=
      (List.nodup_range nets.length).map (fun a b hab => Int.ofNat.inj hab)
    exact List.count_eq_one_of_mem hnd
      (List.mem_map.mpr ⟨k, List.mem_range.mpr hk, rfl⟩)

set_option maxRecDepth 100000 in
theorem rssiSort_permutation_sorted_witness :
    (rssiSort dupScan).count (Int.ofNat 3) = 1 ∧ (0 : Int) ≤ 4 ∧ (4 : Int) < dupScan.length :=
  ⟨(rssiSort_permutation_sorted dupScan).2.2.2.1 3 (by decide),
   (rssiSort_permutation_sorted dupScan).2.2.1 4 (by decide)⟩

/-- C23: for every host header, `captivePortal` returns false and makes no
call on the server when the captive-portal toggle is disabled; when it is
enabled it returns true iff the host header has a character that is neither
a decimal digit nor a dot; `isIp` is true exactly when every character is a
digit or a dot; a false result comes with no call on the server, a true
result with the 302 redirect to the local address. -/
theorem captivePortal_toggle_and_class (m : Manager) (host : String) (ip : Nat) :
    (m._enableCaptivePortal = false → captivePortal m host ip = (false, [])) ∧
    (m._enableCaptivePortal = true →
      ((captivePortal m host ip).1 = true ↔ ∃ c ∈ host.data, ¬ dotOrDigit c)) ∧
    (isIp host = true ↔ ∀ c ∈ host.data, dotOrDigit c) ∧
    ((captivePortal m host ip).1 = false → (captivePortal m host ip).2 = []) ∧
    ((captivePortal m host ip).1 = true →
      (captivePortal m host ip).2 =
        [Event.sendHeader "Location" ("http://" ++ toStringIp ip),
         Event.send 302 "text/plain" "", Event.clientStop]) := by
  have hiff : isIp host = true ↔ ∀ c ∈ host.data, dotOrDigit c := isIpLoop_iff _
  refine ⟨?_, ?_, hiff, ?_, ?_⟩
  · intro h
    unfold captivePortal
    rw [if_pos h]
  · intro h
    rw [captivePortal_fst, h]
    simp only [Bool.true_and, Bool.not_eq_true', ← Bool.not_eq_true, hiff]
    simp
  · unfold captivePortal
    split_ifs
    · intro _; rfl
    · intro h; cases h
    · intro _; rfl
  · unfold captivePortal
    split_ifs
    · intro h; cases h
    · intro _; rfl
    · intro h; cases h

theorem captivePortal_toggle_and_class_witness :
    (captivePortal exampleManager "192.168.4.1" 0).1 = false ∧
    (captivePortal exampleManager "anything.example" 0).1 = true ∧
    captivePortal portalOffManager "x" 0 = (false, []) :=
  ⟨Bool.eq_false_iff.mpr (fun h =>
      (by decide : ¬ ∃ c ∈ "192.168.4.1".data, ¬ dotOrDigit c)
        (((captivePortal_toggle_and_class exampleManager "192.168.4.1" 0).2.1 (by decide)).mp h)),
   ((captivePortal_toggle_and_class exampleManager "anything.example" 0).2.1 (by decide)).mpr
      ⟨'a', by decide, by decide⟩,
   (captivePortal_toggle_and_class portalOffManager "x" 0).1 (by decide)⟩

end WiFiManager
